import Mathlib

set_option maxRecDepth 100000

/-!
Shallow embedding of `term_colors.py`, a terminal color-scheme utility.

The embedding follows the source file: escape-sequence constants (lines 9-15),
the hex-to-RGB codec `_hex2rgb` (lines 32-37) together with a model of the
CPython builtin `int(x, 16)` it calls, the scheme-wide conversion
`_hex2rgb_dict` (lines 40-49), the terminal actions `set_colors` (lines 52-61)
and `show_colors` (lines 64-101), the dispatcher `main` (lines 104-117), and
the 390-entry registry `color_schemes` (lines 120-511).

Output-producing procedures are modelled as functions returning the exact
string they print to standard output; a procedure that would raise an uncaught
exception is modelled as returning `none`.
-/

/-- `ANSI = "\x1b]4;"` (source line 9): OSC introducer for the palette-set
sequence. -/
def ANSI : String := "\x1b]4;"

/-- `END = "\x07"` (line 10): the BEL character, OSC terminator. -/
def END : String := "\x07"

/-- `BG = "\x1b]11;"` (line 11): OSC introducer for the background-set
sequence. -/
def BG : String := "\x1b]11;"

/-- `BGTC = "\x1b[48;2;"` (line 12): CSI introducer for truecolor
background. -/
def BGTC : String := "\x1b[48;2;"

/-- `FG = "\x1b]10;"` (line 13): OSC introducer for the foreground-set
sequence. -/
def FG : String := "\x1b]10;"

/-- `FGTC = "\x1b[38;2;"` (line 14): CSI introducer for truecolor
foreground. -/
def FGTC : String := "\x1b[38;2;"

/-- `RESET = "\x1b[0m"` (line 15): SGR reset. -/
def RESET : String := "\x1b[0m"

/-- Value of a single ASCII hexadecimal digit character, `none` for any other
character.  This is the digit recognizer of the CPython builtin `int(x, 16)`
called by `_hex2rgb` (line 36), restricted to ASCII: CPython additionally
accepts non-ASCII Unicode decimal-digit characters, which this model (and all
data in this repository) does not use. -/
def hexDigitVal? (c : Char) : Option Nat :=
  if 48 ≤ c.toNat ∧ c.toNat ≤ 57 then some (c.toNat - 48)
  else if 97 ≤ c.toNat ∧ c.toNat ≤ 102 then some (c.toNat - 87)
  else if 65 ≤ c.toNat ∧ c.toNat ≤ 70 then some (c.toNat - 55)
  else none

/-- Whitespace characters stripped by the CPython builtin `int` before
parsing (ASCII whitespace, NEL, NBSP, and the Unicode space separators). -/
def isPySpace (c : Char) : Bool :=
  decide (c.toNat ∈ [9, 10, 11, 12, 13, 32, 133, 160, 0x1680,
    0x2000, 0x2001, 0x2002, 0x2003, 0x2004, 0x2005, 0x2006, 0x2007,
    0x2008, 0x2009, 0x200a, 0x2028, 0x2029, 0x202f, 0x205f, 0x3000])

/-- Continuation of hex-digit parsing inside `int(x, 16)`: after one digit has
been read, further digits follow, with a single underscore allowed between two
digits (PEP 515). -/
def hexDigitsRest : List Char → Nat → Option Nat
  | [], acc => some acc
  | c :: rest, acc =>
    if c = '_' then
      match rest with
      | c2 :: rest2 =>
        match hexDigitVal? c2 with
        | some v => hexDigitsRest rest2 (16 * acc + v)
        | none => none
      | [] => none
    else
      match hexDigitVal? c with
      | some v => hexDigitsRest rest (16 * acc + v)
      | none => none

/-- Digit-part parsing inside `int(x, 16)`: at least one hex digit, then
`hexDigitsRest`. -/
def hexDigitsStart : List Char → Option Nat
  | c :: rest =>
    match hexDigitVal? c with
    | some v => hexDigitsRest rest v
    | none => none
  | [] => none

/-- Unsigned part of `int(x, 16)` after whitespace and sign: an optional
`0x`/`0X` base marker (which may be followed by one underscore), then hex
digits. -/
def pyIntBody (l : List Char) : Option Nat :=
  match l with
  | c :: x :: rest =>
    if c = '0' ∧ (x = 'x' ∨ x = 'X') then
      match rest with
      | r1 :: r2 => if r1 = '_' then hexDigitsStart r2 else hexDigitsStart rest
      | [] => hexDigitsStart rest
    else hexDigitsStart l
  | _ => hexDigitsStart l

/-- Whitespace stripping done by `int(·, 16)` before parsing. -/
def pyStrip (l : List Char) : List Char :=
  ((l.dropWhile isPySpace).reverse.dropWhile isPySpace).reverse

/-- Sign handling of `int(·, 16)` after whitespace stripping. -/
def pyIntSigned : List Char → Option Int
  | c :: r =>
    if c = '+' then (pyIntBody r).map (fun n => (n : Int))
    else if c = '-' then (pyIntBody r).map (fun n => -(n : Int))
    else (pyIntBody (c :: r)).map (fun n => (n : Int))
  | [] => (pyIntBody []).map (fun n => (n : Int))

/-- Model of the CPython builtin `int(s, 16)` (called at line 36 of the
source), returning `none` where CPython raises `ValueError`: surrounding
whitespace is stripped, an optional sign and an optional `0x`/`0X` marker are
consumed, and the remainder must be a nonempty run of hex digits with single
underscores allowed between digits.  Non-ASCII Unicode digit characters are
outside this model (see `hexDigitVal?`). -/
def pyInt16 (s : String) : Option Int :=
  pyIntSigned (pyStrip s.data)

/-- Python slice `l[i:j]` on a list of characters (clamping, never failing). -/
def pySlice (l : List Char) (i j : Nat) : List Char :=
  (l.drop i).take (j - i)

/-- `hex_color.lstrip("#")` (line 34): remove every leading `'#'`. -/
def strippedHex (s : String) : List Char :=
  s.data.dropWhile (fun c => c = '#')

/-- The three two-character slices `[hex_color[i:i+2] for i in range(0, 6, 2)]`
(line 35) taken after stripping. -/
def hexSlices (s : String) : List (List Char) :=
  [pySlice (strippedHex s) 0 2, pySlice (strippedHex s) 2 4,
   pySlice (strippedHex s) 4 6]

/-- The numeric content of `_hex2rgb` (lines 32-37): the `r, g, b` integers
obtained by applying `int(·, 16)` to the three slices, before string
formatting; `none` models the `ValueError` raised on a malformed slice.  This
is the spec's `hexToRgbTriple`. -/
def hex2rgbTriple (s : String) : Option (Int × Int × Int) :=
  match pyInt16 ⟨pySlice (strippedHex s) 0 2⟩,
        pyInt16 ⟨pySlice (strippedHex s) 2 4⟩,
        pyInt16 ⟨pySlice (strippedHex s) 4 6⟩ with
  | some r, some g, some b => some (r, g, b)
  | _, _, _ => none

/-- `_hex2rgb` (lines 32-37): format the triple as `f"{r};{g};{b}"`. -/
def hex2rgb (s : String) : Option String :=
  (hex2rgbTriple s).map
    (fun t => toString t.1 ++ ";" ++ toString t.2.1 ++ ";" ++ toString t.2.2)

/-- Map a fallible function over a list, failing if any element fails: the
model of a Python list comprehension or `map` whose body may raise. -/
def optMapList {α β : Type} (f : α → Option β) : List α → Option (List β)
  | [] => some []
  | a :: t =>
    match f a, optMapList f t with
    | some b, some bs => some (b :: bs)
    | _, _ => none

/-- A scheme record of the registry: `{'fg': ..., 'bg': ..., 'colors': [...]}`
(lines 120-511). -/
structure Scheme where
  fg : String
  bg : String
  colors : List String
deriving DecidableEq

/-- `_hex2rgb_dict` (lines 40-49): apply `_hex2rgb` to every value of a scheme
record, producing the parallel RGB scheme; `none` models a `ValueError`
escaping from one of the conversions. -/
def hex2rgbDict (s : Scheme) : Option Scheme :=
  match hex2rgb s.fg, hex2rgb s.bg, optMapList hex2rgb s.colors with
  | some f, some b, some cs => some ⟨f, b, cs⟩
  | _, _, _ => none

/-- The palette-set sequence printed first by `set_colors` (lines 56-57):
`ANSI + ";".join([f"{x};{colors[x]}" for x in range(0,16)]) + END`.  List
indexing is modelled with default `""`; every registry palette has 16 entries,
so on registry data the default is never taken (where CPython would raise
`IndexError`). -/
def setPaletteSeq (s : Scheme) : String :=
  ANSI ++ String.intercalate ";"
    ((List.range 16).map (fun x => toString x ++ ";" ++ s.colors.getD x ""))
    ++ END

/-- Full standard output of `set_colors(name)` (lines 52-61): the palette-set
line, then one line holding the OSC-10 foreground sequence immediately
followed by the OSC-11 background sequence (each `print` appends one
newline). -/
def setColorsOut (s : Scheme) : String :=
  setPaletteSeq s ++ "\n" ++ (FG ++ s.fg ++ END) ++ (BG ++ s.bg ++ END) ++ "\n"

/-- The styled segment of the title line of `show_colors` (lines 74-76): the
text placed between the truecolor foreground/background codes and `RESET`,
namely one space, the title `f"{name} | Foreground: {fg} | Background: {bg}"`,
and `" " * (83 - len(title))` trailing spaces (an empty string when the
repeat count is negative, as in Python). -/
def titleSegment (name : String) (s : Scheme) : String :=
  let title := name ++ " | Foreground: " ++ s.fg ++ " | Background: " ++ s.bg
  " " ++ title ++ String.mk (List.replicate (83 - title.length) ' ')

/-- One cell of the Normal/Bright rows of `show_colors` (lines 82-84): the
palette color as truecolor foreground over the scheme background, showing the
hex string. -/
def fgRowCell (s rgb : Scheme) (i : Nat) : String :=
  (FGTC ++ rgb.colors.getD i "" ++ "m") ++ (BGTC ++ rgb.bg ++ "m")
    ++ " " ++ s.colors.getD i "" ++ " "

/-- One cell of the Background row of `show_colors` (lines 96-98): the scheme
foreground as text color over the palette color as background. -/
def bgRowCell (s rgb : Scheme) (i : Nat) : String :=
  (FGTC ++ rgb.fg ++ "m") ++ (BGTC ++ rgb.colors.getD i "" ++ "m")
    ++ " " ++ s.colors.getD i "" ++ " "

/-- Full standard output of `show_colors(name)` (lines 64-101) for the scheme
record `s` registered under `name`: the title line, the Normal row (palette
indices 0-7), the Bright row (indices 8-15), and the Background row (indices
0-7 as background colors), joined and printed with one trailing newline;
`none` models a `ValueError` escaping from `_hex2rgb_dict`. -/
def showColorsOut (name : String) (s : Scheme) : Option String :=
  match hex2rgbDict s with
  | none => none
  | some rgb =>
    let fg0 := FGTC ++ rgb.fg ++ "m"
    let bg0 := BGTC ++ rgb.bg ++ "m"
    some (String.join
      ([ "  " ++ fg0 ++ bg0 ++ titleSegment name s ++ RESET ++ "\n",
         "  " ++ fg0 ++ bg0 ++ " Normal     " ]
       ++ (List.range 8).map (fgRowCell s rgb)
       ++ [ RESET ++ "\n", "  " ++ fg0 ++ bg0 ++ " Bright     " ]
       ++ (List.range 8).map (fun i => fgRowCell s rgb (i + 8))
       ++ [ RESET ++ "\n", "  " ++ fg0 ++ bg0 ++ " Background " ]
       ++ (List.range 8).map (bgRowCell s rgb)
       ++ [ RESET ++ "\n" ]) ++ "\n")

/-! ### The scheme registry (source lines 120-511).

The Python dict literal is embedded as an association list in declaration
order (its keys are pairwise distinct, so dict and list agree); it is split
into chunks of 30 entries purely to keep elaboration cheap. -/

def schemes_0 : List (String × Scheme) := [
  ("0x96f", Scheme.mk "#fcfcfa" "#262427" ["#262427", "#ff7272", "#bcdf59", "#ffca58", "#49cae4", "#a093e2", "#aee8f4", "#fcfcfa", "#545452", "#ff8787", "#c6e472", "#ffd271", "#64d2e8", "#aea3e6", "#baebf6", "#fcfcfa"]),
  ("3024_day", Scheme.mk "#4a4543" "#f7f7f7" ["#090300", "#db2d20", "#01a252", "#fded02", "#01a0e4", "#a16a94", "#b5e4f4", "#a5a2a2", "#5c5855", "#e8bbd0", "#3a3432", "#4a4543", "#807d7c", "#d6d5d4", "#cdab53", "#f7f7f7"]),
  ("3024_night", Scheme.mk "#a5a2a2" "#090300" ["#090300", "#db2d20", "#01a252", "#fded02", "#01a0e4", "#a16a94", "#b5e4f4", "#a5a2a2", "#5c5855", "#e8bbd0", "#3a3432", "#4a4543", "#807d7c", "#d6d5d4", "#cdab53", "#f7f7f7"]),
  ("aardvark_blue", Scheme.mk "#dddddd" "#102040" ["#191919", "#aa342e", "#4b8c0f", "#dbba00", "#1370d3", "#c43ac3", "#008eb0", "#bebebe", "#454545", "#f05b50", "#95dc55", "#ffe763", "#60a4ec", "#e26be2", "#60b6cb", "#f7f7f7"]),
  ("abernathy", Scheme.mk "#eeeeec" "#111416" ["#000000", "#cd0000", "#00cd00", "#cdcd00", "#1093f5", "#cd00cd", "#00cdcd", "#faebd7", "#404040", "#ff0000", "#00ff00", "#ffff00", "#11b5f6", "#ff00ff", "#00ffff", "#ffffff"]),
  ("adventure", Scheme.mk "#feffff" "#040404" ["#040404", "#d84a33", "#5da602", "#eebb6e", "#417ab3", "#e5c499", "#bdcfe5", "#dbded8", "#685656", "#d76b42", "#99b52c", "#ffb670", "#97d7ef", "#aa7900", "#bdcfe5", "#e4d5c7"]),
  ("adventure_time", Scheme.mk "#f8dcc0" "#1f1d45" ["#050404", "#bd0013", "#4ab118", "#e7741e", "#0f4ac6", "#665993", "#70a598", "#f8dcc0", "#4e7cbf", "#fc5f5a", "#9eff6e", "#efc11a", "#1997c6", "#9b5953", "#c8faf4", "#f6f5fb"]),
  ("adwaita", Scheme.mk "#000000" "#ffffff" ["#241f31", "#c01c28", "#2ec27e", "#f5c211", "#1e78e4", "#9841bb", "#0ab9dc", "#c0bfbc", "#5e5c64", "#ed333b", "#57e389", "#f8e45c", "#51a1ff", "#c061cb", "#4fd2fd", "#f6f5f4"]),
  ("adwaita_dark", Scheme.mk "#ffffff" "#1e1e1e" ["#241f31", "#c01c28", "#2ec27e", "#f5c211", "#1e78e4", "#9841bb", "#0ab9dc", "#c0bfbc", "#5e5c64", "#ed333b", "#57e389", "#f8e45c", "#51a1ff", "#c061cb", "#4fd2fd", "#f6f5f4"]),
  ("afterglow", Scheme.mk "#d0d0d0" "#212121" ["#151515", "#ac4142", "#7e8e50", "#e5b567", "#6c99bb", "#9f4e85", "#7dd6cf", "#d0d0d0", "#505050", "#ac4142", "#7e8e50", "#e5b567", "#6c99bb", "#9f4e85", "#7dd6cf", "#f5f5f5"]),
  ("alabaster", Scheme.mk "#000000" "#f7f7f7" ["#000000", "#aa3731", "#448c27", "#cb9000", "#325cc0", "#7a3e9d", "#0083b2", "#f7f7f7", "#777777", "#f05050", "#60cb00", "#ffbc5d", "#007acc", "#e64ce6", "#00aacb", "#f7f7f7"]),
  ("alien_blood", Scheme.mk "#637d75" "#0f1610" ["#112616", "#7f2b27", "#2f7e25", "#717f24", "#2f6a7f", "#47587f", "#327f77", "#647d75", "#3c4812", "#e08009", "#18e000", "#bde000", "#00aae0", "#0058e0", "#00e0c4", "#73fa91"]),
  ("andromeda", Scheme.mk "#e5e5e5" "#262a33" ["#000000", "#cd3131", "#05bc79", "#e5e512", "#2472c8", "#bc3fbc", "#0fa8cd", "#e5e5e5", "#666666", "#cd3131", "#05bc79", "#e5e512", "#2472c8", "#bc3fbc", "#0fa8cd", "#e5e5e5"]),
  ("apple_classic", Scheme.mk "#d5a200" "#2c2b2b" ["#000000", "#c91b00", "#00c200", "#c7c400", "#0225c7", "#ca30c7", "#00c5c7", "#c7c7c7", "#686868", "#ff6e67", "#5ffa68", "#fffc67", "#6871ff", "#ff77ff", "#60fdff", "#ffffff"]),
  ("apple_system_colors", Scheme.mk "#ffffff" "#1e1e1e" ["#1a1a1a", "#cc372e", "#26a439", "#cdac08", "#0869cb", "#9647bf", "#479ec2", "#98989d", "#464646", "#ff453a", "#32d74b", "#ffd60a", "#0a84ff", "#bf5af2", "#76d6ff", "#ffffff"]),
  ("apple_system_colors_light", Scheme.mk "#000000" "#feffff" ["#1a1a1a", "#bc4437", "#51a148", "#c7ad3a", "#2e68c5", "#8c4bb8", "#5e9cbe", "#98989d", "#464646", "#eb5545", "#6bd45f", "#f8d84a", "#3b82f7", "#b260ea", "#8dd3fb", "#ffffff"]),
  ("arcoiris", Scheme.mk "#eee4d9" "#201f1e" ["#333333", "#da2700", "#12c258", "#ffc656", "#518bfc", "#e37bd9", "#63fad5", "#bab2b2", "#777777", "#ffb9b9", "#e3f6aa", "#ffddaa", "#b3e8f3", "#cbbaf9", "#bcffc7", "#efefef"]),
  ("argonaut", Scheme.mk "#fffaf4" "#0e1019" ["#232323", "#ff000f", "#8ce10b", "#ffb900", "#008df8", "#6d43a6", "#00d8eb", "#ffffff", "#444444", "#ff2740", "#abe15b", "#ffd242", "#0092ff", "#9a5feb", "#67fff0", "#ffffff"]),
  ("arthur", Scheme.mk "#ddeedd" "#1c1c1c" ["#3d352a", "#cd5c5c", "#86af80", "#e8ae5b", "#6495ed", "#deb887", "#b0c4de", "#bbaa99", "#554444", "#cc5533", "#88aa22", "#ffa75d", "#87ceeb", "#996600", "#b0c4de", "#ddccbb"]),
  ("atelier_sulphurpool", Scheme.mk "#979db4" "#202746" ["#202746", "#c94922", "#ac9739", "#c08b30", "#3d8fd1", "#6679cc", "#22a2c9", "#979db4", "#6b7394", "#c76b29", "#293256", "#5e6687", "#898ea4", "#dfe2f1", "#9c637a", "#f5f7ff"]),
  ("atom", Scheme.mk "#c5c8c6" "#161719" ["#000000", "#fd5ff1", "#87c38a", "#ffd7b1", "#85befd", "#b9b6fc", "#85befd", "#e0e0e0", "#000000", "#fd5ff1", "#94fa36", "#f5ffa8", "#96cbfe", "#b9b6fc", "#85befd", "#e0e0e0"]),
  ("atom_one_light", Scheme.mk "#2a2c33" "#f9f9f9" ["#000000", "#de3e35", "#3f953a", "#d2b67c", "#2f5af3", "#950095", "#3f953a", "#bbbbbb", "#000000", "#de3e35", "#3f953a", "#d2b67c", "#2f5af3", "#a00095", "#3f953a", "#ffffff"]),
  ("aura", Scheme.mk "#edecee" "#15141b" ["#110f18", "#ff6767", "#61ffca", "#ffca85", "#a277ff", "#a277ff", "#61ffca", "#edecee", "#4d4d4d", "#ffca85", "#a277ff", "#ffca85", "#a277ff", "#a277ff", "#61ffca", "#edecee"]),
  ("aurora", Scheme.mk "#ffca28" "#23262e" ["#23262e", "#f0266f", "#8fd46d", "#ffe66d", "#0321d7", "#ee5d43", "#03d6b8", "#c74ded", "#292e38", "#f92672", "#8fd46d", "#ffe66d", "#03d6b8", "#ee5d43", "#03d6b8", "#c74ded"]),
  ("ayu", Scheme.mk "#e6e1cf" "#0f1419" ["#000000", "#ff3333", "#b8cc52", "#e7c547", "#36a3d9", "#f07178", "#95e6cb", "#ffffff", "#323232", "#ff6565", "#eafe84", "#fff779", "#68d5ff", "#ffa3aa", "#c7fffd", "#ffffff"]),
  ("ayu_light", Scheme.mk "#5c6773" "#fafafa" ["#000000", "#ff3333", "#86b300", "#f29718", "#41a6d9", "#f07178", "#4dbf99", "#ffffff", "#323232", "#ff6565", "#b8e532", "#ffc94a", "#73d8ff", "#ffa3aa", "#7ff1cb", "#ffffff"]),
  ("ayu_mirage", Scheme.mk "#cbccc6" "#1f2430" ["#191e2a", "#ed8274", "#a6cc70", "#fad07b", "#6dcbfa", "#cfbafa", "#90e1c6", "#c7c7c7", "#686868", "#f28779", "#bae67e", "#ffd580", "#73d0ff", "#d4bfff", "#95e6cb", "#ffffff"]),
  ("banana_blueberry", Scheme.mk "#cccccc" "#191323" ["#17141f", "#ff6b7f", "#00bd9c", "#e6c62f", "#22e8df", "#dc396a", "#56b6c2", "#f1f1f1", "#495162", "#fe9ea1", "#98c379", "#f9e46b", "#91fff4", "#da70d6", "#bcf3ff", "#ffffff"]),
  ("batman", Scheme.mk "#6f6f6f" "#1b1d1e" ["#1b1d1e", "#e6dc44", "#c8be46", "#f4fd22", "#737174", "#747271", "#62605f", "#c6c5bf", "#505354", "#fff78e", "#fff27d", "#feed6c", "#919495", "#9a9a9d", "#a3a3a6", "#dadbd6"]),
  ("belafonte_day", Scheme.mk "#45373c" "#d5ccba" ["#20111b", "#be100e", "#858162", "#eaa549", "#426a79", "#97522c", "#989a9c", "#968c83", "#5e5252", "#be100e", "#858162", "#eaa549", "#426a79", "#97522c", "#989a9c", "#d5ccba"]),
]

def schemes_1 : List (String × Scheme) := [
  ("belafonte_night", Scheme.mk "#968c83" "#20111b" ["#20111b", "#be100e", "#858162", "#eaa549", "#426a79", "#97522c", "#989a9c", "#968c83", "#5e5252", "#be100e", "#858162", "#eaa549", "#426a79", "#97522c", "#989a9c", "#d5ccba"]),
  ("birds_of_paradise", Scheme.mk "#e0dbb7" "#2a1f1d" ["#573d26", "#be2d26", "#6ba18a", "#e99d2a", "#5a86ad", "#ac80a6", "#74a6ad", "#e0dbb7", "#9b6c4a", "#e84627", "#95d8ba", "#d0d150", "#b8d3ed", "#d19ecb", "#93cfd7", "#fff9d5"]),
  ("blazer", Scheme.mk "#d9e6f2" "#0d1926" ["#000000", "#b87a7a", "#7ab87a", "#b8b87a", "#7a7ab8", "#b87ab8", "#7ab8b8", "#d9d9d9", "#262626", "#dbbdbd", "#bddbbd", "#dbdbbd", "#bdbddb", "#dbbddb", "#bddbdb", "#ffffff"]),
  ("blue_berry_pie", Scheme.mk "#babab9" "#1c0c28" ["#0a4c62", "#99246e", "#5cb1b3", "#eab9a8", "#90a5bd", "#9d54a7", "#7e83cc", "#f0e8d6", "#201637", "#c87272", "#0a6c7e", "#7a3188", "#39173d", "#bc94b7", "#5e6071", "#0a6c7e"]),
  ("blue_dolphin", Scheme.mk "#c5f2ff" "#006984" ["#292d3e", "#ff8288", "#b4e88d", "#f4d69f", "#82aaff", "#e9c1ff", "#89ebff", "#d0d0d0", "#434758", "#ff8b92", "#ddffa7", "#ffe585", "#9cc4ff", "#ddb0f6", "#a3f7ff", "#ffffff"]),
  ("blue_matrix", Scheme.mk "#00a2ff" "#101116" ["#101116", "#ff5680", "#00ff9c", "#fffc58", "#00b0ff", "#d57bff", "#76c1ff", "#c7c7c7", "#686868", "#ff6e67", "#5ffa68", "#fffc67", "#6871ff", "#d682ec", "#60fdff", "#ffffff"]),
  ("bluloco_dark", Scheme.mk "#b9c0cb" "#282c34" ["#41444d", "#fc2f52", "#25a45c", "#ff936a", "#3476ff", "#7a82da", "#4483aa", "#cdd4e0", "#8f9aae", "#ff6480", "#3fc56b", "#f9c859", "#10b1fe", "#ff78f8", "#5fb9bc", "#ffffff"]),
  ("bluloco_light", Scheme.mk "#373a41" "#f9f9f9" ["#373a41", "#d52753", "#23974a", "#df631c", "#275fe4", "#823ff1", "#27618d", "#babbc2", "#676a77", "#ff6480", "#3cbc66", "#c5a332", "#0099e1", "#ce33c0", "#6d93bb", "#d3d3d3"]),
  ("borland", Scheme.mk "#ffff4e" "#0000a4" ["#4f4f4f", "#ff6c60", "#a8ff60", "#ffffb6", "#96cbfe", "#ff73fd", "#c6c5fe", "#eeeeee", "#7c7c7c", "#ffb6b0", "#ceffac", "#ffffcc", "#b5dcff", "#ff9cfe", "#dfdffe", "#ffffff"]),
  ("breeze", Scheme.mk "#eff0f1" "#31363b" ["#31363b", "#ed1515", "#11d116", "#f67400", "#1d99f3", "#9b59b6", "#1abc9c", "#eff0f1", "#7f8c8d", "#c0392b", "#1cdc9a", "#fdbc4b", "#3daee9", "#8e44ad", "#16a085", "#fcfcfc"]),
  ("bright_lights", Scheme.mk "#b3c9d7" "#191919" ["#191919", "#ff355b", "#b7e876", "#ffc251", "#76d4ff", "#ba76e7", "#6cbfb5", "#c2c8d7", "#191919", "#ff355b", "#b7e876", "#ffc251", "#76d5ff", "#ba76e7", "#6cbfb5", "#c2c8d7"]),
  ("broadcast", Scheme.mk "#e6e1dc" "#2b2b2b" ["#000000", "#da4939", "#519f50", "#ffd24a", "#6d9cbe", "#d0d0ff", "#6e9cbe", "#ffffff", "#323232", "#ff7b6b", "#83d182", "#ffff7c", "#9fcef0", "#ffffff", "#a0cef0", "#ffffff"]),
  ("brogrammer", Scheme.mk "#d6dbe5" "#131313" ["#1f1f1f", "#f81118", "#2dc55e", "#ecba0f", "#2a84d2", "#4e5ab7", "#1081d6", "#d6dbe5", "#d6dbe5", "#de352e", "#1dd361", "#f3bd09", "#1081d6", "#5350b9", "#0f7ddb", "#ffffff"]),
  ("builtin_dark", Scheme.mk "#bbbbbb" "#000000" ["#000000", "#bb0000", "#00bb00", "#bbbb00", "#0000bb", "#bb00bb", "#00bbbb", "#bbbbbb", "#555555", "#ff5555", "#55ff55", "#ffff55", "#5555ff", "#ff55ff", "#55ffff", "#ffffff"]),
  ("builtin_light", Scheme.mk "#000000" "#ffffff" ["#000000", "#bb0000", "#00bb00", "#bbbb00", "#0000bb", "#bb00bb", "#00bbbb", "#bbbbbb", "#555555", "#ff5555", "#55ff55", "#ffff55", "#5555ff", "#ff55ff", "#55ffff", "#ffffff"]),
  ("builtin_pastel_dark", Scheme.mk "#bbbbbb" "#000000" ["#4f4f4f", "#ff6c60", "#a8ff60", "#ffffb6", "#96cbfe", "#ff73fd", "#c6c5fe", "#eeeeee", "#7c7c7c", "#ffb6b0", "#ceffac", "#ffffcc", "#b5dcff", "#ff9cfe", "#dfdffe", "#ffffff"]),
  ("builtin_solarized_dark", Scheme.mk "#839496" "#002b36" ["#073642", "#dc322f", "#859900", "#b58900", "#268bd2", "#d33682", "#2aa198", "#eee8d5", "#002b36", "#cb4b16", "#586e75", "#657b83", "#839496", "#6c71c4", "#93a1a1", "#fdf6e3"]),
  ("builtin_solarized_light", Scheme.mk "#657b83" "#fdf6e3" ["#073642", "#dc322f", "#859900", "#b58900", "#268bd2", "#d33682", "#2aa198", "#eee8d5", "#002b36", "#cb4b16", "#586e75", "#657b83", "#839496", "#6c71c4", "#93a1a1", "#fdf6e3"]),
  ("builtin_tango_dark", Scheme.mk "#ffffff" "#000000" ["#000000", "#cc0000", "#4e9a06", "#c4a000", "#3465a4", "#75507b", "#06989a", "#d3d7cf", "#555753", "#ef2929", "#8ae234", "#fce94f", "#729fcf", "#ad7fa8", "#34e2e2", "#eeeeec"]),
  ("builtin_tango_light", Scheme.mk "#000000" "#ffffff" ["#000000", "#cc0000", "#4e9a06", "#c4a000", "#3465a4", "#75507b", "#06989a", "#d3d7cf", "#555753", "#ef2929", "#8ae234", "#fce94f", "#729fcf", "#ad7fa8", "#34e2e2", "#eeeeec"]),
  ("c64", Scheme.mk "#7869c4" "#40318d" ["#090300", "#883932", "#55a049", "#bfce72", "#40318d", "#8b3f96", "#67b6bd", "#ffffff", "#000000", "#883932", "#55a049", "#bfce72", "#40318d", "#8b3f96", "#67b6bd", "#f7f7f7"]),
  ("calamity", Scheme.mk "#d5ced9" "#2f2833" ["#2f2833", "#fc644d", "#a5f69c", "#e9d7a5", "#3b79c7", "#f92672", "#74d3de", "#d5ced9", "#7e6c88", "#fc644d", "#a5f69c", "#e9d7a5", "#3b79c7", "#f92672", "#74d3de", "#ffffff"]),
  ("catppuccin_frappe", Scheme.mk "#c6d0f5" "#303446" ["#51576d", "#e78284", "#a6d189", "#e5c890", "#8caaee", "#f4b8e4", "#81c8be", "#a5adce", "#626880", "#e67172", "#8ec772", "#d9ba73", "#7b9ef0", "#f2a4db", "#5abfb5", "#b5bfe2"]),
  ("catppuccin_latte", Scheme.mk "#4c4f69" "#eff1f5" ["#5c5f77", "#d20f39", "#40a02b", "#df8e1d", "#1e66f5", "#ea76cb", "#179299", "#acb0be", "#6c6f85", "#de293e", "#49af3d", "#eea02d", "#456eff", "#fe85d8", "#2d9fa8", "#bcc0cc"]),
  ("catppuccin_macchiato", Scheme.mk "#cad3f5" "#24273a" ["#494d64", "#ed8796", "#a6da95", "#eed49f", "#8aadf4", "#f5bde6", "#8bd5ca", "#a5adcb", "#5b6078", "#ec7486", "#8ccf7f", "#e1c682", "#78a1f6", "#f2a9dd", "#63cbc0", "#b8c0e0"]),
  ("catppuccin_mocha", Scheme.mk "#cdd6f4" "#1e1e2e" ["#45475a", "#f38ba8", "#a6e3a1", "#f9e2af", "#89b4fa", "#f5c2e7", "#94e2d5", "#a6adc8", "#585b70", "#f37799", "#89d88b", "#ebd391", "#74a8fc", "#f2aede", "#6bd7ca", "#bac2de"]),
  ("cga", Scheme.mk "#aaaaaa" "#000000" ["#000000", "#aa0000", "#00aa00", "#aa5500", "#0000aa", "#aa00aa", "#00aaaa", "#aaaaaa", "#555555", "#ff5555", "#55ff55", "#ffff55", "#5555ff", "#ff55ff", "#55ffff", "#ffffff"]),
  ("chalk", Scheme.mk "#d2d8d9" "#2b2d2e" ["#7d8b8f", "#b23a52", "#789b6a", "#b9ac4a", "#2a7fac", "#bd4f5a", "#44a799", "#d2d8d9", "#888888", "#f24840", "#80c470", "#ffeb62", "#4196ff", "#fc5275", "#53cdbd", "#d2d8d9"]),
  ("chalkboard", Scheme.mk "#d9e6f2" "#29262f" ["#000000", "#c37372", "#72c373", "#c2c372", "#7372c3", "#c372c2", "#72c2c3", "#d9d9d9", "#323232", "#dbaaaa", "#aadbaa", "#dadbaa", "#aaaadb", "#dbaada", "#aadadb", "#ffffff"]),
  ("challenger_deep", Scheme.mk "#cbe1e7" "#1e1c31" ["#141228", "#ff5458", "#62d196", "#ffb378", "#65b2ff", "#906cff", "#63f2f1", "#a6b3cc", "#565575", "#ff8080", "#95ffa4", "#ffe9aa", "#91ddff", "#c991e1", "#aaffe4", "#cbe3e7"]),
]

def schemes_2 : List (String × Scheme) := [
  ("chester", Scheme.mk "#ffffff" "#2c3643" ["#080200", "#fa5e5b", "#16c98d", "#ffc83f", "#288ad6", "#d34590", "#28ddde", "#e7e7e7", "#6f6b68", "#fa5e5b", "#16c98d", "#feef6d", "#278ad6", "#d34590", "#27dede", "#ffffff"]),
  ("ciapre", Scheme.mk "#aea47a" "#191c27" ["#181818", "#810009", "#48513b", "#cc8b3f", "#576d8c", "#724d7c", "#5c4f4b", "#aea47f", "#555555", "#ac3835", "#a6a75d", "#dcdf7c", "#3097c6", "#d33061", "#f3dbb2", "#f4f4f4"]),
  ("citruszest", Scheme.mk "#bfbfbf" "#121212" ["#404040", "#ff5454", "#00cc7a", "#ffd400", "#00bfff", "#ff90fe", "#48d1cc", "#bfbfbf", "#808080", "#ff1a75", "#1affa3", "#ffff00", "#33cfff", "#ffb2fe", "#00fff2", "#f9f9f9"]),
  ("clrs", Scheme.mk "#262626" "#ffffff" ["#000000", "#f8282a", "#328a5d", "#fa701d", "#135cd0", "#9f00bd", "#33c3c1", "#b3b3b3", "#555753", "#fb0416", "#2cc631", "#fdd727", "#1670ff", "#e900b0", "#3ad5ce", "#eeeeec"]),
  ("cobalt2", Scheme.mk "#ffffff" "#132738" ["#000000", "#ff0000", "#38de21", "#ffe50a", "#1460d2", "#ff005d", "#00bbbb", "#bbbbbb", "#555555", "#f40e17", "#3bd01d", "#edc809", "#5555ff", "#ff55ff", "#6ae3fa", "#ffffff"]),
  ("cobalt_neon", Scheme.mk "#8ff586" "#142838" ["#142631", "#ff2320", "#3ba5ff", "#e9e75c", "#8ff586", "#781aa0", "#8ff586", "#ba46b2", "#fff688", "#d4312e", "#8ff586", "#e9f06d", "#3c7dd2", "#8230a7", "#6cbc67", "#8ff586"]),
  ("cobalt_next", Scheme.mk "#d8dee9" "#1b2b34" ["#000000", "#ed5f7d", "#99c794", "#fac863", "#5a9bcf", "#c5a5c5", "#5fb3b3", "#d8dee9", "#65737e", "#d6838c", "#c1dcbe", "#ffde9b", "#8abee7", "#edcded", "#9be2e2", "#ffffff"]),
  ("cobalt_next_dark", Scheme.mk "#d8dee9" "#0f1c23" ["#282f36", "#e6576a", "#99c794", "#fac863", "#5a9bcf", "#c5a5c5", "#5fb3b3", "#d8dee9", "#65737e", "#d6838c", "#c1dcbe", "#ffde9b", "#8abee7", "#edcded", "#9be2e2", "#ffffff"]),
  ("cobalt_next_minimal", Scheme.mk "#d8dee9" "#0f1c23" ["#343d46", "#ed6f7d", "#99c794", "#fac863", "#5a9bcf", "#c5a5c5", "#5fb3b3", "#d8dee9", "#65737e", "#d6838c", "#c1dcbe", "#ffde9b", "#8abee7", "#edcded", "#9be2e2", "#ffffff"]),
  ("coffee_theme", Scheme.mk "#000000" "#f5deb3" ["#000000", "#c91b00", "#00c200", "#c7c400", "#0225c7", "#ca30c7", "#00c5c7", "#c7c7c7", "#686868", "#ff6e67", "#5ffa68", "#fffc67", "#6871ff", "#ff77ff", "#60fdff", "#ffffff"]),
  ("crayon_pony_fish", Scheme.mk "#68525a" "#150707" ["#2b1b1d", "#91002b", "#579524", "#ab311b", "#8c87b0", "#692f50", "#e8a866", "#68525a", "#3d2b2e", "#c5255d", "#8dff57", "#c8381d", "#cfc9ff", "#fc6cba", "#ffceaf", "#b0949d"]),
  ("cutie_pro", Scheme.mk "#d5d0c9" "#181818" ["#000000", "#f56e7f", "#bec975", "#f58669", "#42d9c5", "#d286b7", "#37cb8a", "#d5c3c3", "#88847f", "#e5a1a3", "#e8d6a7", "#f1bb79", "#80c5de", "#b294bb", "#9dccbb", "#ffffff"]),
  ("cyberdyne", Scheme.mk "#00ff92" "#151144" ["#080808", "#ff8373", "#00c172", "#d2a700", "#0071cf", "#ff90fe", "#6bffdd", "#f1f1f1", "#2e2e2e", "#ffc4be", "#d6fcba", "#fffed5", "#c2e3ff", "#ffb2fe", "#e6e7fe", "#ffffff"]),
  ("cyberpunk", Scheme.mk "#e5e5e5" "#332a57" ["#000000", "#ff7092", "#00fbac", "#fffa6a", "#00bfff", "#df95ff", "#86cbfe", "#ffffff", "#000000", "#ff8aa4", "#21f6bc", "#fff787", "#1bccfd", "#e6aefe", "#99d6fc", "#ffffff"]),
  ("cyberpunk_scarlet_protocol", Scheme.mk "#d13554" "#101116" ["#101116", "#ea3356", "#64d98c", "#faf968", "#306fb1", "#ba3ec1", "#59c2c6", "#c7c7c7", "#686868", "#ed776d", "#8df77a", "#fefc7f", "#6a71f6", "#ae40e4", "#8efafd", "#ffffff"]),
  ("dark+", Scheme.mk "#cccccc" "#1e1e1e" ["#000000", "#cd3131", "#0dbc79", "#e5e510", "#2472c8", "#bc3fbc", "#11a8cd", "#e5e5e5", "#666666", "#f14c4c", "#23d18b", "#f5f543", "#3b8eea", "#d670d6", "#29b8db", "#e5e5e5"]),
  ("dark_modern", Scheme.mk "#cccccc" "#1f1f1f" ["#272727", "#f74949", "#2ea043", "#9e6a03", "#0078d4", "#d01273", "#1db4d6", "#cccccc", "#5d5d5d", "#dc5452", "#23d18b", "#f5f543", "#3b8eea", "#d670d6", "#29b8db", "#e5e5e5"]),
  ("dark_pastel", Scheme.mk "#ffffff" "#000000" ["#000000", "#ff5555", "#55ff55", "#ffff55", "#5555ff", "#ff55ff", "#55ffff", "#bbbbbb", "#555555", "#ff5555", "#55ff55", "#ffff55", "#5555ff", "#ff55ff", "#55ffff", "#ffffff"]),
  ("darkermatrix", Scheme.mk "#28380d" "#070c0e" ["#091013", "#002e18", "#6fa64c", "#595900", "#00cb6b", "#412a4d", "#125459", "#002e19", "#333333", "#00381d", "#90d762", "#e2e500", "#00ff87", "#412a4d", "#176c73", "#00381e"]),
  ("darkmatrix", Scheme.mk "#3e5715" "#070c0e" ["#091013", "#006536", "#6fa64c", "#7e8000", "#2c9a84", "#452d53", "#114d53", "#006536", "#333333", "#00733d", "#90d762", "#e2e500", "#46d8b8", "#4a3059", "#12545a", "#006536"]),
  ("darkside", Scheme.mk "#bababa" "#222324" ["#000000", "#e8341c", "#68c256", "#f2d42c", "#1c98e8", "#8e69c9", "#1c98e8", "#bababa", "#000000", "#e05a4f", "#77b869", "#efd64b", "#387cd3", "#957bbe", "#3d97e2", "#bababa"]),
  ("dayfox", Scheme.mk "#3d2b5a" "#f6f2ee" ["#352c24", "#a5222f", "#396847", "#ac5402", "#2848a9", "#6e33ce", "#287980", "#f2e9e1", "#534c45", "#b3434e", "#577f63", "#b86e28", "#4863b6", "#8452d5", "#488d93", "#f4ece6"]),
  ("deep", Scheme.mk "#cdcdcd" "#090909" ["#000000", "#d70005", "#1cd915", "#d9bd26", "#5665ff", "#b052da", "#50d2da", "#e0e0e0", "#535353", "#fb0007", "#22ff18", "#fedc2b", "#9fa9ff", "#e09aff", "#8df9ff", "#ffffff"]),
  ("desert", Scheme.mk "#ffffff" "#333333" ["#4d4d4d", "#ff2b2b", "#98fb98", "#f0e68c", "#cd853f", "#ffdead", "#ffa0a0", "#f5deb3", "#555555", "#ff5555", "#55ff55", "#ffff55", "#87ceff", "#ff55ff", "#ffd700", "#ffffff"]),
  ("detuned", Scheme.mk "#c7c7c7" "#000000" ["#171717", "#ea5386", "#b3e153", "#e4da81", "#4192d3", "#8f3ef6", "#6cb4d5", "#c7c7c7", "#686868", "#ea86ac", "#c5e280", "#fdf38f", "#55bbf9", "#b9a0f9", "#7fd4fb", "#ffffff"]),
  ("dimidium", Scheme.mk "#bab7b6" "#141414" ["#000000", "#cf494c", "#60b442", "#db9c11", "#0575d8", "#af5ed2", "#1db6bb", "#bab7b6", "#817e7e", "#ff643b", "#37e57b", "#fccd1a", "#688dfd", "#ed6fe9", "#32e0fb", "#d3d8d9"]),
  ("dimmed_monokai", Scheme.mk "#b9bcba" "#1f1f1f" ["#3a3d43", "#be3f48", "#879a3b", "#c5a635", "#4f76a1", "#855c8d", "#578fa4", "#b9bcba", "#888987", "#fb001f", "#0f722f", "#c47033", "#186de3", "#fb0067", "#2e706d", "#fdffb9"]),
  ("django", Scheme.mk "#f8f8f8" "#0b2f20" ["#000000", "#fd6209", "#41a83e", "#ffe862", "#245032", "#f8f8f8", "#9df39f", "#ffffff", "#323232", "#ff943b", "#73da70", "#ffff94", "#568264", "#ffffff", "#cfffd1", "#ffffff"]),
  ("django_reborn_again", Scheme.mk "#dadedc" "#051f14" ["#000000", "#fd6209", "#41a83e", "#ffe862", "#245032", "#f8f8f8", "#9df39f", "#ffffff", "#323232", "#ff943b", "#73da70", "#ffff94", "#568264", "#ffffff", "#cfffd1", "#ffffff"]),
  ("django_smooth", Scheme.mk "#f8f8f8" "#245032" ["#000000", "#fd6209", "#41a83e", "#ffe862", "#989898", "#f8f8f8", "#9df39f", "#e8e8e7", "#323232", "#ff943b", "#73da70", "#ffff94", "#cacaca", "#ffffff", "#cfffd1", "#ffffff"]),
]

def schemes_3 : List (String × Scheme) := [
  ("doom_one", Scheme.mk "#bbc2cf" "#282c34" ["#000000", "#ff6c6b", "#98be65", "#ecbe7b", "#a9a1e1", "#c678dd", "#51afef", "#bbc2cf", "#000000", "#ff6655", "#99bb66", "#ecbe7b", "#a9a1e1", "#c678dd", "#51afef", "#bfbfbf"]),
  ("doom_peacock", Scheme.mk "#ede0ce" "#2b2a27" ["#1c1f24", "#cb4b16", "#26a6a6", "#bcd42a", "#2a6cc6", "#a9a1e1", "#5699af", "#ede0ce", "#2b2a27", "#ff5d38", "#98be65", "#e6f972", "#51afef", "#c678dd", "#46d9ff", "#dfdfdf"]),
  ("dot_gov", Scheme.mk "#ebebeb" "#262c35" ["#191919", "#bf091d", "#3d9751", "#f6bb34", "#17b2e0", "#7830b0", "#8bd2ed", "#ffffff", "#191919", "#bf091d", "#3d9751", "#f6bb34", "#17b2e0", "#7830b0", "#8bd2ed", "#ffffff"]),
  ("dracula", Scheme.mk "#e6e6e6" "#1e1f29" ["#000000", "#ff5555", "#50fa7b", "#f1fa8c", "#bd93f9", "#ff79c6", "#8be9fd", "#bbbbbb", "#555555", "#ff5555", "#50fa7b", "#f1fa8c", "#bd93f9", "#ff79c6", "#8be9fd", "#ffffff"]),
  ("dracula+", Scheme.mk "#f8f8f2" "#212121" ["#21222c", "#ff5555", "#50fa7b", "#ffcb6b", "#82aaff", "#c792ea", "#8be9fd", "#f8f8f2", "#545454", "#ff6e6e", "#69ff94", "#ffcb6b", "#d6acff", "#ff92df", "#a4ffff", "#f8f8f2"]),
  ("duckbones", Scheme.mk "#ebefc0" "#0e101a" ["#0e101a", "#e03600", "#5dcd97", "#e39500", "#00a3cb", "#795ccc", "#00a3cb", "#ebefc0", "#2b2f46", "#ff4821", "#58db9e", "#f6a100", "#00b4e0", "#b3a1e6", "#00b4e0", "#b3b692"]),
  ("duotone_dark", Scheme.mk "#b7a1ff" "#1f1d27" ["#1f1d27", "#d9393e", "#2dcd73", "#d9b76e", "#ffc284", "#de8d40", "#2488ff", "#b7a1ff", "#353147", "#d9393e", "#2dcd73", "#d9b76e", "#ffc284", "#de8d40", "#2488ff", "#eae5ff"]),
  ("earthsong", Scheme.mk "#e5c7a9" "#292520" ["#121418", "#c94234", "#85c54c", "#f5ae2e", "#1398b9", "#d0633d", "#509552", "#e5c6aa", "#675f54", "#ff645a", "#98e036", "#e0d561", "#5fdaff", "#ff9269", "#84f088", "#f6f7ec"]),
  ("electron_highlighter", Scheme.mk "#a8b5d1" "#24283b" ["#15161e", "#f7768e", "#58ffc7", "#ffd9af", "#82aaff", "#d2a6ef", "#57f9ff", "#7c8eac", "#506686", "#f7768e", "#58ffc7", "#ffd9af", "#82aaff", "#d2a6ef", "#57f9ff", "#c5cee0"]),
  ("elegant", Scheme.mk "#cfd2d6" "#292b31" ["#0c1221", "#ea335b", "#95ca9a", "#f7cd94", "#93aadd", "#bf94e5", "#8ccaec", "#ffffff", "#575656", "#ea335b", "#95ca9a", "#f7cd94", "#93aadd", "#bf94e5", "#5faae9", "#ffffff"]),
  ("elemental", Scheme.mk "#807a74" "#22211d" ["#3c3c30", "#98290f", "#479a43", "#7f7111", "#497f7d", "#7f4e2f", "#387f58", "#807974", "#555445", "#e0502a", "#61e070", "#d69927", "#79d9d9", "#cd7c54", "#59d599", "#fff1e9"]),
  ("elementary", Scheme.mk "#efefef" "#181818" ["#242424", "#d71c15", "#5aa513", "#fdb40c", "#063b8c", "#e40038", "#2595e1", "#efefef", "#4b4b4b", "#fc1c18", "#6bc219", "#fec80e", "#0955ff", "#fb0050", "#3ea8fc", "#8c00ec"]),
  ("embers_dark", Scheme.mk "#a39a90" "#16130f" ["#16130f", "#826d57", "#57826d", "#6d8257", "#6d5782", "#82576d", "#576d82", "#a39a90", "#5a5047", "#828257", "#2c2620", "#433b32", "#8a8075", "#beb6ae", "#825757", "#dbd6d1"]),
  ("encom", Scheme.mk "#00a595" "#000000" ["#000000", "#9f0000", "#008b00", "#ffd000", "#0081ff", "#bc00ca", "#008b8b", "#bbbbbb", "#555555", "#ff0000", "#00ee00", "#ffff00", "#0000ff", "#ff00ff", "#00cdcd", "#ffffff"]),
  ("espresso", Scheme.mk "#ffffff" "#323232" ["#353535", "#d25252", "#a5c261", "#ffc66d", "#6c99bb", "#d197d9", "#bed6ff", "#eeeeec", "#535353", "#f00c0c", "#c2e075", "#e1e48b", "#8ab7d9", "#efb5f7", "#dcf4ff", "#ffffff"]),
  ("espresso_libre", Scheme.mk "#b8a898" "#2a211c" ["#000000", "#cc0000", "#1a921c", "#f0e53a", "#0066ff", "#c5656b", "#06989a", "#d3d7cf", "#555753", "#ef2929", "#9aff87", "#fffb5c", "#43a8ed", "#ff818a", "#34e2e2", "#eeeeec"]),
  ("everblush", Scheme.mk "#dadada" "#141b1e" ["#232a2d", "#e57474", "#8ccf7e", "#e5c76b", "#67b0e8", "#c47fd5", "#6cbfbf", "#b3b9b8", "#2d3437", "#ef7e7e", "#96d988", "#f4d67a", "#71baf2", "#ce89df", "#67cbe7", "#bdc3c2"]),
  ("everforest_dark_hard", Scheme.mk "#d3c6aa" "#1e2326" ["#7a8478", "#e67e80", "#a7c080", "#dbbc7f", "#7fbbb3", "#d699b6", "#83c092", "#f2efdf", "#a6b0a0", "#f85552", "#8da101", "#dfa000", "#3a94c5", "#df69ba", "#35a77c", "#fffbef"]),
  ("fahrenheit", Scheme.mk "#ffffce" "#000000" ["#1d1d1d", "#cda074", "#9e744d", "#fecf75", "#720102", "#734c4d", "#979797", "#ffffce", "#000000", "#fecea0", "#cc734d", "#fd9f4d", "#cb4a05", "#4e739f", "#fed04d", "#ffffff"]),
  ("fairyfloss", Scheme.mk "#f8f8f2" "#5a5475" ["#040303", "#f92672", "#c2ffdf", "#e6c000", "#c2ffdf", "#ffb8d1", "#c5a3ff", "#f8f8f0", "#6090cb", "#ff857f", "#c2ffdf", "#ffea00", "#c2ffdf", "#ffb8d1", "#c5a3ff", "#f8f8f0"]),
  ("farmhouse_dark", Scheme.mk "#e8e4e1" "#1d2027" ["#1d2027", "#ba0004", "#549d00", "#c87300", "#0049e6", "#9f1b61", "#1fb65c", "#e8e4e1", "#394047", "#eb0009", "#7ac100", "#ea9a00", "#006efe", "#bf3b7f", "#19e062", "#f4eef0"]),
  ("farmhouse_light", Scheme.mk "#1d2027" "#e8e4e1" ["#1d2027", "#8d0003", "#3a7d00", "#a95600", "#092ccd", "#820046", "#229256", "#e8e4e1", "#394047", "#eb0009", "#7ac100", "#ea9a00", "#006efe", "#bf3b7f", "#19e062", "#f4eef0"]),
  ("fideloper", Scheme.mk "#dbdae0" "#292f33" ["#292f33", "#cb1e2d", "#edb8ac", "#b7ab9b", "#2e78c2", "#c0236f", "#309186", "#eae3ce", "#092028", "#d4605a", "#d4605a", "#a86671", "#7c85c4", "#5c5db2", "#819090", "#fcf4df"]),
  ("firefly_traditional", Scheme.mk "#f5f5f5" "#000000" ["#000000", "#c23720", "#33bc26", "#afad24", "#5a63ff", "#d53ad2", "#33bbc7", "#cccccc", "#828282", "#ff3b1e", "#2ee720", "#ecec16", "#838dff", "#ff5cfe", "#29f0f0", "#ebebeb"]),
  ("firefox_dev", Scheme.mk "#7c8fa4" "#0e1011" ["#002831", "#e63853", "#5eb83c", "#a57706", "#359ddf", "#d75cff", "#4b73a2", "#dcdcdc", "#001e27", "#e1003f", "#1d9000", "#cd9409", "#006fc0", "#a200da", "#005794", "#e2e2e2"]),
  ("firewatch", Scheme.mk "#9ba2b2" "#1e2027" ["#585f6d", "#d95360", "#5ab977", "#dfb563", "#4d89c4", "#d55119", "#44a8b6", "#e6e5ff", "#585f6d", "#d95360", "#5ab977", "#dfb563", "#4c89c5", "#d55119", "#44a8b6", "#e6e5ff"]),
  ("fish_tank", Scheme.mk "#ecf0fe" "#232537" ["#03073c", "#c6004a", "#acf157", "#fecd5e", "#525fb8", "#986f82", "#968763", "#ecf0fc", "#6c5b30", "#da4b8a", "#dbffa9", "#fee6a9", "#b2befa", "#fda5cd", "#a5bd86", "#f6ffec"]),
  ("flat", Scheme.mk "#2cc55d" "#002240" ["#222d3f", "#a82320", "#32a548", "#e58d11", "#3167ac", "#781aa0", "#2c9370", "#b0b6ba", "#212c3c", "#d4312e", "#2d9440", "#e5be0c", "#3c7dd2", "#8230a7", "#35b387", "#e7eced"]),
  ("flatland", Scheme.mk "#b8dbef" "#1d1f21" ["#1d1d19", "#f18339", "#9fd364", "#f4ef6d", "#5096be", "#695abc", "#d63865", "#ffffff", "#1d1d19", "#d22a24", "#a7d42c", "#ff8949", "#61b9d0", "#695abc", "#d63865", "#ffffff"]),
  ("flexoki_dark", Scheme.mk "#cecdc3" "#100f0f" ["#100f0f", "#d14d41", "#879a39", "#d0a215", "#4385be", "#ce5d97", "#3aa99f", "#878580", "#575653", "#af3029", "#66800b", "#ad8301", "#205ea6", "#a02f6f", "#24837b", "#cecdc3"]),
]

def schemes_4 : List (String × Scheme) := [
  ("flexoki_light", Scheme.mk "#100f0f" "#fffcf0" ["#100f0f", "#af3029", "#66800b", "#ad8301", "#205ea6", "#a02f6f", "#24837b", "#6f6e69", "#b7b5ac", "#d14d41", "#879a39", "#d0a215", "#4385be", "#ce5d97", "#3aa99f", "#cecdc3"]),
  ("floraverse", Scheme.mk "#dbd1b9" "#0e0d15" ["#08002e", "#64002c", "#5d731a", "#cd751c", "#1d6da1", "#b7077e", "#42a38c", "#f3e0b8", "#331e4d", "#d02063", "#b4ce59", "#fac357", "#40a4cf", "#f12aae", "#62caa8", "#fff5db"]),
  ("forest_blue", Scheme.mk "#e2d8cd" "#051519" ["#333333", "#f8818e", "#92d3a2", "#1a8e63", "#8ed0ce", "#5e468c", "#31658c", "#e2d8cd", "#3d3d3d", "#fb3d66", "#6bb48d", "#30c85a", "#39a7a2", "#7e62b3", "#6096bf", "#e2d8cd"]),
  ("framer", Scheme.mk "#777777" "#111111" ["#141414", "#ff5555", "#98ec65", "#ffcc33", "#00aaff", "#aa88ff", "#88ddff", "#cccccc", "#414141", "#ff8888", "#b6f292", "#ffd966", "#33bbff", "#cebbff", "#bbecff", "#ffffff"]),
  ("front_end_delight", Scheme.mk "#adadad" "#1b1c1d" ["#242526", "#f8511b", "#565747", "#fa771d", "#2c70b7", "#f02e4f", "#3ca1a6", "#adadad", "#5fac6d", "#f74319", "#74ec4c", "#fdc325", "#3393ca", "#e75e4f", "#4fbce6", "#8c735b"]),
  ("fun_forrest", Scheme.mk "#dec165" "#251200" ["#000000", "#d6262b", "#919c00", "#be8a13", "#4699a3", "#8d4331", "#da8213", "#ddc265", "#7f6a55", "#e55a1c", "#bfc65a", "#ffcb1b", "#7cc9cf", "#d26349", "#e6a96b", "#ffeaa3"]),
  ("galaxy", Scheme.mk "#ffffff" "#1d2837" ["#000000", "#f9555f", "#21b089", "#fef02a", "#589df6", "#944d95", "#1f9ee7", "#bbbbbb", "#555555", "#fa8c8f", "#35bb9a", "#ffff55", "#589df6", "#e75699", "#3979bc", "#ffffff"]),
  ("galizur", Scheme.mk "#ddeeff" "#071317" ["#223344", "#aa1122", "#33aa11", "#ccaa22", "#2255cc", "#7755aa", "#22bbdd", "#8899aa", "#556677", "#ff1133", "#33ff11", "#ffdd33", "#3377ff", "#aa77ff", "#33ddff", "#bbccdd"]),
  ("ghostty_default_style_dark", Scheme.mk "#ffffff" "#292c33" ["#1d1f21", "#bf6b69", "#b7bd73", "#e9c880", "#88a1bb", "#ad95b8", "#95bdb7", "#c5c8c6", "#666666", "#c55757", "#bcc95f", "#e1c65e", "#83a5d6", "#bc99d4", "#83beb1", "#eaeaea"]),
  ("git_hub_dark", Scheme.mk "#8b949e" "#101216" ["#000000", "#f78166", "#56d364", "#e3b341", "#6ca4f8", "#db61a2", "#2b7489", "#ffffff", "#4d4d4d", "#f78166", "#56d364", "#e3b341", "#6ca4f8", "#db61a2", "#2b7489", "#ffffff"]),
  ("git_hub_dark_colorblind", Scheme.mk "#c9d1d9" "#0d1117" ["#484f58", "#ec8e2c", "#58a6ff", "#d29922", "#58a6ff", "#bc8cff", "#39c5cf", "#b1bac4", "#6e7681", "#fdac54", "#79c0ff", "#e3b341", "#79c0ff", "#d2a8ff", "#56d4dd", "#ffffff"]),
  ("git_hub_dark_default", Scheme.mk "#e6edf3" "#0d1117" ["#484f58", "#ff7b72", "#3fb950", "#d29922", "#58a6ff", "#bc8cff", "#39c5cf", "#b1bac4", "#6e7681", "#ffa198", "#56d364", "#e3b341", "#79c0ff", "#d2a8ff", "#56d4dd", "#ffffff"]),
  ("git_hub_dark_dimmed", Scheme.mk "#adbac7" "#22272e" ["#545d68", "#f47067", "#57ab5a", "#c69026", "#539bf5", "#b083f0", "#39c5cf", "#909dab", "#636e7b", "#ff938a", "#6bc46d", "#daaa3f", "#6cb6ff", "#dcbdfb", "#56d4dd", "#cdd9e5"]),
  ("git_hub_dark_high_contrast", Scheme.mk "#f0f3f6" "#0a0c10" ["#7a828e", "#ff9492", "#26cd4d", "#f0b72f", "#71b7ff", "#cb9eff", "#39c5cf", "#d9dee3", "#9ea7b3", "#ffb1af", "#4ae168", "#f7c843", "#91cbff", "#dbb7ff", "#56d4dd", "#ffffff"]),
  ("git_hub_light_colorblind", Scheme.mk "#24292f" "#ffffff" ["#24292f", "#b35900", "#0550ae", "#4d2d00", "#0969da", "#8250df", "#1b7c83", "#6e7781", "#57606a", "#8a4600", "#0969da", "#633c01", "#218bff", "#a475f9", "#3192aa", "#8c959f"]),
  ("git_hub_light_default", Scheme.mk "#1f2328" "#ffffff" ["#24292f", "#cf222e", "#116329", "#4d2d00", "#0969da", "#8250df", "#1b7c83", "#6e7781", "#57606a", "#a40e26", "#1a7f37", "#633c01", "#218bff", "#a475f9", "#3192aa", "#8c959f"]),
  ("git_hub_light_high_contrast", Scheme.mk "#0e1116" "#ffffff" ["#0e1116", "#a0111f", "#024c1a", "#3f2200", "#0349b4", "#622cbc", "#1b7c83", "#66707b", "#4b535d", "#86061d", "#055d20", "#4e2c00", "#1168e3", "#844ae7", "#3192aa", "#88929d"]),
  ("git_lab_dark", Scheme.mk "#ffffff" "#28262b" ["#000000", "#f57f6c", "#52b87a", "#d99530", "#7fb6ed", "#f88aaf", "#32c5d2", "#ffffff", "#666666", "#fcb5aa", "#91d4a8", "#e9be74", "#498dd1", "#fcacc5", "#5edee3", "#ffffff"]),
  ("git_lab_dark_grey", Scheme.mk "#ffffff" "#222222" ["#000000", "#f57f6c", "#52b87a", "#d99530", "#7fb6ed", "#f88aaf", "#32c5d2", "#ffffff", "#666666", "#fcb5aa", "#91d4a8", "#e9be74", "#498dd1", "#fcacc5", "#5edee3", "#ffffff"]),
  ("git_lab_light", Scheme.mk "#303030" "#fafaff" ["#303030", "#a31700", "#0a7f3d", "#af551d", "#006cd8", "#583cac", "#00798a", "#303030", "#303030", "#a31700", "#0a7f3d", "#af551d", "#006cd8", "#583cac", "#00798a", "#303030"]),
  ("github", Scheme.mk "#3e3e3e" "#f4f4f4" ["#3e3e3e", "#970b16", "#07962a", "#f8eec7", "#003e8a", "#e94691", "#89d1ec", "#ffffff", "#666666", "#de0000", "#87d5a2", "#f1d007", "#2e6cba", "#ffa29f", "#1cfafe", "#ffffff"]),
  ("glacier", Scheme.mk "#ffffff" "#0c1115" ["#2e343c", "#bd0f2f", "#35a770", "#fb9435", "#1f5872", "#bd2523", "#778397", "#ffffff", "#404a55", "#bd0f2f", "#49e998", "#fddf6e", "#2a8bc1", "#ea4727", "#a0b6d3", "#ffffff"]),
  ("grape", Scheme.mk "#9f9fa1" "#171423" ["#2d283f", "#ed2261", "#1fa91b", "#8ddc20", "#487df4", "#8d35c9", "#3bdeed", "#9e9ea0", "#59516a", "#f0729a", "#53aa5e", "#b2dc87", "#a9bcec", "#ad81c2", "#9de3eb", "#a288f7"]),
  ("grass", Scheme.mk "#fff0a5" "#13773d" ["#000000", "#bb0000", "#00bb00", "#e7b000", "#0000a3", "#950062", "#00bbbb", "#bbbbbb", "#555555", "#bb0000", "#00bb00", "#e7b000", "#0000bb", "#ff55ff", "#55ffff", "#ffffff"]),
  ("grey_green", Scheme.mk "#ffffff" "#002a1a" ["#000000", "#fe1414", "#74ff00", "#f1ff01", "#00deff", "#ff00f0", "#00ffbc", "#ffffff", "#666666", "#ff3939", "#00ff44", "#ffd100", "#00afff", "#ff008a", "#00ffd3", "#f5ecec"]),
  ("gruber_darker", Scheme.mk "#e4e4e4" "#181818" ["#181818", "#f43841", "#73d936", "#ffdd33", "#96a6c8", "#9e95c7", "#95a99f", "#e4e4e4", "#52494e", "#ff4f58", "#73d936", "#ffdd33", "#96a6c8", "#afafd7", "#95a99f", "#f5f5f5"]),
  ("gruvbox_dark", Scheme.mk "#ebdbb2" "#282828" ["#282828", "#cc241d", "#98971a", "#d79921", "#458588", "#b16286", "#689d6a", "#a89984", "#928374", "#fb4934", "#b8bb26", "#fabd2f", "#83a598", "#d3869b", "#8ec07c", "#ebdbb2"]),
  ("gruvbox_dark_hard", Scheme.mk "#ebdbb2" "#1d2021" ["#1d2021", "#cc241d", "#98971a", "#d79921", "#458588", "#b16286", "#689d6a", "#a89984", "#928374", "#fb4934", "#b8bb26", "#fabd2f", "#83a598", "#d3869b", "#8ec07c", "#ebdbb2"]),
  ("gruvbox_light", Scheme.mk "#282828" "#fbf1c7" ["#fbf1c7", "#9d0006", "#79740e", "#b57614", "#076678", "#8f3f71", "#427b58", "#3c3836", "#9d8374", "#cc241d", "#98971a", "#d79921", "#458588", "#b16186", "#689d69", "#7c6f64"]),
  ("gruvbox_light_hard", Scheme.mk "#282828" "#f8f4d6" ["#f8f4d6", "#9d0006", "#79740e", "#b57614", "#076678", "#8f3f71", "#427b58", "#3c3836", "#9d8374", "#cc241d", "#98971a", "#d79921", "#458588", "#b16186", "#689d69", "#7c6f64"]),
]

def schemes_5 : List (String × Scheme) := [
  ("gruvbox_material", Scheme.mk "#d4be98" "#1d2021" ["#141617", "#ea6926", "#c1d041", "#eecf75", "#6da3ec", "#fd9bc1", "#fe9d6e", "#ffffff", "#000000", "#d3573b", "#c1d041", "#eecf75", "#2c86ff", "#fd9bc1", "#92a5df", "#ffffff"]),
  ("guezwhoz", Scheme.mk "#d0d0d0" "#1c1c1c" ["#080808", "#ff5f5f", "#87d7af", "#d7d787", "#5fafd7", "#afafff", "#5fd7d7", "#dadada", "#8a8a8a", "#d75f5f", "#afd7af", "#d7d7af", "#87afd7", "#afafd7", "#87d7d7", "#dadada"]),
  ("ha_x0r_blue", Scheme.mk "#11b7ff" "#010515" ["#010921", "#10b6ff", "#10b6ff", "#10b6ff", "#10b6ff", "#10b6ff", "#10b6ff", "#fafafa", "#080117", "#00b3f7", "#00b3f7", "#00b3f7", "#00b3f7", "#00b3f7", "#00b3f7", "#fefefe"]),
  ("ha_x0r_gr33n", Scheme.mk "#16b10e" "#020f01" ["#001f0b", "#15d00d", "#15d00d", "#15d00d", "#15d00d", "#15d00d", "#15d00d", "#fafafa", "#001510", "#19e20e", "#19e20e", "#19e20e", "#19e20e", "#19e20e", "#19e20e", "#fefefe"]),
  ("ha_x0r_r3d", Scheme.mk "#b10e0e" "#200101" ["#1f0000", "#b00d0d", "#b00d0d", "#b00d0d", "#b00d0d", "#b00d0d", "#b00d0d", "#fafafa", "#150000", "#ff1111", "#ff1010", "#ff1010", "#ff1010", "#ff1010", "#ff1010", "#fefefe"]),
  ("hacktober", Scheme.mk "#c9c9c9" "#141414" ["#191918", "#b34538", "#587744", "#d08949", "#206ec5", "#864651", "#ac9166", "#f1eee7", "#2c2b2a", "#b33323", "#42824a", "#c75a22", "#5389c5", "#e795a5", "#ebc587", "#ffffff"]),
  ("hardcore", Scheme.mk "#a0a0a0" "#121212" ["#1b1d1e", "#f92672", "#a6e22e", "#fd971f", "#66d9ef", "#9e6ffe", "#5e7175", "#ccccc6", "#505354", "#ff669d", "#beed5f", "#e6db74", "#66d9ef", "#9e6ffe", "#a3babf", "#f8f8f2"]),
  ("harper", Scheme.mk "#a8a49d" "#010101" ["#010101", "#f8b63f", "#7fb5e1", "#d6da25", "#489e48", "#b296c6", "#f5bfd7", "#a8a49d", "#726e6a", "#f8b63f", "#7fb5e1", "#d6da25", "#489e48", "#b296c6", "#f5bfd7", "#fefbea"]),
  ("havn_daggry", Scheme.mk "#3e4a77" "#f8f9fb" ["#212840", "#8f564b", "#5c705b", "#b36f00", "#40567a", "#775d93", "#8a5a7e", "#d7dbea", "#212840", "#bd533e", "#79957b", "#f3b550", "#6988bc", "#7b7393", "#a4879c", "#d7dbea"]),
  ("havn_skumring", Scheme.mk "#d7dbea" "#121521" ["#262c45", "#d96048", "#7cab7f", "#eeb64e", "#5d6bef", "#7a729a", "#ca8cbe", "#dde0ed", "#212840", "#c47768", "#8f9d90", "#e4c693", "#5d85c6", "#967de7", "#c57eb3", "#fdf6e3"]),
  ("heeler", Scheme.mk "#fdfdfd" "#211f44" ["#000000", "#d3573b", "#c1d041", "#eecf75", "#6da3ec", "#fd9bc1", "#fe9d6e", "#ffffff", "#000000", "#d3573b", "#c1d041", "#eecf75", "#2c86ff", "#fd9bc1", "#92a5df", "#ffffff"]),
  ("highway", Scheme.mk "#ededed" "#222225" ["#000000", "#d00e18", "#138034", "#ffcb3e", "#006bb3", "#6b2775", "#384564", "#ededed", "#5d504a", "#f07e18", "#b1d130", "#fff120", "#4fc2fd", "#de0071", "#5d504a", "#ffffff"]),
  ("hipster_green", Scheme.mk "#84c138" "#100b05" ["#000000", "#b6214a", "#00a600", "#bfbf00", "#246eb2", "#b200b2", "#00a6b2", "#bfbfbf", "#666666", "#e50000", "#86a93e", "#e5e500", "#0000ff", "#e500e5", "#00e5e5", "#e5e5e5"]),
  ("hivacruz", Scheme.mk "#ede4e4" "#132638" ["#202746", "#c94922", "#ac9739", "#c08b30", "#3d8fd1", "#6679cc", "#22a2c9", "#979db4", "#6b7394", "#c76b29", "#73ad43", "#5e6687", "#898ea4", "#dfe2f1", "#9c637a", "#f5f7ff"]),
  ("homebrew", Scheme.mk "#00ff00" "#000000" ["#000000", "#990000", "#00a600", "#999900", "#0000b2", "#b200b2", "#00a6b2", "#bfbfbf", "#666666", "#e50000", "#00d900", "#e5e500", "#0000ff", "#e500e5", "#00e5e5", "#e5e5e5"]),
  ("hopscotch", Scheme.mk "#b9b5b8" "#322931" ["#322931", "#dd464c", "#8fc13e", "#fdcc59", "#1290bf", "#c85e7c", "#149b93", "#b9b5b8", "#797379", "#fd8b19", "#433b42", "#5c545b", "#989498", "#d5d3d5", "#b33508", "#ffffff"]),
  ("hopscotch256", Scheme.mk "#b9b5b8" "#322931" ["#322931", "#dd464c", "#8fc13e", "#fdcc59", "#1290bf", "#c85e7c", "#149b93", "#b9b5b8", "#797379", "#dd464c", "#8fc13e", "#fdcc59", "#1290bf", "#c85e7c", "#149b93", "#ffffff"]),
  ("horizon", Scheme.mk "#d5d8da" "#1c1e26" ["#000000", "#e95678", "#29d398", "#fab795", "#26bbd9", "#ee64ac", "#59e1e3", "#e5e5e5", "#666666", "#ec6a88", "#3fdaa4", "#fbc3a7", "#3fc4de", "#f075b5", "#6be4e6", "#e5e5e5"]),
  ("horizon_bright", Scheme.mk "#16161c" "#fbf0ee" ["#16161c", "#e95678", "#29d398", "#fab795", "#26bbd9", "#ee64ae", "#59e3e3", "#fdf0ed", "#1a1c23", "#ec6a88", "#3fdaa4", "#fbc3a7", "#3fc6de", "#f075b7", "#6be6e6", "#fff3f0"]),
  ("hurtado", Scheme.mk "#dbdbdb" "#000000" ["#575757", "#ff1b00", "#a5e055", "#fbe74a", "#496487", "#fd5ff1", "#86e9fe", "#cbcccb", "#262626", "#d51d00", "#a5df55", "#fbe84a", "#89beff", "#c001c1", "#86eafe", "#dbdbdb"]),
  ("hybrid", Scheme.mk "#b7bcba" "#161719" ["#2a2e33", "#b84d51", "#b3bf5a", "#e4b55e", "#6e90b0", "#a17eac", "#7fbfb4", "#b5b9b6", "#1d1f22", "#8d2e32", "#798431", "#e58a50", "#4b6b88", "#6e5079", "#4d7b74", "#5a626a"]),
  ("i_term2_dark_background", Scheme.mk "#c7c7c7" "#000000" ["#000000", "#c91b00", "#00c200", "#c7c400", "#0225c7", "#ca30c7", "#00c5c7", "#c7c7c7", "#686868", "#ff6e67", "#5ffa68", "#fffc67", "#6871ff", "#ff77ff", "#60fdff", "#ffffff"]),
  ("i_term2_default", Scheme.mk "#ffffff" "#000000" ["#000000", "#c91b00", "#00c200", "#c7c400", "#2225c4", "#ca30c7", "#00c5c7", "#ffffff", "#686868", "#ff6e67", "#5ffa68", "#fffc67", "#6871ff", "#ff77ff", "#60fdff", "#ffffff"]),
  ("i_term2_light_background", Scheme.mk "#000000" "#ffffff" ["#000000", "#c91b00", "#00c200", "#c7c400", "#0225c7", "#ca30c7", "#00c5c7", "#c7c7c7", "#686868", "#ff6e67", "#5ffa68", "#fffc67", "#6871ff", "#ff77ff", "#60fdff", "#ffffff"]),
  ("i_term2_pastel_dark_background", Scheme.mk "#c7c7c7" "#000000" ["#626262", "#ff8373", "#b4fb73", "#fffdc3", "#a5d5fe", "#ff90fe", "#d1d1fe", "#f1f1f1", "#8f8f8f", "#ffc4be", "#d6fcba", "#fffed5", "#c2e3ff", "#ffb2fe", "#e6e6fe", "#ffffff"]),
  ("i_term2_smoooooth", Scheme.mk "#dcdcdc" "#15191f" ["#14191e", "#b43c2a", "#00c200", "#c7c400", "#2744c7", "#c040be", "#00c5c7", "#c7c7c7", "#686868", "#dd7975", "#58e790", "#ece100", "#a7abf2", "#e17ee1", "#60fdff", "#ffffff"]),
  ("i_term2_solarized_dark", Scheme.mk "#839496" "#002b36" ["#073642", "#dc322f", "#859900", "#b58900", "#268bd2", "#d33682", "#2aa198", "#eee8d5", "#002b36", "#cb4b16", "#586e75", "#657b83", "#839496", "#6c71c4", "#93a1a1", "#fdf6e3"]),
  ("i_term2_solarized_light", Scheme.mk "#657b83" "#fdf6e3" ["#073642", "#dc322f", "#859900", "#b58900", "#268bd2", "#d33682", "#2aa198", "#eee8d5", "#002b36", "#cb4b16", "#586e75", "#657b83", "#839496", "#6c71c4", "#93a1a1", "#fdf6e3"]),
  ("i_term2_tango_dark", Scheme.mk "#ffffff" "#000000" ["#000000", "#d81e00", "#5ea702", "#cfae00", "#427ab3", "#89658e", "#00a7aa", "#dbded8", "#686a66", "#f54235", "#99e343", "#fdeb61", "#84b0d8", "#bc94b7", "#37e6e8", "#f1f1f0"]),
  ("i_term2_tango_light", Scheme.mk "#000000" "#ffffff" ["#000000", "#d81e00", "#5ea702", "#cfae00", "#427ab3", "#89658e", "#00a7aa", "#dbded8", "#686a66", "#f54235", "#99e343", "#fdeb61", "#84b0d8", "#bc94b7", "#37e6e8", "#f1f1f0"]),
]

def schemes_6 : List (String × Scheme) := [
  ("ic_green_ppl", Scheme.mk "#e0f1dc" "#2c2c2c" ["#014401", "#ff2736", "#41a638", "#76a831", "#2ec3b9", "#50a096", "#3ca078", "#e6fef2", "#035c03", "#b4fa5c", "#aefb86", "#dafa87", "#2efaeb", "#50fafa", "#3cfac8", "#e0f1dc"]),
  ("ic_orange_ppl", Scheme.mk "#ffcb83" "#262626" ["#000000", "#c13900", "#a4a900", "#caaf00", "#bd6d00", "#fc5e00", "#f79500", "#ffc88a", "#6a4f2a", "#ff8c68", "#f6ff40", "#ffe36e", "#ffbe55", "#fc874f", "#c69752", "#fafaff"]),
  ("iceberg_dark", Scheme.mk "#c6c8d1" "#161821" ["#1e2132", "#e27878", "#b4be82", "#e2a478", "#84a0c6", "#a093c7", "#89b8c2", "#c6c8d1", "#6b7089", "#e98989", "#c0ca8e", "#e9b189", "#91acd1", "#ada0d3", "#95c4ce", "#d2d4de"]),
  ("iceberg_light", Scheme.mk "#33374c" "#e8e9ec" ["#dcdfe7", "#cc517a", "#668e3d", "#c57339", "#2d539e", "#7759b4", "#3f83a6", "#33374c", "#8389a3", "#cc3768", "#598030", "#b6662d", "#22478e", "#6845ad", "#327698", "#262a3f"]),
  ("idea", Scheme.mk "#adadad" "#202020" ["#adadad", "#fc5256", "#98b61c", "#ccb444", "#437ee7", "#9d74b0", "#248887", "#181818", "#ffffff", "#fc7072", "#98b61c", "#ffff0b", "#6c9ced", "#fc7eff", "#248887", "#181818"]),
  ("idle_toes", Scheme.mk "#ffffff" "#323232" ["#323232", "#d25252", "#7fe173", "#ffc66d", "#4099ff", "#f680ff", "#bed6ff", "#eeeeec", "#535353", "#f07070", "#9dff91", "#ffe48b", "#5eb7f7", "#ff9dff", "#dcf4ff", "#ffffff"]),
  ("ir_black", Scheme.mk "#f1f1f1" "#000000" ["#4f4f4f", "#fa6c60", "#a8ff60", "#fffeb7", "#96cafe", "#fa73fd", "#c6c5fe", "#efedef", "#7b7b7b", "#fcb6b0", "#cfffab", "#ffffcc", "#b5dcff", "#fb9cfe", "#e0e0fe", "#ffffff"]),
  ("jackie_brown", Scheme.mk "#ffcc2f" "#2c1d16" ["#2c1d16", "#ef5734", "#2baf2b", "#bebf00", "#246eb2", "#d05ec1", "#00acee", "#bfbfbf", "#666666", "#e50000", "#86a93e", "#e5e500", "#0000ff", "#e500e5", "#00e5e5", "#e5e5e5"]),
  ("japanesque", Scheme.mk "#f7f6ec" "#1e1e1e" ["#343935", "#cf3f61", "#7bb75b", "#e9b32a", "#4c9ad4", "#a57fc4", "#389aad", "#fafaf6", "#595b59", "#d18fa6", "#767f2c", "#78592f", "#135979", "#604291", "#76bbca", "#b2b5ae"]),
  ("jellybeans", Scheme.mk "#dedede" "#121212" ["#929292", "#e27373", "#94b979", "#ffba7b", "#97bedc", "#e1c0fa", "#00988e", "#dedede", "#bdbdbd", "#ffa1a1", "#bddeab", "#ffdca0", "#b1d8f6", "#fbdaff", "#1ab2a8", "#ffffff"]),
  ("jet_brains_darcula", Scheme.mk "#adadad" "#202020" ["#000000", "#fa5355", "#126e00", "#c2c300", "#4581eb", "#fa54ff", "#33c2c1", "#adadad", "#555555", "#fb7172", "#67ff4f", "#ffff00", "#6d9df1", "#fb82ff", "#60d3d1", "#eeeeee"]),
  ("jubi", Scheme.mk "#c3d3de" "#262b33" ["#3b3750", "#cf7b98", "#90a94b", "#6ebfc0", "#576ea6", "#bc4f68", "#75a7d2", "#c3d3de", "#a874ce", "#de90ab", "#bcdd61", "#87e9ea", "#8c9fcd", "#e16c87", "#b7c9ef", "#d5e5f1"]),
  ("kanagawa_dragon", Scheme.mk "#c8c093" "#181616" ["#0d0c0c", "#c4746e", "#8a9a7b", "#c4b28a", "#8ba4b0", "#a292a3", "#8ea4a2", "#c8c093", "#a6a69c", "#e46876", "#87a987", "#e6c384", "#7fb4ca", "#938aa9", "#7aa89f", "#c5c9c5"]),
  ("kanagawa_wave", Scheme.mk "#dcd7ba" "#1f1f28" ["#090618", "#c34043", "#76946a", "#c0a36e", "#7e9cd8", "#957fb8", "#6a9589", "#c8c093", "#727169", "#e82424", "#98bb6c", "#e6c384", "#7fb4ca", "#938aa9", "#7aa89f", "#dcd7ba"]),
  ("kanagawabones", Scheme.mk "#ddd8bb" "#1f1f28" ["#1f1f28", "#e46a78", "#98bc6d", "#e5c283", "#7eb3c9", "#957fb8", "#7eb3c9", "#ddd8bb", "#3c3c51", "#ec818c", "#9ec967", "#f1c982", "#7bc2df", "#a98fd2", "#7bc2df", "#a8a48d"]),
  ("kibble", Scheme.mk "#f7f7f7" "#0e100a" ["#4d4d4d", "#c70031", "#29cf13", "#d8e30e", "#3449d1", "#8400ff", "#0798ab", "#e2d1e3", "#5a5a5a", "#f01578", "#6ce05c", "#f3f79e", "#97a4f7", "#c495f0", "#68f2e0", "#ffffff"]),
  ("kolorit", Scheme.mk "#efecec" "#1d1a1e" ["#1d1a1e", "#ff5b82", "#47d7a1", "#e8e562", "#5db4ee", "#da6cda", "#57e9eb", "#ededed", "#1d1a1e", "#ff5b82", "#47d7a1", "#e8e562", "#5db4ee", "#da6cda", "#57e9eb", "#ededed"]),
  ("konsolas", Scheme.mk "#c8c1c1" "#060606" ["#000000", "#aa1717", "#18b218", "#ebae1f", "#2323a5", "#ad1edc", "#42b0c8", "#c8c1c1", "#7b716e", "#ff4141", "#5fff5f", "#ffff55", "#4b4bff", "#ff54ff", "#69ffff", "#ffffff"]),
  ("kurokula", Scheme.mk "#ddd0c4" "#141515" ["#333333", "#b66056", "#85b1a9", "#dbbb43", "#6890d7", "#887aa3", "#837369", "#ddd0c4", "#515151", "#ffc663", "#c1ffae", "#fff700", "#a1d9ff", "#a994ff", "#f9cfb9", "#ffffff"]),
  ("lab_fox", Scheme.mk "#ffffff" "#2e2e2e" ["#2e2e2e", "#fc6d26", "#3eb383", "#fca121", "#db3b21", "#380d75", "#6e49cb", "#ffffff", "#464646", "#ff6517", "#53eaa8", "#fca013", "#db501f", "#441090", "#7d53e7", "#ffffff"]),
  ("laser", Scheme.mk "#f106e3" "#030d18" ["#626262", "#ff8373", "#b4fb73", "#09b4bd", "#fed300", "#ff90fe", "#d1d1fe", "#f1f1f1", "#8f8f8f", "#ffc4be", "#d6fcba", "#fffed5", "#f92883", "#ffb2fe", "#e6e7fe", "#ffffff"]),
  ("later_this_evening", Scheme.mk "#959595" "#222222" ["#2b2b2b", "#d45a60", "#afba67", "#e5d289", "#a0bad6", "#c092d6", "#91bfb7", "#3c3d3d", "#454747", "#d3232f", "#aabb39", "#e5be39", "#6699d6", "#ab53d6", "#5fc0ae", "#c1c2c2"]),
  ("lavandula", Scheme.mk "#736e7d" "#050014" ["#230046", "#7d1625", "#337e6f", "#7f6f49", "#4f4a7f", "#5a3f7f", "#58777f", "#736e7d", "#372d46", "#e05167", "#52e0c4", "#e0c386", "#8e87e0", "#a776e0", "#9ad4e0", "#8c91fa"]),
  ("liquid_carbon", Scheme.mk "#afc2c2" "#303030" ["#000000", "#ff3030", "#559a70", "#ccac00", "#0099cc", "#cc69c8", "#7ac4cc", "#bccccc", "#000000", "#ff3030", "#559a70", "#ccac00", "#0099cc", "#cc69c8", "#7ac4cc", "#bccccc"]),
  ("liquid_carbon_transparent", Scheme.mk "#afc2c2" "#000000" ["#000000", "#ff3030", "#559a70", "#ccac00", "#0099cc", "#cc69c8", "#7ac4cc", "#bccccc", "#000000", "#ff3030", "#559a70", "#ccac00", "#0099cc", "#cc69c8", "#7ac4cc", "#bccccc"]),
  ("liquid_carbon_transparent_inverse", Scheme.mk "#afc2c2" "#000000" ["#bccccd", "#ff3030", "#559a70", "#ccac00", "#0099cc", "#cc69c8", "#7ac4cc", "#000000", "#ffffff", "#ff3030", "#559a70", "#ccac00", "#0099cc", "#cc69c8", "#7ac4cc", "#000000"]),
  ("lovelace", Scheme.mk "#fdfdfd" "#1d1f28" ["#282a36", "#f37f97", "#5adecd", "#f2a272", "#8897f4", "#c574dd", "#79e6f3", "#fdfdfd", "#414458", "#ff4971", "#18e3c8", "#ff8037", "#556fff", "#b043d1", "#3fdcee", "#bebec1"]),
  ("man_page", Scheme.mk "#000000" "#fef49c" ["#000000", "#cc0000", "#00a600", "#999900", "#0000b2", "#b200b2", "#00a6b2", "#cccccc", "#666666", "#e50000", "#00d900", "#e5e500", "#0000ff", "#e500e5", "#00e5e5", "#e5e5e5"]),
  ("mariana", Scheme.mk "#d8dee9" "#343d46" ["#000000", "#ec5f66", "#99c794", "#f9ae58", "#6699cc", "#c695c6", "#5fb4b4", "#f7f7f7", "#333333", "#f97b58", "#acd1a8", "#fac761", "#85add6", "#d8b6d8", "#82c4c4", "#ffffff"]),
  ("material", Scheme.mk "#232322" "#eaeaea" ["#212121", "#b7141f", "#457b24", "#f6981e", "#134eb2", "#560088", "#0e717c", "#efefef", "#424242", "#e83b3f", "#7aba3a", "#ffea2e", "#54a4f3", "#aa4dbc", "#26bbd1", "#d9d9d9"]),
]

def schemes_7 : List (String × Scheme) := [
  ("material_dark", Scheme.mk "#e5e5e5" "#232322" ["#212121", "#b7141f", "#457b24", "#f6981e", "#134eb2", "#560088", "#0e717c", "#efefef", "#424242", "#e83b3f", "#7aba3a", "#ffea2e", "#54a4f3", "#aa4dbc", "#26bbd1", "#d9d9d9"]),
  ("material_darker", Scheme.mk "#eeffff" "#212121" ["#000000", "#ff5370", "#c3e88d", "#ffcb6b", "#82aaff", "#c792ea", "#89ddff", "#ffffff", "#545454", "#ff5370", "#c3e88d", "#ffcb6b", "#82aaff", "#c792ea", "#89ddff", "#ffffff"]),
  ("material_design_colors", Scheme.mk "#e7ebed" "#1d262a" ["#435b67", "#fc3841", "#5cf19e", "#fed032", "#37b6ff", "#fc226e", "#59ffd1", "#ffffff", "#a1b0b8", "#fc746d", "#adf7be", "#fee16c", "#70cfff", "#fc669b", "#9affe6", "#ffffff"]),
  ("material_ocean", Scheme.mk "#8f93a2" "#0f111a" ["#546e7a", "#ff5370", "#c3e88d", "#ffcb6b", "#82aaff", "#c792ea", "#89ddff", "#ffffff", "#546e7a", "#ff5370", "#c3e88d", "#ffcb6b", "#82aaff", "#c792ea", "#89ddff", "#ffffff"]),
  ("mathias", Scheme.mk "#bbbbbb" "#000000" ["#000000", "#e52222", "#a6e32d", "#fc951e", "#c48dff", "#fa2573", "#67d9f0", "#f2f2f2", "#555555", "#ff5555", "#55ff55", "#ffff55", "#5555ff", "#ff55ff", "#55ffff", "#ffffff"]),
  ("matrix", Scheme.mk "#426644" "#0f191c" ["#0f191c", "#23755a", "#82d967", "#ffd700", "#3f5242", "#409931", "#50b45a", "#507350", "#688060", "#2fc079", "#90d762", "#faff00", "#4f7e7e", "#11ff25", "#c1ff8a", "#678c61"]),
  ("medallion", Scheme.mk "#cac296" "#1d1908" ["#000000", "#b64c00", "#7c8b16", "#d3bd26", "#616bb0", "#8c5a90", "#916c25", "#cac29a", "#5e5219", "#ff9149", "#b2ca3b", "#ffe54a", "#acb8ff", "#ffa0ff", "#ffbc51", "#fed698"]),
  ("melange_dark", Scheme.mk "#ece1d7" "#292522" ["#34302c", "#bd8183", "#78997a", "#e49b5d", "#7f91b2", "#b380b0", "#7b9695", "#c1a78e", "#867462", "#d47766", "#85b695", "#ebc06d", "#a3a9ce", "#cf9bc2", "#89b3b6", "#ece1d7"]),
  ("melange_light", Scheme.mk "#54433a" "#f1f1f1" ["#e9e1db", "#c77b8b", "#6e9b72", "#bc5c00", "#7892bd", "#be79bb", "#739797", "#7d6658", "#a98a78", "#bf0021", "#3a684a", "#a06d00", "#465aa4", "#904180", "#3d6568", "#54433a"]),
  ("mellifluous", Scheme.mk "#dadada" "#1a1a1a" ["#1a1a1a", "#d29393", "#b3b393", "#cbaa89", "#a8a1be", "#b39fb0", "#c0af8c", "#dadada", "#5b5b5b", "#c95954", "#828040", "#a6794c", "#5a6599", "#9c6995", "#74a39e", "#ffffff"]),
  ("mellow", Scheme.mk "#c9c7cd" "#161617" ["#27272a", "#f5a191", "#90b99f", "#e6b99d", "#aca1cf", "#e29eca", "#ea83a5", "#c1c0d4", "#353539", "#ffae9f", "#9dc6ac", "#f0c5a9", "#b9aeda", "#ecaad6", "#f591b2", "#cac9dd"]),
  ("miasma", Scheme.mk "#c2c2b0" "#222222" ["#000000", "#685742", "#5f875f", "#b36d43", "#78824b", "#bb7744", "#c9a554", "#d7c483", "#666666", "#685742", "#5f875f", "#b36d43", "#78824b", "#bb7744", "#c9a554", "#d7c483"]),
  ("midnight_in_mojave", Scheme.mk "#ffffff" "#1e1e1e" ["#1e1e1e", "#ff453a", "#32d74b", "#ffd60a", "#0a84ff", "#bf5af2", "#5ac8fa", "#ffffff", "#1e1e1e", "#ff453a", "#32d74b", "#ffd60a", "#0a84ff", "#bf5af2", "#5ac8fa", "#ffffff"]),
  ("mirage", Scheme.mk "#a6b2c0" "#1b2738" ["#011627", "#ff9999", "#85cc95", "#ffd700", "#7fb5ff", "#ddb3ff", "#21c7a8", "#ffffff", "#575656", "#ff9999", "#85cc95", "#ffd700", "#7fb5ff", "#ddb3ff", "#85cc95", "#ffffff"]),
  ("misterioso", Scheme.mk "#e1e1e0" "#2d3743" ["#000000", "#ff4242", "#74af68", "#ffad29", "#338f86", "#9414e6", "#23d7d7", "#e1e1e0", "#555555", "#ff3242", "#74cd68", "#ffb929", "#23d7d7", "#ff37ff", "#00ede1", "#ffffff"]),
  ("molokai", Scheme.mk "#bbbbbb" "#121212" ["#121212", "#fa2573", "#98e123", "#dfd460", "#1080d0", "#8700ff", "#43a8d0", "#bbbbbb", "#555555", "#f6669d", "#b1e05f", "#fff26d", "#00afff", "#af87ff", "#51ceff", "#ffffff"]),
  ("mona_lisa", Scheme.mk "#f7d66a" "#120b0d" ["#351b0e", "#9b291c", "#636232", "#c36e28", "#515c5d", "#9b1d29", "#588056", "#f7d75c", "#874228", "#ff4331", "#b4b264", "#ff9566", "#9eb2b4", "#ff5b6a", "#8acd8f", "#ffe598"]),
  ("monokai_classic", Scheme.mk "#fdfff1" "#272822" ["#272822", "#f92672", "#a6e22e", "#e6db74", "#fd971f", "#ae81ff", "#66d9ef", "#fdfff1", "#6e7066", "#f92672", "#a6e22e", "#e6db74", "#fd971f", "#ae81ff", "#66d9ef", "#fdfff1"]),
  ("monokai_pro", Scheme.mk "#fcfcfa" "#2d2a2e" ["#2d2a2e", "#ff6188", "#a9dc76", "#ffd866", "#fc9867", "#ab9df2", "#78dce8", "#fcfcfa", "#727072", "#ff6188", "#a9dc76", "#ffd866", "#fc9867", "#ab9df2", "#78dce8", "#fcfcfa"]),
  ("monokai_pro_light", Scheme.mk "#29242a" "#faf4f2" ["#faf4f2", "#e14775", "#269d69", "#cc7a0a", "#e16032", "#7058be", "#1c8ca8", "#29242a", "#a59fa0", "#e14775", "#269d69", "#cc7a0a", "#e16032", "#7058be", "#1c8ca8", "#29242a"]),
  ("monokai_pro_light_sun", Scheme.mk "#2c232e" "#f8efe7" ["#f8efe7", "#ce4770", "#218871", "#b16803", "#d4572b", "#6851a2", "#2473b6", "#2c232e", "#a59c9c", "#ce4770", "#218871", "#b16803", "#d4572b", "#6851a2", "#2473b6", "#2c232e"]),
  ("monokai_pro_machine", Scheme.mk "#f2fffc" "#273136" ["#273136", "#ff6d7e", "#a2e57b", "#ffed72", "#ffb270", "#baa0f8", "#7cd5f1", "#f2fffc", "#6b7678", "#ff6d7e", "#a2e57b", "#ffed72", "#ffb270", "#baa0f8", "#7cd5f1", "#f2fffc"]),
  ("monokai_pro_octagon", Scheme.mk "#eaf2f1" "#282a3a" ["#282a3a", "#ff657a", "#bad761", "#ffd76d", "#ff9b5e", "#c39ac9", "#9cd1bb", "#eaf2f1", "#696d77", "#ff657a", "#bad761", "#ffd76d", "#ff9b5e", "#c39ac9", "#9cd1bb", "#eaf2f1"]),
  ("monokai_pro_ristretto", Scheme.mk "#fff1f3" "#2c2525" ["#2c2525", "#fd6883", "#adda78", "#f9cc6c", "#f38d70", "#a8a9eb", "#85dacc", "#fff1f3", "#72696a", "#fd6883", "#adda78", "#f9cc6c", "#f38d70", "#a8a9eb", "#85dacc", "#fff1f3"]),
  ("monokai_pro_spectrum", Scheme.mk "#f7f1ff" "#222222" ["#222222", "#fc618d", "#7bd88f", "#fce566", "#fd9353", "#948ae3", "#5ad4e6", "#f7f1ff", "#69676c", "#fc618d", "#7bd88f", "#fce566", "#fd9353", "#948ae3", "#5ad4e6", "#f7f1ff"]),
  ("monokai_remastered", Scheme.mk "#d9d9d9" "#0c0c0c" ["#1a1a1a", "#f4005f", "#98e024", "#fd971f", "#9d65ff", "#f4005f", "#58d1eb", "#c4c5b5", "#625e4c", "#f4005f", "#98e024", "#e0d561", "#9d65ff", "#f4005f", "#58d1eb", "#f6f6ef"]),
  ("monokai_soda", Scheme.mk "#c4c5b5" "#1a1a1a" ["#1a1a1a", "#f4005f", "#98e024", "#fa8419", "#9d65ff", "#f4005f", "#58d1eb", "#c4c5b5", "#625e4c", "#f4005f", "#98e024", "#e0d561", "#9d65ff", "#f4005f", "#58d1eb", "#f6f6ef"]),
  ("monokai_vivid", Scheme.mk "#f9f9f9" "#121212" ["#121212", "#fa2934", "#98e123", "#fff30a", "#0443ff", "#f800f8", "#01b6ed", "#ffffff", "#838383", "#f6669d", "#b1e05f", "#fff26d", "#0443ff", "#f200f6", "#51ceff", "#ffffff"]),
  ("n0tch2k", Scheme.mk "#a0a0a0" "#222222" ["#383838", "#a95551", "#666666", "#a98051", "#657d3e", "#767676", "#c9c9c9", "#d0b8a3", "#474747", "#a97775", "#8c8c8c", "#a99175", "#98bd5e", "#a3a3a3", "#dcdcdc", "#d8c8bb"]),
  ("neobones_dark", Scheme.mk "#c6d5cf" "#0f191f" ["#0f191f", "#de6e7c", "#90ff6b", "#b77e64", "#8190d4", "#b279a7", "#66a5ad", "#c6d5cf", "#263945", "#e8838f", "#a0ff85", "#d68c67", "#92a0e2", "#cf86c1", "#65b8c1", "#98a39e"]),
]

def schemes_8 : List (String × Scheme) := [
  ("neobones_light", Scheme.mk "#202e18" "#e5ede6" ["#e5ede6", "#a8334c", "#567a30", "#944927", "#286486", "#88507d", "#3b8992", "#202e18", "#b3c6b6", "#94253e", "#3f5a22", "#803d1c", "#1d5573", "#7b3b70", "#2b747c", "#415934"]),
  ("neon", Scheme.mk "#00fffc" "#14161a" ["#000000", "#ff3045", "#5ffa74", "#fffc7e", "#0208cb", "#f924e7", "#00fffc", "#c7c7c7", "#686868", "#ff5a5a", "#75ff88", "#fffd96", "#3c40cb", "#f15be5", "#88fffe", "#ffffff"]),
  ("neopolitan", Scheme.mk "#ffffff" "#271f19" ["#000000", "#800000", "#61ce3c", "#fbde2d", "#253b76", "#ff0080", "#8da6ce", "#f8f8f8", "#000000", "#800000", "#61ce3c", "#fbde2d", "#253b76", "#ff0080", "#8da6ce", "#f8f8f8"]),
  ("neutron", Scheme.mk "#e6e8ef" "#1c1e22" ["#23252b", "#b54036", "#5ab977", "#deb566", "#6a7c93", "#a4799d", "#3f94a8", "#e6e8ef", "#23252b", "#b54036", "#5ab977", "#deb566", "#6a7c93", "#a4799d", "#3f94a8", "#ebedf2"]),
  ("night_lion_v1", Scheme.mk "#bbbbbb" "#000000" ["#4c4c4c", "#bb0000", "#5fde8f", "#f3f167", "#276bd8", "#bb00bb", "#00dadf", "#bbbbbb", "#555555", "#ff5555", "#55ff55", "#ffff55", "#5555ff", "#ff55ff", "#55ffff", "#ffffff"]),
  ("night_lion_v2", Scheme.mk "#bbbbbb" "#171717" ["#4c4c4c", "#bb0000", "#04f623", "#f3f167", "#64d0f0", "#ce6fdb", "#00dadf", "#bbbbbb", "#555555", "#ff5555", "#7df71d", "#ffff55", "#62cbe8", "#ff9bf5", "#00ccd8", "#ffffff"]),
  ("night_owlish_light", Scheme.mk "#403f53" "#ffffff" ["#011627", "#d3423e", "#2aa298", "#daaa01", "#4876d6", "#403f53", "#08916a", "#7a8181", "#7a8181", "#f76e6e", "#49d0c5", "#dac26b", "#5ca7e4", "#697098", "#00c990", "#989fb1"]),
  ("nightfox", Scheme.mk "#cdcecf" "#192330" ["#393b44", "#c94f6d", "#81b29a", "#dbc074", "#719cd6", "#9d79d6", "#63cdcf", "#dfdfe0", "#575860", "#d16983", "#8ebaa4", "#e0c989", "#86abdc", "#baa1e2", "#7ad5d6", "#e4e4e5"]),
  ("niji", Scheme.mk "#ffffff" "#141515" ["#333333", "#d23e08", "#54ca74", "#fff700", "#2ab9ff", "#ff50da", "#1ef9f5", "#ddd0c4", "#515151", "#ffb7b7", "#c1ffae", "#fcffb8", "#8efff3", "#ffa2ed", "#bcffc7", "#ffffff"]),
  ("nocturnal_winter", Scheme.mk "#e6e5e5" "#0d0d17" ["#4d4d4d", "#f12d52", "#09cd7e", "#f5f17a", "#3182e0", "#ff2b6d", "#09c87a", "#fcfcfc", "#808080", "#f16d86", "#0ae78d", "#fffc67", "#6096ff", "#ff78a2", "#0ae78d", "#ffffff"]),
  ("nord", Scheme.mk "#d8dee9" "#2e3440" ["#3b4252", "#bf616a", "#a3be8c", "#ebcb8b", "#81a1c1", "#b48ead", "#88c0d0", "#e5e9f0", "#4c566a", "#bf616a", "#a3be8c", "#ebcb8b", "#81a1c1", "#b48ead", "#8fbcbb", "#eceff4"]),
  ("nord_light", Scheme.mk "#414858" "#e5e9f0" ["#3b4252", "#bf616a", "#a3be8c", "#ebcb8b", "#81a1c1", "#b48ead", "#88c0d0", "#d8dee9", "#4c566a", "#bf616a", "#a3be8c", "#ebcb8b", "#81a1c1", "#b48ead", "#8fbcbb", "#eceff4"]),
  ("nord_wave", Scheme.mk "#d8dee9" "#212121" ["#3b4252", "#bf616a", "#a3be8c", "#ebcb8b", "#81a1c1", "#b48ead", "#88c0d0", "#e5e9f0", "#4c566a", "#bf616a", "#a3be8c", "#ebcb8b", "#81a1c1", "#b48ead", "#8fbcbb", "#eceff4"]),
  ("novel", Scheme.mk "#3b2322" "#dfdbc3" ["#000000", "#cc0000", "#009600", "#d06b00", "#0000cc", "#cc00cc", "#0087cc", "#cccccc", "#808080", "#cc0000", "#009600", "#d06b00", "#0000cc", "#cc00cc", "#0087cc", "#ffffff"]),
  ("nvim_dark", Scheme.mk "#e0e2ea" "#14161b" ["#07080d", "#ffc0b9", "#b3f6c0", "#fce094", "#a6dbff", "#ffcaff", "#8cf8f7", "#eef1f8", "#4f5258", "#ffc0b9", "#b3f6c0", "#fce094", "#a6dbff", "#ffcaff", "#8cf8f7", "#eef1f8"]),
  ("nvim_light", Scheme.mk "#14161b" "#e0e2ea" ["#07080d", "#590008", "#005523", "#6b5300", "#004c73", "#470045", "#007373", "#eef1f8", "#4f5258", "#590008", "#005523", "#6b5300", "#004c73", "#470045", "#007373", "#eef1f8"]),
  ("obsidian", Scheme.mk "#cdcdcd" "#283033" ["#000000", "#a60001", "#00bb00", "#fecd22", "#3a9bdb", "#bb00bb", "#00bbbb", "#bbbbbb", "#555555", "#ff0003", "#93c863", "#fef874", "#a1d7ff", "#ff55ff", "#55ffff", "#ffffff"]),
  ("ocean", Scheme.mk "#ffffff" "#224fbc" ["#000000", "#990000", "#00a600", "#999900", "#0000b2", "#b200b2", "#00a6b2", "#bfbfbf", "#666666", "#e50000", "#00d900", "#e5e500", "#0000ff", "#e500e5", "#00e5e5", "#e5e5e5"]),
  ("oceanic_material", Scheme.mk "#c2c8d7" "#1c262b" ["#000000", "#ee2b2a", "#40a33f", "#ffea2e", "#1e80f0", "#8800a0", "#16afca", "#a4a4a4", "#777777", "#dc5c60", "#70be71", "#fff163", "#54a4f3", "#aa4dbc", "#42c7da", "#ffffff"]),
  ("oceanic_next", Scheme.mk "#c1c5cd" "#1b2b34" ["#1b2b34", "#db686b", "#a2c699", "#f2ca73", "#7198c8", "#bd96c2", "#74b1b2", "#ffffff", "#68737d", "#db686b", "#a2c699", "#f2ca73", "#7198c8", "#bd96c2", "#74b1b2", "#ffffff"]),
  ("ollie", Scheme.mk "#8a8dae" "#222125" ["#000000", "#ac2e31", "#31ac61", "#ac4300", "#2d57ac", "#b08528", "#1fa6ac", "#8a8eac", "#5b3725", "#ff3d48", "#3bff99", "#ff5e1e", "#4488ff", "#ffc21d", "#1ffaff", "#5b6ea7"]),
  ("one_half_dark", Scheme.mk "#dcdfe4" "#282c34" ["#282c34", "#e06c75", "#98c379", "#e5c07b", "#61afef", "#c678dd", "#56b6c2", "#dcdfe4", "#282c34", "#e06c75", "#98c379", "#e5c07b", "#61afef", "#c678dd", "#56b6c2", "#dcdfe4"]),
  ("one_half_light", Scheme.mk "#383a42" "#fafafa" ["#383a42", "#e45649", "#50a14f", "#c18401", "#0184bc", "#a626a4", "#0997b3", "#fafafa", "#4f525e", "#e06c75", "#98c379", "#e5c07b", "#61afef", "#c678dd", "#56b6c2", "#ffffff"]),
  ("operator_mono_dark", Scheme.mk "#c3cac2" "#191919" ["#5a5a5a", "#ca372d", "#4d7b3a", "#d4d697", "#4387cf", "#b86cb4", "#72d5c6", "#ced4cd", "#9a9b99", "#c37d62", "#83d0a2", "#fdfdc5", "#89d3f6", "#ff2c7a", "#82eada", "#fdfdf6"]),
  ("overnight_slumber", Scheme.mk "#ced2d6" "#0e1729" ["#0a1222", "#ffa7c4", "#85cc95", "#ffcb8b", "#8dabe1", "#c792eb", "#78ccf0", "#ffffff", "#575656", "#ffa7c4", "#85cc95", "#ffcb8b", "#8dabe1", "#c792eb", "#ffa7c4", "#ffffff"]),
  ("oxocarbon", Scheme.mk "#f2f4f8" "#161616" ["#161616", "#3ddbd9", "#33b1ff", "#ee5396", "#42be65", "#be95ff", "#ff7eb6", "#f2f4f8", "#585858", "#3ddbd9", "#33b1ff", "#ee5396", "#42be65", "#be95ff", "#ff7eb6", "#f2f4f8"]),
  ("pale_night_hc", Scheme.mk "#cccccc" "#3e4251" ["#000000", "#f07178", "#c3e88d", "#ffcb6b", "#82aaff", "#c792ea", "#89ddff", "#ffffff", "#666666", "#f6a9ae", "#dbf1ba", "#ffdfa6", "#b4ccff", "#ddbdf2", "#b8eaff", "#999999"]),
  ("pandora", Scheme.mk "#e1e1e1" "#141e43" ["#000000", "#ff4242", "#74af68", "#ffad29", "#338f86", "#9414e6", "#23d7d7", "#e2e2e2", "#3f5648", "#ff3242", "#74cd68", "#ffb929", "#23d7d7", "#ff37ff", "#00ede1", "#ffffff"]),
  ("paraiso_dark", Scheme.mk "#a39e9b" "#2f1e2e" ["#2f1e2e", "#ef6155", "#48b685", "#fec418", "#06b6ef", "#815ba4", "#5bc4bf", "#a39e9b", "#776e71", "#ef6155", "#48b685", "#fec418", "#06b6ef", "#815ba4", "#5bc4bf", "#e7e9db"]),
  ("paul_millr", Scheme.mk "#f2f2f2" "#000000" ["#2a2a2a", "#ff0000", "#79ff0f", "#e7bf00", "#396bd7", "#b449be", "#66ccff", "#bbbbbb", "#666666", "#ff0080", "#66ff66", "#f3d64e", "#709aed", "#db67e6", "#7adff2", "#ffffff"]),
]

def schemes_9 : List (String × Scheme) := [
  ("pencil_dark", Scheme.mk "#f1f1f1" "#212121" ["#212121", "#c30771", "#10a778", "#a89c14", "#008ec4", "#523c79", "#20a5ba", "#d9d9d9", "#424242", "#fb007a", "#5fd7af", "#f3e430", "#20bbfc", "#6855de", "#4fb8cc", "#f1f1f1"]),
  ("pencil_light", Scheme.mk "#424242" "#f1f1f1" ["#212121", "#c30771", "#10a778", "#a89c14", "#008ec4", "#523c79", "#20a5ba", "#d9d9d9", "#424242", "#fb007a", "#5fd7af", "#f3e430", "#20bbfc", "#6855de", "#4fb8cc", "#f1f1f1"]),
  ("peppermint", Scheme.mk "#c8c8c8" "#000000" ["#353535", "#e74669", "#89d287", "#dab853", "#449fd0", "#da62dc", "#65aaaf", "#b4b4b4", "#535353", "#e4859b", "#a3cca2", "#e1e487", "#6fbce2", "#e586e7", "#96dcdb", "#dfdfdf"]),
  ("piatto_light", Scheme.mk "#414141" "#ffffff" ["#414141", "#b23771", "#66781e", "#cd6f34", "#3c5ea8", "#a454b2", "#66781e", "#ffffff", "#3f3f3f", "#db3365", "#829429", "#cd6f34", "#3c5ea8", "#a454b2", "#829429", "#f2f2f2"]),
  ("pnevma", Scheme.mk "#d0d0d0" "#1c1c1c" ["#2f2e2d", "#a36666", "#90a57d", "#d7af87", "#7fa5bd", "#c79ec4", "#8adbb4", "#d0d0d0", "#4a4845", "#d78787", "#afbea2", "#e4c9af", "#a1bdce", "#d7beda", "#b1e7dd", "#efefef"]),
  ("popping_and_locking", Scheme.mk "#ebdbb2" "#181921" ["#1d2021", "#cc241d", "#98971a", "#d79921", "#458588", "#b16286", "#689d6a", "#a89984", "#928374", "#f42c3e", "#b8bb26", "#fabd2f", "#99c6ca", "#d3869b", "#7ec16e", "#ebdbb2"]),
  ("primary", Scheme.mk "#000000" "#ffffff" ["#000000", "#db4437", "#0f9d58", "#f4b400", "#4285f4", "#db4437", "#4285f4", "#ffffff", "#000000", "#db4437", "#0f9d58", "#f4b400", "#4285f4", "#4285f4", "#0f9d58", "#ffffff"]),
  ("pro", Scheme.mk "#f2f2f2" "#000000" ["#000000", "#990000", "#00a600", "#999900", "#2009db", "#b200b2", "#00a6b2", "#bfbfbf", "#666666", "#e50000", "#00d900", "#e5e500", "#0000ff", "#e500e5", "#00e5e5", "#e5e5e5"]),
  ("pro_light", Scheme.mk "#191919" "#ffffff" ["#000000", "#e5492b", "#50d148", "#c6c440", "#3b75ff", "#ed66e8", "#4ed2de", "#dcdcdc", "#9f9f9f", "#ff6640", "#61ef57", "#f2f156", "#0082ff", "#ff7eff", "#61f7f8", "#f2f2f2"]),
  ("purple_rain", Scheme.mk "#fffbf6" "#21084a" ["#000000", "#ff260e", "#9be205", "#ffc400", "#00a2fa", "#815bb5", "#00deef", "#ffffff", "#565656", "#ff4250", "#b8e36e", "#ffd852", "#00a6ff", "#ac7bf0", "#74fdf3", "#ffffff"]),
  ("purplepeter", Scheme.mk "#ece7fa" "#2a1a4a" ["#0a0520", "#ff796d", "#99b481", "#efdfac", "#66d9ef", "#e78fcd", "#ba8cff", "#ffba81", "#100b23", "#f99f92", "#b4be8f", "#f2e9bf", "#79daed", "#ba91d4", "#a0a0d6", "#b9aed3"]),
  ("rapture", Scheme.mk "#c0c9e5" "#111e2a" ["#000000", "#fc644d", "#7afde1", "#fff09b", "#6c9bf5", "#ff4fa1", "#64e0ff", "#c0c9e5", "#304b66", "#fc644d", "#7afde1", "#fff09b", "#6c9bf5", "#ff4fa1", "#64e0ff", "#ffffff"]),
  ("raycast_dark", Scheme.mk "#ffffff" "#1a1a1a" ["#000000", "#ff5360", "#59d499", "#ffc531", "#56c2ff", "#cf2f98", "#52eee5", "#ffffff", "#000000", "#ff6363", "#59d499", "#ffc531", "#56c2ff", "#cf2f98", "#52eee5", "#ffffff"]),
  ("raycast_light", Scheme.mk "#000000" "#ffffff" ["#000000", "#b12424", "#006b4f", "#f8a300", "#138af2", "#9a1b6e", "#3eb8bf", "#ffffff", "#000000", "#b12424", "#006b4f", "#f8a300", "#138af2", "#9a1b6e", "#3eb8bf", "#ffffff"]),
  ("rebecca", Scheme.mk "#e8e6ed" "#292a44" ["#12131e", "#dd7755", "#04dbb5", "#f2e7b7", "#7aa5ff", "#bf9cf9", "#56d3c2", "#e4e3e9", "#666699", "#ff92cd", "#01eac0", "#fffca8", "#69c0fa", "#c17ff8", "#8bfde1", "#f4f2f9"]),
  ("red_alert", Scheme.mk "#ffffff" "#762423" ["#000000", "#d62e4e", "#71be6b", "#beb86b", "#489bee", "#e979d7", "#6bbeb8", "#d6d6d6", "#262626", "#e02553", "#aff08c", "#dfddb7", "#65aaf1", "#ddb7df", "#b7dfdd", "#ffffff"]),
  ("red_planet", Scheme.mk "#c2b790" "#222222" ["#202020", "#8c3432", "#728271", "#e8bf6a", "#69819e", "#896492", "#5b8390", "#b9aa99", "#676767", "#b55242", "#869985", "#ebeb91", "#60827e", "#de4974", "#38add8", "#d6bfb8"]),
  ("red_sands", Scheme.mk "#d7c9a7" "#7a251e" ["#000000", "#ff3f00", "#00bb00", "#e7b000", "#0072ff", "#bb00bb", "#00bbbb", "#bbbbbb", "#555555", "#bb0000", "#00bb00", "#e7b000", "#0072ae", "#ff55ff", "#55ffff", "#ffffff"]),
  ("relaxed", Scheme.mk "#d9d9d9" "#353a44" ["#151515", "#bc5653", "#909d63", "#ebc17a", "#6a8799", "#b06698", "#c9dfff", "#d9d9d9", "#636363", "#bc5653", "#a0ac77", "#ebc17a", "#7eaac7", "#b06698", "#acbbd0", "#f7f7f7"]),
  ("retro", Scheme.mk "#13a10e" "#000000" ["#13a10e", "#13a10e", "#13a10e", "#13a10e", "#13a10e", "#13a10e", "#13a10e", "#13a10e", "#16ba10", "#16ba10", "#16ba10", "#16ba10", "#16ba10", "#16ba10", "#16ba10", "#16ba10"]),
  ("retro_legends", Scheme.mk "#45eb45" "#0d0d0d" ["#262626", "#de5454", "#45eb45", "#f7bf2b", "#4066f2", "#bf4cf2", "#40d9e6", "#bfe6bf", "#4c594c", "#ff6666", "#59ff59", "#ffd933", "#4c80ff", "#e666ff", "#59e6ff", "#f2fff2"]),
  ("rippedcasts", Scheme.mk "#ffffff" "#2b2b2b" ["#000000", "#cdaf95", "#a8ff60", "#bfbb1f", "#75a5b0", "#ff73fd", "#5a647e", "#bfbfbf", "#666666", "#eecbad", "#bcee68", "#e5e500", "#86bdc9", "#e500e5", "#8c9bc4", "#e5e5e5"]),
  ("rose_pine", Scheme.mk "#e0def4" "#191724" ["#26233a", "#eb6f92", "#31748f", "#f6c177", "#9ccfd8", "#c4a7e7", "#ebbcba", "#e0def4", "#6e6a86", "#eb6f92", "#31748f", "#f6c177", "#9ccfd8", "#c4a7e7", "#ebbcba", "#e0def4"]),
  ("rose_pine_dawn", Scheme.mk "#575279" "#faf4ed" ["#f2e9e1", "#b4637a", "#286983", "#ea9d34", "#56949f", "#907aa9", "#d7827e", "#575279", "#9893a5", "#b4637a", "#286983", "#ea9d34", "#56949f", "#907aa9", "#d7827e", "#575279"]),
  ("rose_pine_moon", Scheme.mk "#e0def4" "#232136" ["#393552", "#eb6f92", "#3e8fb0", "#f6c177", "#9ccfd8", "#c4a7e7", "#ea9a97", "#e0def4", "#6e6a86", "#eb6f92", "#3e8fb0", "#f6c177", "#9ccfd8", "#c4a7e7", "#ea9a97", "#e0def4"]),
  ("rouge_2", Scheme.mk "#a2a3aa" "#17182b" ["#5d5d6b", "#c6797e", "#969e92", "#dbcdab", "#6e94b9", "#4c4e78", "#8ab6c1", "#e8e8ea", "#616274", "#c6797e", "#e6dcc4", "#e6dcc4", "#98b3cd", "#8283a1", "#abcbd3", "#e8e8ea"]),
  ("royal", Scheme.mk "#514968" "#100815" ["#241f2b", "#91284c", "#23801c", "#b49d27", "#6580b0", "#674d96", "#8aaabe", "#524966", "#312d3d", "#d5356c", "#2cd946", "#fde83b", "#90baf9", "#a479e3", "#acd4eb", "#9e8cbd"]),
  ("ryuuko", Scheme.mk "#ececec" "#2c3941" ["#2c3941", "#865f5b", "#66907d", "#b1a990", "#6a8e95", "#b18a73", "#88b2ac", "#ececec", "#5d7079", "#865f5b", "#66907d", "#b1a990", "#6a8e95", "#b18a73", "#88b2ac", "#ececec"]),
  ("sakura", Scheme.mk "#dd7bdc" "#18131e" ["#000000", "#d52370", "#41af1a", "#bc7053", "#6964ab", "#c71fbf", "#939393", "#998eac", "#786d69", "#f41d99", "#22e529", "#f59574", "#9892f1", "#e90cdd", "#eeeeee", "#cbb6ff"]),
  ("scarlet_protocol", Scheme.mk "#e41951" "#1c153d" ["#101116", "#ff0051", "#00dc84", "#faf945", "#0271b6", "#ca30c7", "#00c5c7", "#c7c7c7", "#686868", "#ff6e67", "#5ffa68", "#fffc67", "#6871ff", "#bd35ec", "#60fdff", "#ffffff"]),
]

def schemes_10 : List (String × Scheme) := [
  ("sea_shells", Scheme.mk "#deb88d" "#09141b" ["#17384c", "#d15123", "#027c9b", "#fca02f", "#1e4950", "#68d4f1", "#50a3b5", "#deb88d", "#434b53", "#d48678", "#628d98", "#fdd39f", "#1bbcdd", "#bbe3ee", "#87acb4", "#fee4ce"]),
  ("seafoam_pastel", Scheme.mk "#d4e7d4" "#243435" ["#757575", "#825d4d", "#728c62", "#ada16d", "#4d7b82", "#8a7267", "#729494", "#e0e0e0", "#8a8a8a", "#cf937a", "#98d9aa", "#fae79d", "#7ac3cf", "#d6b2a1", "#ade0e0", "#e0e0e0"]),
  ("seoulbones_dark", Scheme.mk "#dddddd" "#4b4b4b" ["#4b4b4b", "#e388a3", "#98bd99", "#ffdf9b", "#97bdde", "#a5a6c5", "#6fbdbe", "#dddddd", "#6c6465", "#eb99b1", "#8fcd92", "#ffe5b3", "#a2c8e9", "#b2b3da", "#6bcacb", "#a8a8a8"]),
  ("seoulbones_light", Scheme.mk "#555555" "#e2e2e2" ["#e2e2e2", "#dc5284", "#628562", "#c48562", "#0084a3", "#896788", "#008586", "#555555", "#bfbabb", "#be3c6d", "#487249", "#a76b48", "#006f89", "#7f4c7e", "#006f70", "#777777"]),
  ("seti", Scheme.mk "#cacecd" "#111213" ["#323232", "#c22832", "#8ec43d", "#e0c64f", "#43a5d5", "#8b57b5", "#8ec43d", "#eeeeee", "#323232", "#c22832", "#8ec43d", "#e0c64f", "#43a5d5", "#8b57b5", "#8ec43d", "#ffffff"]),
  ("shades_of_purple", Scheme.mk "#ffffff" "#1e1d40" ["#000000", "#d90429", "#3ad900", "#ffe700", "#6943ff", "#ff2c70", "#00c5c7", "#c7c7c7", "#686868", "#f92a1c", "#43d426", "#f1d000", "#6871ff", "#ff77ff", "#79e8fb", "#ffffff"]),
  ("shaman", Scheme.mk "#405555" "#001015" ["#012026", "#b2302d", "#00a941", "#5e8baa", "#449a86", "#00599d", "#5d7e19", "#405555", "#384451", "#ff4242", "#2aea5e", "#8ed4fd", "#61d5ba", "#1298ff", "#98d028", "#58fbd6"]),
  ("slate", Scheme.mk "#35b1d2" "#222222" ["#222222", "#e2a8bf", "#81d778", "#c4c9c0", "#264b49", "#a481d3", "#15ab9c", "#02c5e0", "#ffffff", "#ffcdd9", "#beffa8", "#d0ccca", "#7ab0d2", "#c5a7d9", "#8cdfe0", "#e0e0e0"]),
  ("sleepy_hollow", Scheme.mk "#af9a91" "#121214" ["#572100", "#ba3934", "#91773f", "#b55600", "#5f63b4", "#a17c7b", "#8faea9", "#af9a91", "#4e4b61", "#d9443f", "#d6b04e", "#f66813", "#8086ef", "#e2c2bb", "#a4dce7", "#d2c7a9"]),
  ("smyck", Scheme.mk "#f7f7f7" "#1b1b1b" ["#000000", "#b84131", "#7da900", "#c4a500", "#62a3c4", "#ba8acc", "#207383", "#a1a1a1", "#7a7a7a", "#d6837c", "#c4f137", "#fee14d", "#8dcff0", "#f79aff", "#6ad9cf", "#f7f7f7"]),
  ("snazzy", Scheme.mk "#ebece6" "#1e1f29" ["#000000", "#fc4346", "#50fb7c", "#f0fb8c", "#49baff", "#fc4cb4", "#8be9fe", "#ededec", "#555555", "#fc4346", "#50fb7c", "#f0fb8c", "#49baff", "#fc4cb4", "#8be9fe", "#ededec"]),
  ("snazzy_soft", Scheme.mk "#eff0eb" "#282a36" ["#000000", "#ff5c57", "#5af78e", "#f3f99d", "#57c7ff", "#ff6ac1", "#9aedfe", "#f1f1f0", "#686868", "#ff5c57", "#5af78e", "#f3f99d", "#57c7ff", "#ff6ac1", "#9aedfe", "#f1f1f0"]),
  ("soft_server", Scheme.mk "#99a3a2" "#242626" ["#000000", "#a2686a", "#9aa56a", "#a3906a", "#6b8fa3", "#6a71a3", "#6ba58f", "#99a3a2", "#666c6c", "#dd5c60", "#bfdf55", "#deb360", "#62b1df", "#606edf", "#64e39c", "#d2e0de"]),
  ("solarized_darcula", Scheme.mk "#d2d8d9" "#3d3f41" ["#25292a", "#f24840", "#629655", "#b68800", "#2075c7", "#797fd4", "#15968d", "#d2d8d9", "#25292a", "#f24840", "#629655", "#b68800", "#2075c7", "#797fd4", "#15968d", "#d2d8d9"]),
  ("solarized_dark_higher_contrast", Scheme.mk "#9cc2c3" "#001e27" ["#002831", "#d11c24", "#6cbe6c", "#a57706", "#2176c7", "#c61c6f", "#259286", "#eae3cb", "#006488", "#f5163b", "#51ef84", "#b27e28", "#178ec8", "#e24d8e", "#00b39e", "#fcf4dc"]),
  ("solarized_dark_patched", Scheme.mk "#708284" "#001e27" ["#002831", "#d11c24", "#738a05", "#a57706", "#2176c7", "#c61c6f", "#259286", "#eae3cb", "#475b62", "#bd3613", "#475b62", "#536870", "#708284", "#5956ba", "#819090", "#fcf4dc"]),
  ("solarized_osaka_night", Scheme.mk "#c2caf1" "#1a1b25" ["#15161d", "#e77d8f", "#a8cd76", "#d8b172", "#82a1f1", "#b69bf1", "#90cdfa", "#aab1d3", "#424866", "#e77d8f", "#a8cd76", "#d8b172", "#82a1f1", "#b69bf1", "#90cdfa", "#c2caf1"]),
  ("space_gray", Scheme.mk "#b3b8c3" "#20242d" ["#000000", "#b04b57", "#87b379", "#e5c179", "#7d8fa4", "#a47996", "#85a7a5", "#b3b8c3", "#000000", "#b04b57", "#87b379", "#e5c179", "#7d8fa4", "#a47996", "#85a7a5", "#ffffff"]),
  ("space_gray_bright", Scheme.mk "#f3f3f3" "#2a2e3a" ["#080808", "#bc5553", "#a0b56c", "#f6c987", "#7baec1", "#b98aae", "#85c9b8", "#d8d8d8", "#626262", "#bc5553", "#a0b56c", "#f6c987", "#7baec1", "#b98aae", "#85c9b8", "#f7f7f7"]),
  ("space_gray_eighties", Scheme.mk "#bdbaae" "#222222" ["#15171c", "#ec5f67", "#81a764", "#fec254", "#5486c0", "#bf83c1", "#57c2c1", "#efece7", "#555555", "#ff6973", "#93d493", "#ffd256", "#4d84d1", "#ff55ff", "#83e9e4", "#ffffff"]),
  ("space_gray_eighties_dull", Scheme.mk "#c9c6bc" "#222222" ["#15171c", "#b24a56", "#92b477", "#c6735a", "#7c8fa5", "#a5789e", "#80cdcb", "#b3b8c3", "#555555", "#ec5f67", "#89e986", "#fec254", "#5486c0", "#bf83c1", "#58c2c1", "#ffffff"]),
  ("spacedust", Scheme.mk "#ecf0c1" "#0a1e24" ["#6e5346", "#e35b00", "#5cab96", "#e3cd7b", "#0f548b", "#e35b00", "#06afc7", "#f0f1ce", "#684c31", "#ff8a3a", "#aecab8", "#ffc878", "#67a0ce", "#ff8a3a", "#83a7b4", "#fefff1"]),
  ("spiderman", Scheme.mk "#e3e3e3" "#1b1d1e" ["#1b1d1e", "#e60813", "#e22928", "#e24756", "#2c3fff", "#2435db", "#3256ff", "#fffef6", "#505354", "#ff0325", "#ff3338", "#fe3a35", "#1d50ff", "#747cff", "#6184ff", "#fffff9"]),
  ("spring", Scheme.mk "#4d4d4c" "#ffffff" ["#000000", "#ff4d83", "#1f8c3b", "#1fc95b", "#1dd3ee", "#8959a8", "#3e999f", "#ffffff", "#000000", "#ff0021", "#1fc231", "#d5b807", "#15a9fd", "#8959a8", "#3e999f", "#ffffff"]),
  ("square", Scheme.mk "#acacab" "#1a1a1a" ["#050505", "#e9897c", "#b6377d", "#ecebbe", "#a9cdeb", "#75507b", "#c9caec", "#f2f2f2", "#141414", "#f99286", "#c3f786", "#fcfbcc", "#b6defb", "#ad7fa8", "#d7d9fc", "#e2e2e2"]),
  ("squirrelsong_dark", Scheme.mk "#ad9c8b" "#352a21" ["#352a21", "#ac493e", "#558240", "#ceb250", "#5993c2", "#7f61b3", "#4f9593", "#cfbaa5", "#6b503c", "#ce574a", "#719955", "#e2c358", "#63a2d6", "#9672d4", "#72aaa8", "#edd5be"]),
  ("srcery", Scheme.mk "#fce8c3" "#1c1b19" ["#1c1b19", "#ef2f27", "#519f50", "#fbb829", "#2c78bf", "#e02c6d", "#0aaeb3", "#baa67f", "#918175", "#f75341", "#98bc37", "#fed06e", "#68a8e4", "#ff5c8f", "#2be4d0", "#fce8c3"]),
  ("starlight", Scheme.mk "#ffffff" "#242424" ["#242424", "#e2425d", "#66b238", "#dec541", "#54aad0", "#e8b2f8", "#5abf9b", "#e6e6e6", "#616161", "#ec5b58", "#6bd162", "#e9e85c", "#78c3f3", "#f2afee", "#6adcc5", "#ffffff"]),
  ("sublette", Scheme.mk "#ccced0" "#202535" ["#253045", "#ee5577", "#55ee77", "#ffdd88", "#5588ff", "#ff77cc", "#44eeee", "#f5f5da", "#405570", "#ee6655", "#99ee77", "#ffff77", "#77bbff", "#aa88ff", "#55ffbb", "#ffffee"]),
  ("subliminal", Scheme.mk "#d4d4d4" "#282c35" ["#7f7f7f", "#e15a60", "#a9cfa4", "#ffe2a9", "#6699cc", "#f1a5ab", "#5fb3b3", "#d4d4d4", "#7f7f7f", "#e15a60", "#a9cfa4", "#ffe2a9", "#6699cc", "#f1a5ab", "#5fb3b3", "#d4d4d4"]),
]

def schemes_11 : List (String × Scheme) := [
  ("sugarplum", Scheme.mk "#db7ddd" "#111147" ["#111147", "#5ca8dc", "#53b397", "#249a84", "#db7ddd", "#d0beee", "#f9f3f9", "#a175d4", "#111147", "#5cb5dc", "#52deb5", "#01f5c7", "#fa5dfd", "#c6a5fd", "#ffffff", "#b577fd"]),
  ("sundried", Scheme.mk "#c9c9c9" "#1a1818" ["#302b2a", "#a7463d", "#587744", "#9d602a", "#485b98", "#864651", "#9c814f", "#c9c9c9", "#4d4e48", "#aa000c", "#128c21", "#fc6a21", "#7999f7", "#fd8aa1", "#fad484", "#ffffff"]),
  ("symfonic", Scheme.mk "#ffffff" "#000000" ["#000000", "#dc322f", "#56db3a", "#ff8400", "#0084d4", "#b729d9", "#ccccff", "#ffffff", "#1b1d21", "#dc322f", "#56db3a", "#ff8400", "#0084d4", "#b729d9", "#ccccff", "#ffffff"]),
  ("synthwave", Scheme.mk "#dad9c7" "#000000" ["#000000", "#f6188f", "#1ebb2b", "#fdf834", "#2186ec", "#f85a21", "#12c3e2", "#ffffff", "#000000", "#f841a0", "#25c141", "#fdf454", "#2f9ded", "#f97137", "#19cde6", "#ffffff"]),
  ("synthwave_alpha", Scheme.mk "#f2f2e3" "#241b30" ["#241b30", "#e60a70", "#00986c", "#adad3e", "#6e29ad", "#b300ad", "#00b0b1", "#b9b1bc", "#7f7094", "#e60a70", "#0ae4a4", "#f9f972", "#aa54f9", "#ff00f6", "#00fbfd", "#f2f2e3"]),
  ("synthwave_everything", Scheme.mk "#f0eff1" "#2a2139" ["#fefefe", "#f97e72", "#72f1b8", "#fede5d", "#6d77b3", "#c792ea", "#f772e0", "#fefefe", "#fefefe", "#f88414", "#72f1b8", "#fff951", "#36f9f6", "#e1acff", "#f92aad", "#fefefe"]),
  ("tango_adapted", Scheme.mk "#000000" "#ffffff" ["#000000", "#ff0000", "#59d600", "#f0cb00", "#00a2ff", "#c17ecc", "#00d0d6", "#e6ebe1", "#8f928b", "#ff0013", "#93ff00", "#fff121", "#88c9ff", "#e9a7e1", "#00feff", "#f6f6f4"]),
  ("tango_half_adapted", Scheme.mk "#000000" "#ffffff" ["#000000", "#ff0000", "#4cc300", "#e2c000", "#008ef6", "#a96cb3", "#00bdc3", "#e0e5db", "#797d76", "#ff0013", "#8af600", "#ffec00", "#76bfff", "#d898d1", "#00f6fa", "#f4f4f2"]),
  ("teerb", Scheme.mk "#d0d0d0" "#262626" ["#1c1c1c", "#d68686", "#aed686", "#d7af87", "#86aed6", "#d6aed6", "#8adbb4", "#d0d0d0", "#1c1c1c", "#d68686", "#aed686", "#e4c9af", "#86aed6", "#d6aed6", "#b1e7dd", "#efefef"]),
  ("terafox", Scheme.mk "#e6eaea" "#152528" ["#2f3239", "#e85c51", "#7aa4a1", "#fda47f", "#5a93aa", "#ad5c7c", "#a1cdd8", "#ebebeb", "#4e5157", "#eb746b", "#8eb2af", "#fdb292", "#73a3b7", "#b97490", "#afd4de", "#eeeeee"]),
  ("terminal_basic", Scheme.mk "#000000" "#ffffff" ["#000000", "#990000", "#00a600", "#999900", "#0000b2", "#b200b2", "#00a6b2", "#bfbfbf", "#666666", "#e50000", "#00d900", "#e5e500", "#0000ff", "#e500e5", "#00e5e5", "#e5e5e5"]),
  ("thayer_bright", Scheme.mk "#f8f8f8" "#1b1d1e" ["#1b1d1e", "#f92672", "#4df840", "#f4fd22", "#2757d6", "#8c54fe", "#38c8b5", "#ccccc6", "#505354", "#ff5995", "#b6e354", "#feed6c", "#3f78ff", "#9e6ffe", "#23cfd5", "#f8f8f2"]),
  ("the_hulk", Scheme.mk "#b5b5b5" "#1b1d1e" ["#1b1d1e", "#269d1b", "#13ce30", "#63e457", "#2525f5", "#641f74", "#378ca9", "#d9d8d1", "#505354", "#8dff2a", "#48ff77", "#3afe16", "#506b95", "#72589d", "#4085a6", "#e5e6e1"]),
  ("tinacious_design_dark", Scheme.mk "#cbcbf0" "#1d1d26" ["#1d1d26", "#ff3399", "#00d364", "#ffcc66", "#00cbff", "#cc66ff", "#00ceca", "#cbcbf0", "#636667", "#ff2f92", "#00d364", "#ffd479", "#00cbff", "#d783ff", "#00d5d4", "#d5d6f3"]),
  ("tinacious_design_light", Scheme.mk "#1d1d26" "#f8f8ff" ["#1d1d26", "#ff3399", "#00d364", "#ffcc66", "#00cbff", "#cc66ff", "#00ceca", "#cbcbf0", "#636667", "#ff2f92", "#00d364", "#ffd479", "#00cbff", "#d783ff", "#00d5d4", "#d5d6f3"]),
  ("tokyonight", Scheme.mk "#c0caf5" "#1a1b26" ["#15161e", "#f7768e", "#9ece6a", "#e0af68", "#7aa2f7", "#bb9af7", "#7dcfff", "#a9b1d6", "#414868", "#f7768e", "#9ece6a", "#e0af68", "#7aa2f7", "#bb9af7", "#7dcfff", "#c0caf5"]),
  ("tokyonight_day", Scheme.mk "#3760bf" "#e1e2e7" ["#e9e9ed", "#f52a65", "#587539", "#8c6c3e", "#2e7de9", "#9854f1", "#007197", "#6172b0", "#a1a6c5", "#f52a65", "#587539", "#8c6c3e", "#2e7de9", "#9854f1", "#007197", "#3760bf"]),
  ("tokyonight_moon", Scheme.mk "#c8d3f5" "#222436" ["#1b1d2b", "#ff757f", "#c3e88d", "#ffc777", "#82aaff", "#c099ff", "#86e1fc", "#828bb8", "#444a73", "#ff757f", "#c3e88d", "#ffc777", "#82aaff", "#c099ff", "#86e1fc", "#c8d3f5"]),
  ("tokyonight_night", Scheme.mk "#c0caf5" "#1a1b26" ["#15161e", "#f7768e", "#9ece6a", "#e0af68", "#7aa2f7", "#bb9af7", "#7dcfff", "#a9b1d6", "#414868", "#f7768e", "#9ece6a", "#e0af68", "#7aa2f7", "#bb9af7", "#7dcfff", "#c0caf5"]),
  ("tokyonight_storm", Scheme.mk "#c0caf5" "#24283b" ["#1d202f", "#f7768e", "#9ece6a", "#e0af68", "#7aa2f7", "#bb9af7", "#7dcfff", "#a9b1d6", "#414868", "#f7768e", "#9ece6a", "#e0af68", "#7aa2f7", "#bb9af7", "#7dcfff", "#c0caf5"]),
  ("tomorrow", Scheme.mk "#4d4d4c" "#ffffff" ["#000000", "#c82829", "#718c00", "#eab700", "#4271ae", "#8959a8", "#3e999f", "#ffffff", "#000000", "#c82829", "#718c00", "#eab700", "#4271ae", "#8959a8", "#3e999f", "#ffffff"]),
  ("tomorrow_night", Scheme.mk "#c5c8c6" "#1d1f21" ["#000000", "#cc6666", "#b5bd68", "#f0c674", "#81a2be", "#b294bb", "#8abeb7", "#ffffff", "#000000", "#cc6666", "#b5bd68", "#f0c674", "#81a2be", "#b294bb", "#8abeb7", "#ffffff"]),
  ("tomorrow_night_blue", Scheme.mk "#ffffff" "#002451" ["#000000", "#ff9da4", "#d1f1a9", "#ffeead", "#bbdaff", "#ebbbff", "#99ffff", "#ffffff", "#000000", "#ff9da4", "#d1f1a9", "#ffeead", "#bbdaff", "#ebbbff", "#99ffff", "#ffffff"]),
  ("tomorrow_night_bright", Scheme.mk "#eaeaea" "#000000" ["#000000", "#d54e53", "#b9ca4a", "#e7c547", "#7aa6da", "#c397d8", "#70c0b1", "#ffffff", "#000000", "#d54e53", "#b9ca4a", "#e7c547", "#7aa6da", "#c397d8", "#70c0b1", "#ffffff"]),
  ("tomorrow_night_burns", Scheme.mk "#a1b0b8" "#151515" ["#252525", "#832e31", "#a63c40", "#d3494e", "#fc595f", "#df9395", "#ba8586", "#f5f5f5", "#5d6f71", "#832e31", "#a63c40", "#d2494e", "#fc595f", "#df9395", "#ba8586", "#f5f5f5"]),
  ("tomorrow_night_eighties", Scheme.mk "#cccccc" "#2d2d2d" ["#000000", "#f2777a", "#99cc99", "#ffcc66", "#6699cc", "#cc99cc", "#66cccc", "#ffffff", "#000000", "#f2777a", "#99cc99", "#ffcc66", "#6699cc", "#cc99cc", "#66cccc", "#ffffff"]),
  ("toy_chest", Scheme.mk "#31d07b" "#24364b" ["#2c3f58", "#be2d26", "#1a9172", "#db8e27", "#325d96", "#8a5edc", "#35a08f", "#23d183", "#336889", "#dd5944", "#31d07b", "#e7d84b", "#34a6da", "#ae6bdc", "#42c3ae", "#d5d5d5"]),
  ("treehouse", Scheme.mk "#786b53" "#191919" ["#321300", "#b2270e", "#44a900", "#aa820c", "#58859a", "#97363d", "#b25a1e", "#786b53", "#433626", "#ed5d20", "#55f238", "#f2b732", "#85cfed", "#e14c5a", "#f07d14", "#ffc800"]),
  ("twilight", Scheme.mk "#ffffd4" "#141414" ["#141414", "#c06d44", "#afb97a", "#c2a86c", "#44474a", "#b4be7c", "#778385", "#ffffd4", "#262626", "#de7c4c", "#ccd88c", "#e2c47e", "#5a5e62", "#d0dc8e", "#8a989b", "#ffffd4"]),
  ("ubuntu", Scheme.mk "#eeeeec" "#300a24" ["#2e3436", "#cc0000", "#4e9a06", "#c4a000", "#3465a4", "#75507b", "#06989a", "#d3d7cf", "#555753", "#ef2929", "#8ae234", "#fce94f", "#729fcf", "#ad7fa8", "#34e2e2", "#eeeeec"]),
]

def schemes_12 : List (String × Scheme) := [
  ("ultra_dark", Scheme.mk "#ffffff" "#000000" ["#000000", "#f07178", "#c3e88d", "#ffcb6b", "#82aaff", "#c792ea", "#89ddff", "#cccccc", "#333333", "#f6a9ae", "#dbf1ba", "#ffdfa6", "#b4ccff", "#ddbdf2", "#b8eaff", "#ffffff"]),
  ("ultra_violent", Scheme.mk "#c1c1c1" "#242728" ["#242728", "#ff0090", "#b6ff00", "#fff727", "#47e0fb", "#d731ff", "#0effbb", "#e1e1e1", "#636667", "#fb58b4", "#deff8c", "#ebe087", "#7fecff", "#e681ff", "#69fcd3", "#f9f9f5"]),
  ("under_the_sea", Scheme.mk "#ffffff" "#011116" ["#022026", "#b2302d", "#00a941", "#59819c", "#459a86", "#00599d", "#5d7e19", "#405555", "#384451", "#ff4242", "#2aea5e", "#8ed4fd", "#61d5ba", "#1298ff", "#98d028", "#58fbd6"]),
  ("unikitty", Scheme.mk "#0b0b0b" "#ff8cd9" ["#0c0c0c", "#a80f20", "#bafc8b", "#eedf4b", "#145fcd", "#ff36a2", "#6bd1bc", "#e2d7e1", "#434343", "#d91329", "#d3ffaf", "#ffef50", "#0075ea", "#fdd5e5", "#79ecd5", "#fff3fe"]),
  ("urple", Scheme.mk "#877a9b" "#1b1b23" ["#000000", "#b0425b", "#37a415", "#ad5c42", "#564d9b", "#6c3ca1", "#808080", "#87799c", "#5d3225", "#ff6388", "#29e620", "#f08161", "#867aed", "#a05eee", "#eaeaea", "#bfa3ff"]),
  ("vaughn", Scheme.mk "#dcdccc" "#25234f" ["#25234f", "#705050", "#60b48a", "#dfaf8f", "#5555ff", "#f08cc3", "#8cd0d3", "#709080", "#709080", "#dca3a3", "#60b48a", "#f0dfaf", "#5555ff", "#ec93d3", "#93e0e3", "#ffffff"]),
  ("vesper", Scheme.mk "#ffffff" "#101010" ["#101010", "#f5a191", "#90b99f", "#e6b99d", "#aca1cf", "#e29eca", "#ea83a5", "#a0a0a0", "#7e7e7e", "#ff8080", "#99ffe4", "#ffc799", "#b9aeda", "#ecaad6", "#f591b2", "#ffffff"]),
  ("vibrant_ink", Scheme.mk "#ffffff" "#000000" ["#878787", "#ff6600", "#ccff04", "#ffcc00", "#44b4cc", "#9933cc", "#44b4cc", "#f5f5f5", "#555555", "#ff0000", "#00ff00", "#ffff00", "#0000ff", "#ff00ff", "#00ffff", "#e5e5e5"]),
  ("vimbones", Scheme.mk "#353535" "#f0f0ca" ["#f0f0ca", "#a8334c", "#4f6c31", "#944927", "#286486", "#88507d", "#3b8992", "#353535", "#c6c6a3", "#94253e", "#3f5a22", "#803d1c", "#1d5573", "#7b3b70", "#2b747c", "#5c5c5c"]),
  ("violet_dark", Scheme.mk "#708284" "#1c1d1f" ["#56595c", "#c94c22", "#85981c", "#b4881d", "#2e8bce", "#d13a82", "#32a198", "#c9c6bd", "#45484b", "#bd3613", "#738a04", "#a57705", "#2176c7", "#c61c6f", "#259286", "#c9c6bd"]),
  ("violet_light", Scheme.mk "#536870" "#fcf4dc" ["#56595c", "#c94c22", "#85981c", "#b4881d", "#2e8bce", "#d13a82", "#32a198", "#d3d0c9", "#45484b", "#bd3613", "#738a04", "#a57705", "#2176c7", "#c61c6f", "#259286", "#c9c6bd"]),
  ("warm_neon", Scheme.mk "#afdab6" "#404040" ["#000000", "#e24346", "#39b13a", "#dae145", "#4261c5", "#f920fb", "#2abbd4", "#d0b8a3", "#fefcfc", "#e97071", "#9cc090", "#ddda7a", "#7b91d6", "#f674ba", "#5ed1e5", "#d8c8bb"]),
  ("wez", Scheme.mk "#b3b3b3" "#000000" ["#000000", "#cc5555", "#55cc55", "#cdcd55", "#5555cc", "#cc55cc", "#7acaca", "#cccccc", "#555555", "#ff5555", "#55ff55", "#ffff55", "#5555ff", "#ff55ff", "#55ffff", "#ffffff"]),
  ("whimsy", Scheme.mk "#b3b0d6" "#29283b" ["#535178", "#ef6487", "#5eca89", "#fdd877", "#65aef7", "#aa7ff0", "#43c1be", "#ffffff", "#535178", "#ef6487", "#5eca89", "#fdd877", "#65aef7", "#aa7ff0", "#43c1be", "#ffffff"]),
  ("wild_cherry", Scheme.mk "#dafaff" "#1f1726" ["#000507", "#d94085", "#2ab250", "#ffd16f", "#883cdc", "#ececec", "#c1b8b7", "#fff8de", "#009cc9", "#da6bac", "#f4dca5", "#eac066", "#308cba", "#ae636b", "#ff919d", "#e4838d"]),
  ("wilmersdorf", Scheme.mk "#c6c6c6" "#282b33" ["#34373e", "#e06383", "#7ebebd", "#cccccc", "#a6c1e0", "#e1c1ee", "#5b94ab", "#ababab", "#434750", "#fa7193", "#8fd7d6", "#d1dfff", "#b2cff0", "#efccfd", "#69abc5", "#d3d3d3"]),
  ("wombat", Scheme.mk "#dedacf" "#171717" ["#000000", "#ff615a", "#b1e969", "#ebd99c", "#5da9f6", "#e86aff", "#82fff7", "#dedacf", "#313131", "#f58c80", "#ddf88f", "#eee5b2", "#a5c7ff", "#ddaaff", "#b7fff9", "#ffffff"]),
  ("wryan", Scheme.mk "#999993" "#101010" ["#333333", "#8c4665", "#287373", "#7c7c99", "#395573", "#5e468c", "#31658c", "#899ca1", "#3d3d3d", "#bf4d80", "#53a6a6", "#9e9ecb", "#477ab3", "#7e62b3", "#6096bf", "#c0c0c0"]),
  ("xcodedark", Scheme.mk "#dfdfe0" "#292a30" ["#414453", "#ff8170", "#78c2b3", "#d9c97c", "#4eb0cc", "#ff7ab2", "#b281eb", "#dfdfe0", "#7f8c98", "#ff8170", "#acf2e4", "#ffa14f", "#6bdfff", "#ff7ab2", "#dabaff", "#dfdfe0"]),
  ("xcodedarkhc", Scheme.mk "#ffffff" "#1f1f24" ["#43454b", "#ff8a7a", "#83c9bc", "#d9c668", "#4ec4e6", "#ff85b8", "#cda1ff", "#ffffff", "#838991", "#ff8a7a", "#b1faeb", "#ffa14f", "#6bdfff", "#ff85b8", "#e5cfff", "#ffffff"]),
  ("xcodelight", Scheme.mk "#262626" "#ffffff" ["#b4d8fd", "#d12f1b", "#3e8087", "#78492a", "#0f68a0", "#ad3da4", "#804fb8", "#262626", "#8a99a6", "#d12f1b", "#23575c", "#78492a", "#0b4f79", "#ad3da4", "#4b21b0", "#262626"]),
  ("xcodelighthc", Scheme.mk "#000000" "#ffffff" ["#b4d8fd", "#ad1805", "#355d61", "#78492a", "#0058a1", "#9c2191", "#703daa", "#000000", "#8a99a6", "#ad1805", "#174145", "#78492a", "#003f73", "#9c2191", "#441ea1", "#000000"]),
  ("xcodewwdc", Scheme.mk "#e7e8eb" "#292c36" ["#494d5c", "#bb383a", "#94c66e", "#d28e5d", "#8884c5", "#b73999", "#00aba4", "#e7e8eb", "#7f869e", "#bb383a", "#94c66e", "#d28e5d", "#8884c5", "#b73999", "#00aba4", "#e7e8eb"]),
  ("zenbones", Scheme.mk "#2c363c" "#f0edec" ["#f0edec", "#a8334c", "#4f6c31", "#944927", "#286486", "#88507d", "#3b8992", "#2c363c", "#cfc1ba", "#94253e", "#3f5a22", "#803d1c", "#1d5573", "#7b3b70", "#2b747c", "#4f5e68"]),
  ("zenbones_dark", Scheme.mk "#b4bdc3" "#1c1917" ["#1c1917", "#de6e7c", "#819b69", "#b77e64", "#6099c0", "#b279a7", "#66a5ad", "#b4bdc3", "#403833", "#e8838f", "#8bae68", "#d68c67", "#61abda", "#cf86c1", "#65b8c1", "#888f94"]),
  ("zenbones_light", Scheme.mk "#2c363c" "#f0edec" ["#f0edec", "#a8334c", "#4f6c31", "#944927", "#286486", "#88507d", "#3b8992", "#2c363c", "#cfc1ba", "#94253e", "#3f5a22", "#803d1c", "#1d5573", "#7b3b70", "#2b747c", "#4f5e68"]),
  ("zenburn", Scheme.mk "#dcdccc" "#3f3f3f" ["#4d4d4d", "#705050", "#60b48a", "#f0dfaf", "#506070", "#dc8cc3", "#8cd0d3", "#dcdccc", "#709080", "#dca3a3", "#c3bf9f", "#e0cf9f", "#94bff3", "#ec93d3", "#93e0e3", "#ffffff"]),
  ("zenburned", Scheme.mk "#f0e4cf" "#404040" ["#404040", "#e3716e", "#819b69", "#b77e64", "#6099c0", "#b279a7", "#66a5ad", "#f0e4cf", "#625a5b", "#ec8685", "#8bae68", "#d68c67", "#61abda", "#cf86c1", "#65b8c1", "#c0ab86"]),
  ("zenwritten_dark", Scheme.mk "#bbbbbb" "#191919" ["#191919", "#de6e7c", "#819b69", "#b77e64", "#6099c0", "#b279a7", "#66a5ad", "#bbbbbb", "#3d3839", "#e8838f", "#8bae68", "#d68c67", "#61abda", "#cf86c1", "#65b8c1", "#8e8e8e"]),
  ("zenwritten_light", Scheme.mk "#353535" "#eeeeee" ["#eeeeee", "#a8334c", "#4f6c31", "#944927", "#286486", "#88507d", "#3b8992", "#353535", "#c6c3c3", "#94253e", "#3f5a22", "#803d1c", "#1d5573", "#7b3b70", "#2b747c", "#5c5c5c"]),
]

def color_schemes : List (String × Scheme) :=
  schemes_0 ++ schemes_1 ++ schemes_2 ++ schemes_3 ++ schemes_4 ++ schemes_5 ++ schemes_6 ++ schemes_7 ++ schemes_8 ++ schemes_9 ++ schemes_10 ++ schemes_11 ++ schemes_12

/-- The scheme names in registry declaration order (`for x in color_schemes`
iterates dict keys in insertion order). -/
def schemeNames : List String := color_schemes.map Prod.fst

/-- The first registry record, `color_schemes['0x96f']` (line 121), written
out once as a fixture for concrete instantiations. -/
def scheme0 : Scheme :=
  Scheme.mk "#fcfcfa" "#262427"
    ["#262427", "#ff7272", "#bcdf59", "#ffca58", "#49cae4", "#a093e2",
     "#aee8f4", "#fcfcfa", "#545452", "#ff8787", "#c6e472", "#ffd271",
     "#64d2e8", "#aea3e6", "#baebf6", "#fcfcfa"]

/-- The registry record `color_schemes['catppuccin_mocha']` (line 176),
written out once as a fixture for concrete instantiations. -/
def mochaScheme : Scheme :=
  Scheme.mk "#cdd6f4" "#1e1e2e"
    ["#45475a", "#f38ba8", "#a6e3a1", "#f9e2af", "#89b4fa", "#f5c2e7",
     "#94e2d5", "#a6adc8", "#585b70", "#f37799", "#89d88b", "#ebd391",
     "#74a8fc", "#f2aede", "#6bd7ca", "#bac2de"]

/-- Parsed command-line arguments (source lines 23-29): the four mutually
exclusive options of the argument group.  `argparse` stores `None` for an
absent string option and `False` for an absent store-true flag; `showAll`
is the show flag `-s`. -/
structure Args where
  color_scheme : Option String
  regexp : Option String
  list : Bool
  showAll : Bool
deriving DecidableEq

/-- Python truthiness of an optional string option (`if args.color_scheme:`):
true when present and nonempty. -/
def optTruthy (o : Option String) : Bool :=
  match o with
  | none => false
  | some s => !s.isEmpty

/-- Standard output of `main` (lines 104-117) on parsed arguments, with the
regular-expression matcher `re.search` abstracted as a predicate
`search pattern name`.  Branches in source order: `-c` prints `set_colors`
output (dict lookup modelled by association-list lookup), `-e` prints one
blank line then one `show_colors` block per matching name in declaration
order, `-l` prints one name per line, `-s` prints one blank line then every
block.  `none` models an uncaught exception; with no option selected `main`
prints nothing (argparse shows help before `main` when no arguments are
given). -/
def mainOut (search : String → String → Bool) (a : Args) : Option String :=
  if optTruthy a.color_scheme then
    (color_schemes.lookup (a.color_scheme.getD "")).map setColorsOut
  else if optTruthy a.regexp then
    match optMapList (fun p => showColorsOut p.1 p.2)
        (color_schemes.filter (fun p => search (a.regexp.getD "") p.1)) with
    | some bs => some ("\n" ++ String.join bs)
    | none => none
  else if a.list then
    some (String.join (color_schemes.map (fun p => p.1 ++ "\n")))
  else if a.showAll then
    match optMapList (fun p => showColorsOut p.1 p.2) color_schemes with
    | some bs => some ("\n" ++ String.join bs)
    | none => none
  else
    some ""

/-! ### Specification-side definitions (for comparison with the source) -/

/-- Modelled from the spec: "the input, after stripping the optional leading
`'#'`, is … exactly 6 hexadecimal digits" — remove at most one leading `'#'`
and test for exactly six hex digits. -/
def sixHexAfterOneHash (s : String) : Bool :=
  let r := match s.data with
    | '#' :: rest => rest
    | l => l
  r.length = 6 && r.all (fun c => (hexDigitVal? c).isSome)

/-- A color value as the registry invariant demands it: `'#'` followed by
exactly six hexadecimal digits. -/
def isHexColorB (s : String) : Bool :=
  match s.data with
  | '#' :: rest => rest.length = 6 && rest.all (fun c => (hexDigitVal? c).isSome)
  | _ => false

/-- All checkable registry invariants of one scheme record: well-formed
foreground, background and palette colors, and exactly 16 palette entries. -/
def schemeOk (s : Scheme) : Bool :=
  isHexColorB s.fg && isHexColorB s.bg
    && s.colors.length = 16 && s.colors.all isHexColorB

/-- Syntactic characterization of the two-character slices accepted by
`int(·, 16)`: one or two hex digits, a sign or whitespace character followed
by a hex digit, or a hex digit followed by whitespace. -/
def sliceOkB (l : List Char) : Bool :=
  match l with
  | [c] => (hexDigitVal? c).isSome
  | [c1, c2] =>
    ((hexDigitVal? c1).isSome && (hexDigitVal? c2).isSome)
      || ((c1 = '+' || c1 = '-') && (hexDigitVal? c2).isSome)
      || (isPySpace c1 && (hexDigitVal? c2).isSome)
      || ((hexDigitVal? c1).isSome && isPySpace c2)
  | _ => false

/-- Modelled from the spec: re-encoding one RGB component as a two-digit
lowercase base-16 group (the source defines no encoder; §8's round-trip
property requires one). -/
def toHexDigitChar (n : Nat) : Char :=
  if n < 10 then Char.ofNat (48 + n) else Char.ofNat (87 + n)

/-- Modelled from the spec: the two-digit hex group of a component in 0-255. -/
def toHex2 (n : Nat) : String :=
  ⟨[toHexDigitChar (n / 16), toHexDigitChar (n % 16)]⟩

/-- Lexicographic strict order on character lists, by codepoint. -/
def charLtB (a b : Char) : Bool := decide (a.toNat < b.toNat)

/-- Lexicographic strict order on character lists, by codepoint. -/
def listLtB : List Char → List Char → Bool
  | [], [] => false
  | [], _ :: _ => true
  | _ :: _, [] => false
  | a :: as, b :: bs => charLtB a b || (a == b && listLtB as bs)

/-- Strictly increasing chain of strings in lexicographic codepoint order. -/
def strictIncB : List String → Bool
  | [] => true
  | [_] => true
  | a :: b :: rest => listLtB a.data b.data && strictIncB (b :: rest)

/-! ## Theorems -/

/-! ### Bulk facts about the registry, established by evaluation -/

/-- Every registry record passes `schemeOk`, has a nonempty name, and a name
of at most 39 characters. -/
theorem registry_bulk :
    color_schemes.all
      (fun p => schemeOk p.2 && !p.1.isEmpty && p.1.length ≤ 39) = true := by
  decide

/-- `_hex2rgb_dict` succeeds on every registry record. -/
theorem registry_dict_some :
    color_schemes.all (fun p => (hex2rgbDict p.2).isSome) = true := by
  decide

/-- The registry names are strictly increasing in lexicographic order. -/
theorem names_strictInc : strictIncB schemeNames = true := by decide

/-! ### Order helper lemmas -/

theorem listLtB_irrefl (l : List Char) : listLtB l l = false := by
  induction l with
  | nil => rfl
  | cons a as ih => simp [listLtB, charLtB, ih]

theorem listLtB_trans :
    ∀ a b c : List Char, listLtB a b = true → listLtB b c = true →
      listLtB a c = true := by
  intro a
  induction a with
  | nil =>
    intro b c hab hbc
    cases b with
    | nil => simp [listLtB] at hab
    | cons y ys => cases c with
      | nil => simp [listLtB] at hbc
      | cons z zs => simp [listLtB]
  | cons x xs ih =>
    intro b c hab hbc
    cases b with
    | nil => simp [listLtB] at hab
    | cons y ys =>
      cases c with
      | nil => simp [listLtB] at hbc
      | cons z zs =>
        simp only [listLtB, charLtB, Bool.or_eq_true, Bool.and_eq_true,
          decide_eq_true_eq, beq_iff_eq] at hab hbc ⊢
        rcases hab with h1 | ⟨he, h2⟩ <;> rcases hbc with g1 | ⟨ge, g2⟩
        · exact Or.inl (h1.trans g1)
        · exact Or.inl (ge ▸ h1)
        · exact Or.inl (he ▸ g1)
        · exact Or.inr ⟨he.trans ge, ih ys zs h2 g2⟩

theorem strictIncB_tail {a : String} {l : List String}
    (h : strictIncB (a :: l) = true) : strictIncB l = true := by
  cases l with
  | nil => rfl
  | cons b rest =>
    simp only [strictIncB, Bool.and_eq_true] at h
    exact h.2

theorem strictIncB_head_lt :
    ∀ (l : List String) (a : String), strictIncB (a :: l) = true →
      ∀ x ∈ l, listLtB a.data x.data = true := by
  intro l
  induction l with
  | nil => intro a _ x hx; cases hx
  | cons b rest ih =>
    intro a h x hx
    simp only [strictIncB, Bool.and_eq_true] at h
    rcases List.mem_cons.mp hx with rfl | hx
    · exact h.1
    · exact listLtB_trans _ _ _ h.1 (ih b h.2 x hx)

theorem strictIncB_nodup : ∀ l : List String, strictIncB l = true → l.Nodup := by
  intro l
  induction l with
  | nil => intro _; exact List.nodup_nil
  | cons a rest ih =>
    intro h
    refine List.Nodup.cons (fun hmem => ?_) (ih (strictIncB_tail h))
    have hlt := strictIncB_head_lt rest a h a hmem
    rw [listLtB_irrefl] at hlt
    cases hlt

/-- The registry keys are pairwise distinct. -/
theorem schemeNames_nodup : schemeNames.Nodup :=
  strictIncB_nodup _ names_strictInc

/-! ### Generic helper lemmas -/

/-- A successful association-list lookup yields a member of the list. -/
theorem lookup_mem {β : Type} :
    ∀ {l : List (String × β)} {k : String} {s : β},
      l.lookup k = some s → (k, s) ∈ l := by
  intro l
  induction l with
  | nil => intro k s h; simp [List.lookup] at h
  | cons p rest ih =>
    intro k s h
    obtain ⟨k1, v⟩ := p
    rw [List.lookup] at h
    cases hk : (k == k1) with
    | true =>
      rw [hk] at h
      obtain rfl : v = s := by simpa using h
      obtain rfl : k = k1 := by simpa using hk
      exact List.mem_cons_self _ _
    | false =>
      rw [hk] at h
      exact List.mem_cons_of_mem _ (ih h)

/-- `optMapList` succeeds when `f` succeeds pointwise, and the result is the
pointwise list of successes. -/
theorem optMapList_some_of_isSome {α β : Type} (f : α → Option β) :
    ∀ l : List α, (∀ x ∈ l, (f x).isSome = true) →
      ∃ bs : List β, optMapList f l = some bs ∧ bs.length = l.length ∧
        ∀ (i : Nat) (h1 : i < l.length) (h2 : i < bs.length),
          f (l.get ⟨i, h1⟩) = some (bs.get ⟨i, h2⟩) := by
  intro l
  induction l with
  | nil =>
    intro _
    exact ⟨[], rfl, rfl, fun i h1 h2 => absurd h1 (by simp)⟩
  | cons a t ih =>
    intro h
    obtain ⟨b, hb⟩ := Option.isSome_iff_exists.mp (h a (List.mem_cons_self a t))
    obtain ⟨bs, hbs, hlen, hpt⟩ :=
      ih (fun x hx => h x (List.mem_cons_of_mem a hx))
    refine ⟨b :: bs, ?_, by simp [hlen], ?_⟩
    · simp [optMapList, hb, hbs]
    · intro i h1 h2
      cases i with
      | zero => simpa using hb
      | succ n =>
        simpa using hpt n (by simpa using h1) (by simpa using h2)

/-! ### Character-level facts about the `int(x, 16)` model -/
theorem char_ne_of_toNat_ne {c d : Char} (h : c.toNat ≠ d.toNat) : c ≠ d :=
  fun he => h (he ▸ rfl)

theorem hexDigitVal_ranges {c : Char} {v : Nat} (h : hexDigitVal? c = some v) :
    (48 ≤ c.toNat ∧ c.toNat ≤ 57 ∧ v = c.toNat - 48) ∨
    (97 ≤ c.toNat ∧ c.toNat ≤ 102 ∧ v = c.toNat - 87) ∨
    (65 ≤ c.toNat ∧ c.toNat ≤ 70 ∧ v = c.toNat - 55) := by
  unfold hexDigitVal? at h
  split_ifs at h with h1 h2 h3
  · exact Or.inl ⟨h1.1, h1.2, by simpa using h.symm⟩
  · exact Or.inr (Or.inl ⟨h2.1, h2.2, by simpa using h.symm⟩)
  · exact Or.inr (Or.inr ⟨h3.1, h3.2, by simpa using h.symm⟩)

theorem hexVal_lt16 {c : Char} {v : Nat} (h : hexDigitVal? c = some v) :
    v < 16 := by
  rcases hexDigitVal_ranges h with ⟨a, b, e⟩ | ⟨a, b, e⟩ | ⟨a, b, e⟩ <;> omega

theorem hexVal_not_space {c : Char} {v : Nat} (h : hexDigitVal? c = some v) :
    isPySpace c = false := by
  have hr := hexDigitVal_ranges h
  simp only [isPySpace]
  simp only [List.mem_cons, List.not_mem_nil, or_false, decide_eq_false_iff_not]
  rcases hr with ⟨a, b, _⟩ | ⟨a, b, _⟩ | ⟨a, b, _⟩ <;> omega

theorem space_not_hexVal {c : Char} (h : isPySpace c = true) :
    hexDigitVal? c = none := by
  simp only [isPySpace] at h
  simp only [List.mem_cons, List.not_mem_nil, or_false, decide_eq_true_eq] at h
  unfold hexDigitVal?
  split_ifs with h1 h2 h3 <;> first | rfl | omega

theorem hexVal_ne_plus {c : Char} {v : Nat} (h : hexDigitVal? c = some v) :
    c ≠ '+' := by
  rcases hexDigitVal_ranges h with ⟨a, b, _⟩ | ⟨a, b, _⟩ | ⟨a, b, _⟩ <;>
    exact char_ne_of_toNat_ne (by simp only [show ('+').toNat = 43 from rfl]; omega)

theorem hexVal_ne_minus {c : Char} {v : Nat} (h : hexDigitVal? c = some v) :
    c ≠ '-' := by
  rcases hexDigitVal_ranges h with ⟨a, b, _⟩ | ⟨a, b, _⟩ | ⟨a, b, _⟩ <;>
    exact char_ne_of_toNat_ne (by simp only [show ('-').toNat = 45 from rfl]; omega)

theorem hexVal_ne_under {c : Char} {v : Nat} (h : hexDigitVal? c = some v) :
    c ≠ '_' := by
  rcases hexDigitVal_ranges h with ⟨a, b, _⟩ | ⟨a, b, _⟩ | ⟨a, b, _⟩ <;>
    exact char_ne_of_toNat_ne (by simp only [show ('_').toNat = 95 from rfl]; omega)

theorem hexVal_ne_hash {c : Char} {v : Nat} (h : hexDigitVal? c = some v) :
    c ≠ '#' := by
  rcases hexDigitVal_ranges h with ⟨a, b, _⟩ | ⟨a, b, _⟩ | ⟨a, b, _⟩ <;>
    exact char_ne_of_toNat_ne (by simp only [show ('#').toNat = 35 from rfl]; omega)

theorem hexVal_ne_x {c : Char} {v : Nat} (h : hexDigitVal? c = some v) :
    c ≠ 'x' ∧ c ≠ 'X' := by
  rcases hexDigitVal_ranges h with ⟨a, b, _⟩ | ⟨a, b, _⟩ | ⟨a, b, _⟩ <;>
    exact ⟨char_ne_of_toNat_ne (by simp only [show ('x').toNat = 120 from rfl]; omega),
           char_ne_of_toNat_ne (by simp only [show ('X').toNat = 88 from rfl]; omega)⟩

theorem pyIntSigned_not_sign {c : Char} {r : List Char}
    (h1 : c ≠ '+') (h2 : c ≠ '-') :
    pyIntSigned (c :: r) = (pyIntBody (c :: r)).map (fun n => (n : Int)) := by
  simp only [pyIntSigned]
  rw [if_neg h1, if_neg h2]

theorem pyIntBody_cons_cons {c x : Char} {rest : List Char}
    (h : ¬(c = '0' ∧ (x = 'x' ∨ x = 'X'))) :
    pyIntBody (c :: x :: rest) = hexDigitsStart (c :: x :: rest) := by
  simp only [pyIntBody]
  rw [if_neg h]

theorem pyIntBody_single (c : Char) :
    pyIntBody [c] = hexDigitsStart [c] := rfl

theorem pyIntBody_nil : pyIntBody [] = none := rfl

theorem hexDigitsRest_nil (acc : Nat) : hexDigitsRest [] acc = some acc := rfl

theorem hexDigitsRest_cons {c : Char} {v : Nat} {rest : List Char} (acc : Nat)
    (hu : c ≠ '_') (h : hexDigitVal? c = some v) :
    hexDigitsRest (c :: rest) acc = hexDigitsRest rest (16 * acc + v) := by
  rw [hexDigitsRest.eq_def]
  simp only
  rw [if_neg hu, h]

theorem hexDigitsRest_bad {c : Char} {rest : List Char} (acc : Nat)
    (hu : c ≠ '_') (h : hexDigitVal? c = none) :
    hexDigitsRest (c :: rest) acc = none := by
  rw [hexDigitsRest.eq_def]
  simp only
  rw [if_neg hu, h]

theorem hexDigitsStart_cons {c : Char} {v : Nat} {r : List Char}
    (h : hexDigitVal? c = some v) :
    hexDigitsStart (c :: r) = hexDigitsRest r v := by
  simp only [hexDigitsStart]
  rw [h]

theorem hexDigitsStart_bad {c : Char} {r : List Char}
    (h : hexDigitVal? c = none) :
    hexDigitsStart (c :: r) = none := by
  simp only [hexDigitsStart]
  rw [h]

theorem pyIntBody_two_hex {c1 c2 : Char} {v1 v2 : Nat}
    (h1 : hexDigitVal? c1 = some v1) (h2 : hexDigitVal? c2 = some v2) :
    pyIntBody [c1, c2] = some (16 * v1 + v2) := by
  rw [pyIntBody_cons_cons (by
      rintro ⟨rfl, hx⟩
      rcases hx with rfl | rfl
      · exact (hexVal_ne_x h2).1 rfl
      · exact (hexVal_ne_x h2).2 rfl),
    hexDigitsStart_cons h1,
    hexDigitsRest_cons v1 (hexVal_ne_under h2) h2, hexDigitsRest_nil]

theorem dropWhile_false {p : Char → Bool} :
    ∀ l : List Char, (∀ c ∈ l, p c = false) → l.dropWhile p = l := by
  intro l h
  cases l with
  | nil => rfl
  | cons a t =>
    rw [List.dropWhile_cons, h a (List.mem_cons_self a t)]
    simp

theorem pyStrip_no_space {l : List Char}
    (h : ∀ c ∈ l, isPySpace c = false) : pyStrip l = l := by
  unfold pyStrip
  rw [dropWhile_false l h,
    dropWhile_false l.reverse (fun c hc => h c (List.mem_reverse.mp hc)),
    List.reverse_reverse]

theorem data_mk (l : List Char) : (String.mk l).data = l := rfl

theorem pyInt16_two_hex {c1 c2 : Char} {v1 v2 : Nat}
    (h1 : hexDigitVal? c1 = some v1) (h2 : hexDigitVal? c2 = some v2) :
    pyInt16 ⟨[c1, c2]⟩ = some ((16 * v1 + v2 : Nat) : Int) := by
  unfold pyInt16
  rw [data_mk, pyStrip_no_space (by
      intro c hc
      rcases List.mem_cons.mp hc with rfl | hc
      · exact hexVal_not_space h1
      · rcases List.mem_cons.mp hc with rfl | hc
        · exact hexVal_not_space h2
        · cases hc),
    pyIntSigned_not_sign (hexVal_ne_plus h1) (hexVal_ne_minus h1),
    pyIntBody_two_hex h1 h2]
  rfl

theorem pyInt16_one_hex {c : Char} {v : Nat} (h : hexDigitVal? c = some v) :
    pyInt16 ⟨[c]⟩ = some (v : Int) := by
  unfold pyInt16
  rw [data_mk, pyStrip_no_space (by
      intro x hx
      rcases List.mem_cons.mp hx with rfl | hx
      · exact hexVal_not_space h
      · cases hx),
    pyIntSigned_not_sign (hexVal_ne_plus h) (hexVal_ne_minus h),
    pyIntBody_single, hexDigitsStart_cons h, hexDigitsRest_nil]
  rfl

/-! ### Parsing six hex digits -/

theorem strippedHex_cons_ne {c : Char} {rest : List Char} (h : c ≠ '#') :
    strippedHex ⟨c :: rest⟩ = c :: rest := by
  simp [strippedHex, List.dropWhile_cons, h]

theorem strippedHex_hash {rest : List Char} :
    strippedHex ⟨'#' :: rest⟩ = strippedHex ⟨rest⟩ := by
  simp [strippedHex, List.dropWhile_cons]

theorem hex2rgbTriple_digits {c0 c1 c2 c3 c4 c5 : Char} {v0 v1 v2 v3 v4 v5 : Nat}
    (h0 : hexDigitVal? c0 = some v0) (h1 : hexDigitVal? c1 = some v1)
    (h2 : hexDigitVal? c2 = some v2) (h3 : hexDigitVal? c3 = some v3)
    (h4 : hexDigitVal? c4 = some v4) (h5 : hexDigitVal? c5 = some v5) :
    hex2rgbTriple ⟨[c0, c1, c2, c3, c4, c5]⟩ =
      some (((16 * v0 + v1 : Nat) : Int), ((16 * v2 + v3 : Nat) : Int),
        ((16 * v4 + v5 : Nat) : Int)) := by
  unfold hex2rgbTriple
  rw [strippedHex_cons_ne (hexVal_ne_hash h0)]
  rw [show pySlice [c0, c1, c2, c3, c4, c5] 0 2 = [c0, c1] from rfl,
    show pySlice [c0, c1, c2, c3, c4, c5] 2 4 = [c2, c3] from rfl,
    show pySlice [c0, c1, c2, c3, c4, c5] 4 6 = [c4, c5] from rfl,
    pyInt16_two_hex h0 h1, pyInt16_two_hex h2 h3, pyInt16_two_hex h4 h5]

theorem hex2rgbTriple_hash_digits {c0 c1 c2 c3 c4 c5 : Char}
    {v0 v1 v2 v3 v4 v5 : Nat}
    (h0 : hexDigitVal? c0 = some v0) (h1 : hexDigitVal? c1 = some v1)
    (h2 : hexDigitVal? c2 = some v2) (h3 : hexDigitVal? c3 = some v3)
    (h4 : hexDigitVal? c4 = some v4) (h5 : hexDigitVal? c5 = some v5) :
    hex2rgbTriple ⟨'#' :: [c0, c1, c2, c3, c4, c5]⟩ =
      some (((16 * v0 + v1 : Nat) : Int), ((16 * v2 + v3 : Nat) : Int),
        ((16 * v4 + v5 : Nat) : Int)) := by
  unfold hex2rgbTriple
  rw [show strippedHex ⟨'#' :: [c0, c1, c2, c3, c4, c5]⟩
        = strippedHex ⟨[c0, c1, c2, c3, c4, c5]⟩ from strippedHex_hash,
    strippedHex_cons_ne (hexVal_ne_hash h0)]
  rw [show pySlice [c0, c1, c2, c3, c4, c5] 0 2 = [c0, c1] from rfl,
    show pySlice [c0, c1, c2, c3, c4, c5] 2 4 = [c2, c3] from rfl,
    show pySlice [c0, c1, c2, c3, c4, c5] 4 6 = [c4, c5] from rfl,
    pyInt16_two_hex h0 h1, pyInt16_two_hex h2 h3, pyInt16_two_hex h4 h5]

/-! ### Exact characterization of accepted two-character slices -/

theorem pyInt16_nil : pyInt16 ⟨[]⟩ = none := rfl

theorem hexDigitsRest_under_nil (acc : Nat) : hexDigitsRest ['_'] acc = none := rfl

theorem pyIntSigned_nil : pyIntSigned [] = none := rfl

theorem pyIntSigned_sign_single {c : Char} (h : c = '+' ∨ c = '-') :
    pyIntSigned [c] = none := by
  rcases h with rfl | rfl <;> rfl

theorem not_sign_of_not_or {c : Char} (h : ¬(c = '+' ∨ c = '-')) :
    c ≠ '+' ∧ c ≠ '-' :=
  ⟨fun he => h (Or.inl he), fun he => h (Or.inr he)⟩

theorem pyInt16_sign_pair {cs c2 : Char} (hsign : cs = '+' ∨ cs = '-') :
    (pyInt16 ⟨[cs, c2]⟩).isSome = sliceOkB [cs, c2] := by
  have hs1 : isPySpace cs = false := by rcases hsign with rfl | rfl <;> rfl
  have hval1 : hexDigitVal? cs = none := by rcases hsign with rfl | rfl <;> rfl
  have hsgn : (cs = '+' || cs = '-') = true := by
    rcases hsign with rfl | rfl <;> simp
  by_cases hs2 : isPySpace c2 = true
  · have hval2 : hexDigitVal? c2 = none := space_not_hexVal hs2
    have hstrip : pyStrip [cs, c2] = [cs] := by
      simp [pyStrip, List.dropWhile_cons, hs1, hs2]
    unfold pyInt16
    rw [data_mk, hstrip, pyIntSigned_sign_single hsign]
    simp [sliceOkB, hval1, hval2]
  · replace hs2 : isPySpace c2 = false := by simpa using hs2
    have hstrip : pyStrip [cs, c2] = [cs, c2] := by
      simp [pyStrip, List.dropWhile_cons, hs1, hs2]
    unfold pyInt16
    rw [data_mk, hstrip]
    have hiss : (pyIntSigned (cs :: [c2])).isSome = (pyIntBody [c2]).isSome := by
      rcases hsign with rfl | rfl
      · simp only [pyIntSigned, reduceIte]
        cases pyIntBody [c2] <;> rfl
      · simp only [pyIntSigned, reduceIte]
        cases pyIntBody [c2] <;> rfl
    rw [hiss, pyIntBody_single]
    cases h2 : hexDigitVal? c2 with
    | some v2 =>
      rw [hexDigitsStart_cons h2, hexDigitsRest_nil]
      simp [sliceOkB, hsgn, h2]
    | none =>
      rw [hexDigitsStart_bad h2]
      simp [sliceOkB, hval1, h2, hs2]

theorem pyInt16_isSome_iff_sliceOk :
    ∀ l : List Char, l.length ≤ 2 → (pyInt16 ⟨l⟩).isSome = sliceOkB l := by
  intro l hl
  match l with
  | [] => rfl
  | [c] =>
    by_cases hs : isPySpace c = true
    · have hval : hexDigitVal? c = none := space_not_hexVal hs
      have hstrip : pyStrip [c] = [] := by
        simp [pyStrip, List.dropWhile_cons, hs]
      unfold pyInt16
      rw [data_mk, hstrip, pyIntSigned_nil]
      simp [sliceOkB, hval]
    · replace hs : isPySpace c = false := by simpa using hs
      by_cases hp : c = '+'
      · subst hp
        rw [show pyInt16 ⟨['+']⟩ = none from rfl]
        simp [sliceOkB, show hexDigitVal? '+' = none from rfl]
      · by_cases hm : c = '-'
        · subst hm
          rw [show pyInt16 ⟨['-']⟩ = none from rfl]
          simp [sliceOkB, show hexDigitVal? '-' = none from rfl]
        · unfold pyInt16
          rw [data_mk, pyStrip_no_space (by
              intro x hx
              rcases List.mem_cons.mp hx with rfl | hx
              · exact hs
              · cases hx),
            pyIntSigned_not_sign hp hm, pyIntBody_single]
          cases h : hexDigitVal? c with
          | some v =>
            rw [hexDigitsStart_cons h, hexDigitsRest_nil]
            simp [sliceOkB, h]
          | none =>
            rw [hexDigitsStart_bad h]
            simp [sliceOkB, h]
  | [c1, c2] =>
    cases h1 : hexDigitVal? c1 with
    | some v1 =>
      have hs1 : isPySpace c1 = false := hexVal_not_space h1
      cases h2 : hexDigitVal? c2 with
      | some v2 =>
        rw [pyInt16_two_hex h1 h2]
        simp [sliceOkB, h1, h2]
      | none =>
        by_cases hs2 : isPySpace c2 = true
        · have hstrip : pyStrip [c1, c2] = [c1] := by
            simp [pyStrip, List.dropWhile_cons, hs1, hs2]
          unfold pyInt16
          rw [data_mk, hstrip,
            pyIntSigned_not_sign (hexVal_ne_plus h1) (hexVal_ne_minus h1),
            pyIntBody_single, hexDigitsStart_cons h1, hexDigitsRest_nil]
          simp [sliceOkB, h1, h2, hs2]
        · replace hs2 : isPySpace c2 = false := by simpa using hs2
          have hstrip : pyStrip [c1, c2] = [c1, c2] := by
            simp [pyStrip, List.dropWhile_cons, hs1, hs2]
          unfold pyInt16
          rw [data_mk, hstrip,
            pyIntSigned_not_sign (hexVal_ne_plus h1) (hexVal_ne_minus h1)]
          by_cases hx : c1 = '0' ∧ (c2 = 'x' ∨ c2 = 'X')
          · obtain ⟨rfl, hc2⟩ := hx
            have hbody : pyIntBody ['0', c2] = none := by
              simp only [pyIntBody]
              rw [if_pos (And.intro trivial hc2)]
              rfl
            rw [hbody]
            simp [sliceOkB, h1, h2, hs2]
          · rw [pyIntBody_cons_cons hx, hexDigitsStart_cons h1]
            by_cases hu : c2 = '_'
            · subst hu
              rw [hexDigitsRest_under_nil]
              simp [sliceOkB, h1, h2, hs2]
            · rw [hexDigitsRest_bad v1 hu h2]
              simp [sliceOkB, h1, h2, hs2]
    | none =>
      by_cases hp1 : c1 = '+' ∨ c1 = '-'
      · exact pyInt16_sign_pair hp1
      · obtain ⟨hp, hm⟩ := not_sign_of_not_or hp1
        by_cases hs1 : isPySpace c1 = true
        · by_cases hs2 : isPySpace c2 = true
          · have hstrip : pyStrip [c1, c2] = [] := by
              simp [pyStrip, List.dropWhile_cons, hs1, hs2]
            unfold pyInt16
            rw [data_mk, hstrip, pyIntSigned_nil]
            simp [sliceOkB, h1, space_not_hexVal hs2]
          · replace hs2 : isPySpace c2 = false := by simpa using hs2
            have hstrip : pyStrip [c1, c2] = [c2] := by
              simp [pyStrip, List.dropWhile_cons, hs1, hs2]
            unfold pyInt16
            rw [data_mk, hstrip]
            by_cases hp2 : c2 = '+' ∨ c2 = '-'
            · have hval2 : hexDigitVal? c2 = none := by
                rcases hp2 with rfl | rfl <;> rfl
              rw [pyIntSigned_sign_single hp2]
              simp [sliceOkB, h1, hval2]
            · obtain ⟨hp2a, hp2b⟩ := not_sign_of_not_or hp2
              rw [pyIntSigned_not_sign hp2a hp2b, pyIntBody_single]
              cases h2 : hexDigitVal? c2 with
              | some v2 =>
                rw [hexDigitsStart_cons h2, hexDigitsRest_nil]
                simp [sliceOkB, hs1, h2]
              | none =>
                rw [hexDigitsStart_bad h2]
                simp [sliceOkB, h1, h2]
        · replace hs1 : isPySpace c1 = false := by simpa using hs1
          by_cases hs2 : isPySpace c2 = true
          · have hstrip : pyStrip [c1, c2] = [c1] := by
              simp [pyStrip, List.dropWhile_cons, hs1, hs2]
            unfold pyInt16
            rw [data_mk, hstrip, pyIntSigned_not_sign hp hm,
              pyIntBody_single, hexDigitsStart_bad h1]
            simp [sliceOkB, h1, hs1, space_not_hexVal hs2]
          · replace hs2 : isPySpace c2 = false := by simpa using hs2
            have hstrip : pyStrip [c1, c2] = [c1, c2] := by
              simp [pyStrip, List.dropWhile_cons, hs1, hs2]
            unfold pyInt16
            rw [data_mk, hstrip, pyIntSigned_not_sign hp hm,
              pyIntBody_cons_cons (by
                rintro ⟨rfl, _⟩
                rw [show hexDigitVal? '0' = some 0 from rfl] at h1
                cases h1),
              hexDigitsStart_bad h1]
            simp [sliceOkB, h1, hs1, hp, hm]

/-! ### Failure characterization of the codec, and registry consequences -/

theorem hex2rgb_none_iff (s : String) :
    hex2rgb s = none ↔ (hexSlices s).all sliceOkB = false := by
  have hlen : ∀ i j : Nat, (pySlice (strippedHex s) i j).length ≤ j - i := by
    intro i j
    simp only [pySlice, List.length_take]
    omega
  have e1 := pyInt16_isSome_iff_sliceOk (pySlice (strippedHex s) 0 2)
    (by simpa using hlen 0 2)
  have e2 := pyInt16_isSome_iff_sliceOk (pySlice (strippedHex s) 2 4)
    (by simpa using hlen 2 4)
  have e3 := pyInt16_isSome_iff_sliceOk (pySlice (strippedHex s) 4 6)
    (by simpa using hlen 4 6)
  unfold hex2rgb
  rw [Option.map_eq_none']
  unfold hex2rgbTriple
  simp only [hexSlices, List.all_cons, List.all_nil, Bool.and_true]
  cases hq1 : pyInt16 ⟨pySlice (strippedHex s) 0 2⟩ with
  | none =>
    rw [hq1] at e1
    simp only [Option.isSome_none] at e1
    simp [← e1]
  | some r =>
    rw [hq1] at e1
    simp only [Option.isSome_some] at e1
    cases hq2 : pyInt16 ⟨pySlice (strippedHex s) 2 4⟩ with
    | none =>
      rw [hq2] at e2
      simp only [Option.isSome_none] at e2
      simp [← e1, ← e2]
    | some g =>
      rw [hq2] at e2
      simp only [Option.isSome_some] at e2
      cases hq3 : pyInt16 ⟨pySlice (strippedHex s) 4 6⟩ with
      | none =>
        rw [hq3] at e3
        simp only [Option.isSome_none] at e3
        simp [← e1, ← e2, ← e3]
      | some b =>
        rw [hq3] at e3
        simp only [Option.isSome_some] at e3
        simp [← e1, ← e2, ← e3]

theorem scheme_facts_of_mem {p : String × Scheme} (hmem : p ∈ color_schemes) :
    isHexColorB p.2.fg = true ∧ isHexColorB p.2.bg = true ∧
    p.2.colors.length = 16 ∧ (∀ c ∈ p.2.colors, isHexColorB c = true) ∧
    p.1.isEmpty = false ∧ p.1.length ≤ 39 := by
  have hb := List.all_eq_true.mp registry_bulk p hmem
  simp only [schemeOk, Bool.and_eq_true, decide_eq_true_eq,
    Bool.not_eq_true'] at hb
  obtain ⟨⟨⟨⟨⟨hfg, hbg⟩, hlen16⟩, hcols⟩, hne⟩, h39⟩ := hb
  exact ⟨hfg, hbg, hlen16, List.all_eq_true.mp hcols, hne, h39⟩

theorem dict_some_of_mem {p : String × Scheme} (hmem : p ∈ color_schemes) :
    (hex2rgbDict p.2).isSome = true :=
  List.all_eq_true.mp registry_dict_some p hmem

theorem showColorsOut_some_of_mem {p : String × Scheme}
    (hmem : p ∈ color_schemes) : (showColorsOut p.1 p.2).isSome = true := by
  have hd := dict_some_of_mem hmem
  unfold showColorsOut
  cases hq : hex2rgbDict p.2 with
  | none => rw [hq] at hd; cases hd
  | some rgb => rfl

/-! ### Claim theorems -/

theorem length_of_isHexColorB {s : String} (h : isHexColorB s = true) :
    s.length = 7 := by
  unfold isHexColorB at h
  split at h
  · rename_i rest heq
    simp only [Bool.and_eq_true, decide_eq_true_eq] at h
    have : s.length = s.data.length := rfl
    rw [this, heq]
    simp [h.1]
  · cases h

/-- C8: every registry record has a 16-entry palette and every color value in
it (foreground, background, all palette entries) is a `'#'` followed by
exactly six hexadecimal digits.  Immutability holds by construction: the
registry is a constant of the embedding, and the source never assigns to
`color_schemes` after the literal at lines 120-511. -/
theorem claim_C8 (p : String × Scheme) (hmem : p ∈ color_schemes) :
    p.2.colors.length = 16 ∧
    isHexColorB p.2.fg = true ∧ isHexColorB p.2.bg = true ∧
    ∀ c ∈ p.2.colors, isHexColorB c = true := by
  obtain ⟨hfg, hbg, hlen, hcols, _, _⟩ := scheme_facts_of_mem hmem
  exact ⟨hlen, hfg, hbg, hcols⟩

/-- Witness for C8 at the first registry entry. -/
theorem claim_C8_witness :
    ("0x96f", scheme0) ∈ color_schemes ∧
    (scheme0.colors.length = 16 ∧
      isHexColorB "#fcfcfa" = true ∧ isHexColorB "#262427" = true ∧
      ∀ c ∈ scheme0.colors,
        isHexColorB c = true) :=
  ⟨by decide, claim_C8 ("0x96f", scheme0) (by decide)⟩

/-- C9: the List action prints every scheme name, one per line, in registry
declaration order; the line count equals the registry size and no name
repeats. -/
theorem claim_C9 (search : String → String → Bool) :
    mainOut search ⟨none, none, true, false⟩ =
      some (String.join (schemeNames.map (fun n => n ++ "\n"))) ∧
    schemeNames.length = color_schemes.length ∧
    schemeNames.Nodup := by
  refine ⟨?_, by simp [schemeNames], strictIncB_nodup _ names_strictInc⟩
  have h1 : mainOut search ⟨none, none, true, false⟩ =
      some (String.join (color_schemes.map (fun p => p.1 ++ "\n"))) := rfl
  rw [h1, schemeNames, List.map_map]
  rfl

/-- C10: with an empty Search pattern the dispatcher falls through every
branch (Python truthiness of the empty string) and the program prints
nothing at all. -/
theorem claim_C10 (search : String → String → Bool) :
    mainOut search ⟨none, some "", false, false⟩ = some "" := rfl

/-- Counterexample to C4 as stated: for the first registry scheme the styled
title segment is 84 characters wide, not 83. -/
theorem claim_C4_cex :
    color_schemes.lookup "0x96f" =
      some scheme0 ∧
    (titleSegment "0x96f" scheme0).length ≠ 83 := by
  exact ⟨by decide, by decide⟩

/-- C4 (corrected): for every registry scheme the styled segment of the title
line (the text between the truecolor codes and the reset) is exactly 84
characters wide: one leading space plus the title padded to 83. -/
theorem claim_C4 (name : String) (s : Scheme)
    (h : color_schemes.lookup name = some s) :
    (titleSegment name s).length = 84 := by
  obtain ⟨hfg, hbg, _, _, _, h39⟩ := scheme_facts_of_mem (lookup_mem h)
  have h39n : name.length ≤ 39 := h39
  have lfg : s.fg.length = 7 := length_of_isHexColorB hfg
  have lbg : s.bg.length = 7 := length_of_isHexColorB hbg
  unfold titleSegment
  simp only [String.length_append]
  have hrep : ∀ n : Nat, (String.mk (List.replicate n ' ')).length = n := by
    intro n
    show (List.replicate n ' ').length = n
    simp
  rw [hrep]
  have l1 : (" " : String).length = 1 := rfl
  have l2 : (" | Foreground: " : String).length = 15 := rfl
  have l3 : (" | Background: " : String).length = 15 := rfl
  rw [l1, l2, l3, lfg, lbg]
  omega

/-- Witness for the corrected C4 at the first registry entry. -/
theorem claim_C4_witness :
    (titleSegment "0x96f" scheme0).length = 84 :=
  claim_C4 "0x96f" scheme0 (by decide)

/-- C1: for every registry scheme, the palette-set output of SetScheme is the
OSC introducer `ESC]4;`, a semicolon-separated list of exactly 16
`index;#hexcolor` pairs whose pair `i` carries index `i` (hence indices 0-15
in strictly increasing order) and palette entry `i`, and the BEL
terminator. -/
theorem claim_C1 (name : String) (s : Scheme)
    (h : color_schemes.lookup name = some s) :
    ∃ pairs : List String,
      setPaletteSeq s = "\x1b]4;" ++ String.intercalate ";" pairs ++ "\x07" ∧
      pairs.length = 16 ∧ s.colors.length = 16 ∧
      ∀ (i : Nat) (hp : i < pairs.length) (hc : i < s.colors.length),
        pairs.get ⟨i, hp⟩ = toString i ++ ";" ++ s.colors.get ⟨i, hc⟩ := by
  obtain ⟨_, _, hlen16, _, _, _⟩ := scheme_facts_of_mem (lookup_mem h)
  refine ⟨(List.range 16).map (fun x => toString x ++ ";" ++ s.colors.getD x ""),
    rfl, by simp, hlen16, ?_⟩
  intro i hp hc
  simp only [List.get_eq_getElem, List.getElem_map, List.getElem_range,
    List.getD_eq_getElem?_getD, List.getElem?_eq_getElem hc, Option.getD_some]

/-- Witness for C1 at the first registry entry. -/
theorem claim_C1_witness :
    ∃ pairs : List String,
      setPaletteSeq scheme0 = "\x1b]4;" ++ String.intercalate ";" pairs ++ "\x07" ∧
      pairs.length = 16 ∧ scheme0.colors.length = 16 ∧
      ∀ (i : Nat) (hp : i < pairs.length) (hc : i < scheme0.colors.length),
        pairs.get ⟨i, hp⟩ = toString i ++ ";" ++ scheme0.colors.get ⟨i, hc⟩ :=
  claim_C1 "0x96f" scheme0 (by decide)

/-- Counterexample to C2 as stated: `"fffffff"` is not exactly six hex digits
after stripping the optional leading hash, yet `_hex2rgb` returns a value
(only the first six characters of the stripped input are ever examined). -/
theorem claim_C2_cex :
    hex2rgb "fffffff" = some "255;255;255" ∧
    sixHexAfterOneHash "fffffff" = false :=
  ⟨by decide, by decide⟩

/-- C2 (corrected): on ASCII input, `_hex2rgb` fails exactly when one of the
three two-character slices of the first six characters after removing all
leading `'#'` characters is not accepted by `int(·, 16)` — i.e. is not one or
two hex digits, a sign or whitespace character followed by a hex digit, or a
hex digit followed by whitespace. -/
theorem claim_C2 (s : String) (hascii : ∀ c ∈ s.data, c.toNat < 128) :
    hex2rgb s = none ↔ ¬((hexSlices s).all sliceOkB = true) := by
  rw [hex2rgb_none_iff]
  simp

/-- Witness for the corrected C2 on a failing input. -/
theorem claim_C2_witness :
    (∀ c ∈ ("zz00ff" : String).data, c.toNat < 128) ∧
    (hex2rgb "zz00ff" = none ↔ ¬((hexSlices "zz00ff").all sliceOkB = true)) :=
  ⟨by decide, claim_C2 "zz00ff" (by decide)⟩

/-- C3: the conversion strips the leading hash, splits the remainder into
three two-character groups, and parses each group as a base-16 integer below
256; in particular `"#ff00ff"` and `"ff00ff"` both convert to
`(255, 0, 255)`. -/
theorem claim_C3 :
    (∀ (c0 c1 c2 c3 c4 c5 : Char) (v0 v1 v2 v3 v4 v5 : Nat),
      hexDigitVal? c0 = some v0 → hexDigitVal? c1 = some v1 →
      hexDigitVal? c2 = some v2 → hexDigitVal? c3 = some v3 →
      hexDigitVal? c4 = some v4 → hexDigitVal? c5 = some v5 →
      hex2rgbTriple ⟨[c0, c1, c2, c3, c4, c5]⟩ =
        some (((16 * v0 + v1 : Nat) : Int), ((16 * v2 + v3 : Nat) : Int),
          ((16 * v4 + v5 : Nat) : Int)) ∧
      hex2rgbTriple ⟨'#' :: [c0, c1, c2, c3, c4, c5]⟩ =
        some (((16 * v0 + v1 : Nat) : Int), ((16 * v2 + v3 : Nat) : Int),
          ((16 * v4 + v5 : Nat) : Int)) ∧
      16 * v0 + v1 < 256 ∧ 16 * v2 + v3 < 256 ∧ 16 * v4 + v5 < 256) ∧
    hex2rgbTriple "#ff00ff" = some (255, 0, 255) ∧
    hex2rgbTriple "ff00ff" = some (255, 0, 255) ∧
    hex2rgb "#ff00ff" = some "255;0;255" ∧
    hex2rgb "ff00ff" = some "255;0;255" := by
  refine ⟨?_, by decide, by decide, by decide, by decide⟩
  intro c0 c1 c2 c3 c4 c5 v0 v1 v2 v3 v4 v5 h0 h1 h2 h3 h4 h5
  refine ⟨hex2rgbTriple_digits h0 h1 h2 h3 h4 h5,
    hex2rgbTriple_hash_digits h0 h1 h2 h3 h4 h5, ?_, ?_, ?_⟩
  · have := hexVal_lt16 h0
    have := hexVal_lt16 h1
    omega
  · have := hexVal_lt16 h2
    have := hexVal_lt16 h3
    omega
  · have := hexVal_lt16 h4
    have := hexVal_lt16 h5
    omega

/-- Witness for C3 at the hex digits of `"ff00ff"`. -/
theorem claim_C3_witness :
    hex2rgbTriple ⟨['f', 'f', '0', '0', 'f', 'f']⟩ =
      some (((16 * 15 + 15 : Nat) : Int), ((16 * 0 + 0 : Nat) : Int),
        ((16 * 15 + 15 : Nat) : Int)) ∧
    hex2rgbTriple ⟨'#' :: ['f', 'f', '0', '0', 'f', 'f']⟩ =
      some (((16 * 15 + 15 : Nat) : Int), ((16 * 0 + 0 : Nat) : Int),
        ((16 * 15 + 15 : Nat) : Int)) ∧
    16 * 15 + 15 < 256 ∧ 16 * 0 + 0 < 256 ∧ 16 * 15 + 15 < 256 :=
  claim_C3.1 'f' 'f' '0' '0' 'f' 'f' 15 15 0 0 15 15
    (by decide) (by decide) (by decide) (by decide) (by decide) (by decide)

theorem toHexDigitChar_toLower {c : Char} {v : Nat}
    (h : hexDigitVal? c = some v) : toHexDigitChar v = c.toLower := by
  rcases hexDigitVal_ranges h with ⟨a, b, e⟩ | ⟨a, b, e⟩ | ⟨a, b, e⟩
  · subst e
    unfold toHexDigitChar
    rw [if_pos (by omega), show 48 + (c.toNat - 48) = c.toNat from by omega,
      Char.ofNat_toNat]
    simp only [Char.toLower]
    rw [if_neg (by omega)]
  · subst e
    unfold toHexDigitChar
    rw [if_neg (by omega), show 87 + (c.toNat - 87) = c.toNat from by omega,
      Char.ofNat_toNat]
    simp only [Char.toLower]
    rw [if_neg (by omega)]
  · subst e
    unfold toHexDigitChar
    rw [if_neg (by omega)]
    simp only [Char.toLower]
    rw [if_pos (by omega)]
    congr 1
    omega

theorem toHex2_group {c d : Char} {vc vd : Nat}
    (hc : hexDigitVal? c = some vc) (hd : hexDigitVal? d = some vd) :
    toHex2 (16 * vc + vd) = ⟨[c.toLower, d.toLower]⟩ := by
  have hvd := hexVal_lt16 hd
  have h1 : (16 * vc + vd) / 16 = vc := by omega
  have h2 : (16 * vc + vd) % 16 = vd := by omega
  unfold toHex2
  rw [h1, h2, toHexDigitChar_toLower hc, toHexDigitChar_toLower hd]

/-- C7: for every string of six hex digits, with or without a leading hash,
converting to the RGB triple and re-encoding each component as a two-digit
base-16 group reproduces the six original digits up to case
normalization. -/
theorem claim_C7 (c0 c1 c2 c3 c4 c5 : Char) (v0 v1 v2 v3 v4 v5 : Nat)
    (h0 : hexDigitVal? c0 = some v0) (h1 : hexDigitVal? c1 = some v1)
    (h2 : hexDigitVal? c2 = some v2) (h3 : hexDigitVal? c3 = some v3)
    (h4 : hexDigitVal? c4 = some v4) (h5 : hexDigitVal? c5 = some v5) :
    ∃ r g b : Int,
      hex2rgbTriple ⟨[c0, c1, c2, c3, c4, c5]⟩ = some (r, g, b) ∧
      hex2rgbTriple ⟨'#' :: [c0, c1, c2, c3, c4, c5]⟩ = some (r, g, b) ∧
      toHex2 r.toNat ++ toHex2 g.toNat ++ toHex2 b.toNat =
        ⟨[c0, c1, c2, c3, c4, c5].map Char.toLower⟩ := by
  refine ⟨_, _, _, hex2rgbTriple_digits h0 h1 h2 h3 h4 h5,
    hex2rgbTriple_hash_digits h0 h1 h2 h3 h4 h5, ?_⟩
  rw [Int.toNat_ofNat, Int.toNat_ofNat, Int.toNat_ofNat,
    toHex2_group h0 h1, toHex2_group h2 h3, toHex2_group h4 h5]
  rfl

/-- Witness for C7 at the hex digits of `"Ff00af"`. -/
theorem claim_C7_witness :
    ∃ r g b : Int,
      hex2rgbTriple ⟨['F', 'f', '0', '0', 'a', 'f']⟩ = some (r, g, b) ∧
      hex2rgbTriple ⟨'#' :: ['F', 'f', '0', '0', 'a', 'f']⟩ = some (r, g, b) ∧
      toHex2 r.toNat ++ toHex2 g.toNat ++ toHex2 b.toNat =
        ⟨['F', 'f', '0', '0', 'a', 'f'].map Char.toLower⟩ :=
  claim_C7 'F' 'f' '0' '0' 'a' 'f' 15 15 0 0 10 15
    (by decide) (by decide) (by decide) (by decide) (by decide) (by decide)

/-- C5: SetScheme(name) writes the palette-set sequence, then the OSC-10
foreground sequence, then the OSC-11 background sequence, in that order; and
for `catppuccin_mocha` (background `#1e1e2e`, palette entry 1 `#f38ba8`) the
palette-set sequence contains `1;#f38ba8` and the output contains a
background-set sequence carrying `#1e1e2e`. -/
theorem claim_C5 :
    (∀ (search : String → String → Bool) (name : String) (s : Scheme),
      color_schemes.lookup name = some s →
      mainOut search ⟨some name, none, false, false⟩ =
        some (setPaletteSeq s ++ "\n" ++ ("\x1b]10;" ++ s.fg ++ "\x07")
          ++ ("\x1b]11;" ++ s.bg ++ "\x07") ++ "\n")) ∧
    color_schemes.lookup "catppuccin_mocha" = some mochaScheme ∧
    mochaScheme.bg = "#1e1e2e" ∧
    (∃ l r : String, setPaletteSeq mochaScheme = l ++ "1;#f38ba8" ++ r) ∧
    (∃ l r : String,
      setColorsOut mochaScheme = l ++ ("\x1b]11;" ++ "#1e1e2e" ++ "\x07") ++ r) := by
  refine ⟨?_, by decide, rfl, ?_, ?_⟩
  · intro search name s h
    obtain ⟨_, _, _, _, hne, _⟩ := scheme_facts_of_mem (lookup_mem h)
    have hne2 : name.isEmpty = false := hne
    have ht : optTruthy (some name) = true := by
      simp [optTruthy, hne2]
    simp only [mainOut]
    rw [ht, if_pos rfl, show (some name).getD "" = name from rfl, h]
    rfl
  · exact ⟨"\x1b]4;0;#45475a;",
      ";2;#a6e3a1;3;#f9e2af;4;#89b4fa;5;#f5c2e7;6;#94e2d5;7;#a6adc8;8;#585b70;9;#f37799;10;#89d88b;11;#ebd391;12;#74a8fc;13;#f2aede;14;#6bd7ca;15;#bac2de\x07",
      by decide⟩
  · exact ⟨"\x1b]4;0;#45475a;1;#f38ba8;2;#a6e3a1;3;#f9e2af;4;#89b4fa;5;#f5c2e7;6;#94e2d5;7;#a6adc8;8;#585b70;9;#f37799;10;#89d88b;11;#ebd391;12;#74a8fc;13;#f2aede;14;#6bd7ca;15;#bac2de\x07\n\x1b]10;#cdd6f4\x07",
      "\n",
      by decide⟩

/-- Witness for C5 (its universally quantified first conjunct) at the first
registry entry. -/
theorem claim_C5_witness :
    mainOut (fun _ _ => false) ⟨some "0x96f", none, false, false⟩ =
      some (setPaletteSeq scheme0 ++ "\n" ++ ("\x1b]10;" ++ scheme0.fg ++ "\x07")
        ++ ("\x1b]11;" ++ scheme0.bg ++ "\x07") ++ "\n") :=
  claim_C5.1 (fun _ _ => false) "0x96f" scheme0 (by decide)

/-- C6: for every nonempty pattern, Search prints one leading blank line and
one preview block per matching registry name, in declaration order; with zero
matches it prints the blank line alone. -/
theorem claim_C6 (search : String → String → Bool) (pat : String)
    (hpat : pat ≠ "") :
    ∃ blocks : List String,
      mainOut search ⟨none, some pat, false, false⟩ =
        some ("\n" ++ String.join blocks) ∧
      blocks.length = (color_schemes.filter (fun p => search pat p.1)).length ∧
      (∀ (i : Nat)
          (hf : i < (color_schemes.filter (fun p => search pat p.1)).length)
          (hb : i < blocks.length),
        showColorsOut
            ((color_schemes.filter (fun p => search pat p.1)).get ⟨i, hf⟩).1
            ((color_schemes.filter (fun p => search pat p.1)).get ⟨i, hf⟩).2 =
          some (blocks.get ⟨i, hb⟩)) ∧
      (color_schemes.filter (fun p => search pat p.1) = [] →
        mainOut search ⟨none, some pat, false, false⟩ = some "\n") := by
  have hemp : pat.isEmpty = false := by
    rw [Bool.eq_false_iff]
    intro hb
    exact hpat ((String.isEmpty_iff pat).mp hb)
  have ht : optTruthy (some pat) = true := by
    simp [optTruthy, hemp]
  have hall : ∀ x ∈ color_schemes.filter (fun p => search pat p.1),
      (showColorsOut x.1 x.2).isSome = true := by
    intro x hx
    exact showColorsOut_some_of_mem (List.mem_of_mem_filter hx)
  obtain ⟨bs, hbs, hlen, hpt⟩ :=
    optMapList_some_of_isSome (fun p => showColorsOut p.1 p.2)
      (color_schemes.filter (fun p => search pat p.1)) hall
  have hmain : mainOut search ⟨none, some pat, false, false⟩ =
      some ("\n" ++ String.join bs) := by
    simp only [mainOut]
    rw [show optTruthy none = false from rfl, if_neg Bool.false_ne_true, ht,
      if_pos rfl, show (some pat).getD "" = pat from rfl, hbs]
  refine ⟨bs, hmain, hlen, ?_, ?_⟩
  · intro i hf hb
    exact hpt i hf hb
  · intro hfil
    rw [hfil] at hbs
    have : bs = [] := by
      have := hbs
      simp [optMapList] at this
      exact this
    rw [hmain, this]
    rfl

/-- Witness for C6 with a matcher that accepts nothing. -/
theorem claim_C6_witness :
    ∃ blocks : List String,
      mainOut (fun _ _ => false) ⟨none, some "x", false, false⟩ =
        some ("\n" ++ String.join blocks) ∧
      blocks.length =
        (color_schemes.filter
          (fun p => (fun _ _ => false : String → String → Bool) "x" p.1)).length ∧
      (∀ (i : Nat)
          (hf : i < (color_schemes.filter
            (fun p => (fun _ _ => false : String → String → Bool) "x" p.1)).length)
          (hb : i < blocks.length),
        showColorsOut
            ((color_schemes.filter
              (fun p => (fun _ _ => false : String → String → Bool) "x" p.1)).get
                ⟨i, hf⟩).1
            ((color_schemes.filter
              (fun p => (fun _ _ => false : String → String → Bool) "x" p.1)).get
                ⟨i, hf⟩).2 =
          some (blocks.get ⟨i, hb⟩)) ∧
      (color_schemes.filter
          (fun p => (fun _ _ => false : String → String → Bool) "x" p.1) = [] →
        mainOut (fun _ _ => false) ⟨none, some "x", false, false⟩ = some "\n") :=
  claim_C6 (fun _ _ => false) "x" (by decide)
